import Mathlib

/-!
# Gateway operator: condition model, finalizers and reconcile passes

A shallow embedding of the reconciliation code of the gateway operator
(`internal/utils/kubernetes/status.go`, `internal/utils/kubernetes/metadata.go`,
`controllers/controlplane_controller.go`, `controllers/gateway_controller.go`,
`controllers/gateway_controller_reconciler_utils.go`,
`controllers/controlplane_controller_utils.go`,
`internal/validation/dataplane/validation.go`).

Conventions of the embedding:

* Go strings are `String`; `metav1.ConditionStatus`, `ConditionType` and
  `ConditionReason` are string types in the source and stay strings here.
* Instants are integers (nanoseconds) and every read of the clock is an
  explicit argument; a `time.Duration` is an integer in the `int64` range, and
  `Time.Sub` saturates at the ends of that range.
* A resource that is `ConditionsAware` is represented by its list of
  conditions; `GetConditions` / `SetConditions` read and replace that list.
* Calls to the API client are answered by an explicit record of outcomes, and
  a reconcile pass returns the list of calls it issued together with its
  result.
* A Go map is the list of its entries; statements about maps assume distinct
  keys.
-/

namespace GatewayOperator

/-! ## Conditions (`internal/utils/kubernetes/status.go`) -/

/-- The `metav1.Condition` record. -/
structure Condition where
  type : String
  status : String
  observedGeneration : Int
  lastTransitionTime : Int
  reason : String
  message : String
  deriving DecidableEq, Repr, Inhabited

/-- The Go zero value `metav1.Condition{}`. -/
def Condition.zero : Condition :=
  { type := "", status := "", observedGeneration := 0, lastTransitionTime := 0,
    reason := "", message := "" }

def ConditionTrue : String := "True"
def ConditionFalse : String := "False"
def ConditionUnknown : String := "Unknown"

def ReadyType : String := "Ready"
def ProgrammedType : String := "Programmed"
def PendingReason : String := "Pending"
def DependenciesNotReadyReason : String := "DependenciesNotReady"
def ResourceReadyReason : String := "Ready"
def WaitingToBecomeReadyReason : String := "WaitingToBecomeReady"
def ResourceCreatedOrUpdatedReason : String := "ResourceCreatedOrUpdated"
def UnableToProvisionReason : String := "UnableToProvision"
def DependenciesNotReadyMessage : String := "There are other conditions that are not yet ready"
def WaitingToBecomeReadyMessage : String := "Waiting for the resource to become ready"
def ResourceCreatedMessage : String := "Resource has been created"
def ResourceUpdatedMessage : String := "Resource has been updated"

/-- `SetCondition`: copy every condition whose type differs from the new one,
then append the new one. -/
def SetCondition (condition : Condition) (conditions : List Condition) : List Condition :=
  conditions.filter (fun c => decide (c.type ≠ condition.type)) ++ [condition]

/-- `GetCondition`: the first condition of the given type and `true`, or the
zero condition and `false`. -/
def GetCondition (cType : String) : List Condition → Condition × Bool
  | [] => (Condition.zero, false)
  | condition :: rest =>
    if condition.type = cType then (condition, true) else GetCondition cType rest

/-- `IsValidCondition`: the status of the first condition of the given type is
`True`; `false` when there is none. -/
def IsValidCondition (cType : String) : List Condition → Bool
  | [] => false
  | condition :: rest =>
    if condition.type = cType then decide (condition.status = ConditionTrue)
    else IsValidCondition cType rest

/-- `NewCondition`; `now` is the value of `metav1.Now()`. -/
def NewCondition (now : Int) (cType status reason message : String) : Condition :=
  { type := cType, reason := reason, message := message, lastTransitionTime := now,
    status := status, observedGeneration := 0 }

/-- `NewConditionWithGeneration`. -/
def NewConditionWithGeneration (now : Int) (cType status reason message : String)
    (observedGeneration : Int) : Condition :=
  { NewCondition now cType status reason message with observedGeneration := observedGeneration }

/-- `InitReady`. -/
def InitReady (now : Int) (conditions : List Condition) : List Condition :=
  SetCondition
    (NewCondition now ReadyType ConditionFalse DependenciesNotReadyReason
      DependenciesNotReadyMessage) conditions

/-- `InitProgrammed`. -/
def InitProgrammed (now : Int) (conditions : List Condition) : List Condition :=
  SetCondition
    (NewCondition now ProgrammedType ConditionFalse PendingReason DependenciesNotReadyMessage)
    conditions

/-- `areAllConditionsHaveTrueStatus`. -/
def areAllConditionsHaveTrueStatus : List Condition → Bool
  | [] => true
  | condition :: rest =>
    if condition.type = ProgrammedType then areAllConditionsHaveTrueStatus rest
    else if condition.type ≠ ReadyType ∧ condition.status ≠ ConditionTrue then false
    else areAllConditionsHaveTrueStatus rest

/-- `SetReady`; `now` is the value of `metav1.Now()`. -/
def SetReady (now : Int) (conditions : List Condition) (generation : Int) : List Condition :=
  let ready : Condition :=
    { Condition.zero with type := ReadyType, lastTransitionTime := now,
                          observedGeneration := generation }
  if areAllConditionsHaveTrueStatus conditions then
    SetCondition { ready with status := ConditionTrue, reason := ResourceReadyReason } conditions
  else
    SetCondition
      { ready with status := ConditionFalse, reason := DependenciesNotReadyReason,
                   message := DependenciesNotReadyMessage } conditions

/-- The Gateway API reason `GatewayReasonProgrammed`. -/
def GatewayReasonProgrammed : String := "Programmed"

/-- `SetProgrammed`; `now` is the value of `metav1.Now()`. -/
def SetProgrammed (now : Int) (conditions : List Condition) (generation : Int) :
    List Condition :=
  let ready : Condition :=
    { Condition.zero with type := ProgrammedType, lastTransitionTime := now,
                          observedGeneration := generation }
  if areAllConditionsHaveTrueStatus conditions then
    SetCondition { ready with status := ConditionTrue, reason := GatewayReasonProgrammed }
      conditions
  else
    SetCondition
      { ready with status := ConditionFalse, reason := DependenciesNotReadyReason,
                   message := DependenciesNotReadyMessage } conditions

/-- `IsReady`. -/
def IsReady : List Condition → Bool
  | [] => false
  | condition :: rest =>
    if condition.type = ReadyType then decide (condition.status = ConditionTrue)
    else IsReady rest

/-- `IsProgrammed`. -/
def IsProgrammed : List Condition → Bool
  | [] => false
  | condition :: rest =>
    if condition.type = ProgrammedType then decide (condition.status = ConditionTrue)
    else IsProgrammed rest

/-- The loop of `NeedsUpdate` over the conditions of `current`. -/
def needsUpdateLoop (updated : List Condition) : List Condition → Bool
  | [] => false
  | c :: rest =>
    let (u, found) := GetCondition c.type updated
    if !found then true
    else if u.reason ≠ c.reason ∨ u.message ≠ c.message ∨ u.status ≠ c.status then true
    else needsUpdateLoop updated rest

/-- `NeedsUpdate`. -/
def NeedsUpdate (current updated : List Condition) : Bool :=
  if current.length ≠ updated.length then true
  else needsUpdateLoop updated current

/-- What `NeedsUpdate` compares of a condition: type, status, reason and
message (not the observed generation nor the transition time). -/
def Condition.core (c : Condition) : String × String × String × String :=
  (c.type, c.status, c.reason, c.message)

/-! ## Errors (`internal/errors/errors.go`, `fmt.Errorf`, API status errors) -/

/-- Error values. The first four are the sentinel errors of
`internal/errors/errors.go`; `status` is a `k8serrors.StatusError` with its
HTTP code, reason, message, and the kind and cause message of its details; `errorf` is a `fmt.Errorf` without
a wrapped error and `wrap` one that wraps with the verb for wrapping;
`nilPointerDereference` is the run-time panic of reading through a nil
pointer. -/
inductive Err where
  | ErrUnsupportedGateway
  | ErrTooManyDataPlaneNetworkPolicies
  | ErrObjectMissingParametersRef
  | ErrDataPlaneNotSet
  | status (code : Nat) (reason : String) (message : String) (kind : String)
      (causeMessage : String)
  | errorf (message : String)
  | wrap (before : String) (inner : Err) (after : String)
  | nilPointerDereference
  deriving DecidableEq, Repr

/-- The text of `err.Error()`. -/
def Err.Error : Err → String
  | .ErrUnsupportedGateway => "gateway not supported"
  | .ErrTooManyDataPlaneNetworkPolicies => "too many data plane network policies"
  | .ErrObjectMissingParametersRef => "no reference to related objects"
  | .ErrDataPlaneNotSet => "no dataplane name set"
  | .status _ _ message _ _ => message
  | .errorf message => message
  | .wrap before inner after => before ++ inner.Error ++ after
  | .nilPointerDereference => "invalid memory address or nil pointer dereference"

/-- The test `errors.Is(err, target)` for a sentinel target: the error is the
target or wraps it. -/
def Err.Is : Err → Err → Bool
  | .wrap before inner after, target =>
    decide (Err.wrap before inner after = target) || inner.Is target
  | e, target => decide (e = target)

/-! ## Objects -/

/-- The `metav1.OwnerReference` record. -/
structure OwnerReference where
  apiVersion : String
  kind : String
  name : String
  uid : String
  controller : Option Bool
  blockOwnerDeletion : Option Bool
  deriving DecidableEq, Repr

/-- The fields of `metav1.ObjectMeta` the controllers read or write. A
`deletionTimestamp` of `none` is the zero timestamp. -/
structure ObjectMeta where
  name : String
  generateName : String
  nameSpace : String
  uid : String
  generation : Int
  labels : List (String × String)
  ownerReferences : List OwnerReference
  finalizers : List String
  deletionTimestamp : Option Int
  deriving DecidableEq, Repr

/-- The Go zero value `metav1.ObjectMeta{}`. -/
def ObjectMeta.zero : ObjectMeta :=
  { name := "", generateName := "", nameSpace := "", uid := "", generation := 0, labels := [],
    ownerReferences := [], finalizers := [], deletionTimestamp := none }

/-- The `corev1.ObjectFieldSelector` record. -/
structure ObjectFieldSelector where
  apiVersion : String
  fieldPath : String
  deriving DecidableEq, Repr

/-- The `corev1.ConfigMapKeySelector` record: the name of the ConfigMap and the
key. -/
structure ConfigMapKeySelector where
  name : String
  key : String
  deriving DecidableEq, Repr

/-- The `corev1.SecretKeySelector` record: the name of the Secret and the
key. -/
structure SecretKeySelector where
  name : String
  key : String
  deriving DecidableEq, Repr

/-- The `corev1.EnvVarSource` record: a field reference, a key of a ConfigMap, a
key of a Secret, or a resource field kept as text. -/
structure EnvVarSource where
  fieldRef : Option ObjectFieldSelector
  configMapKeyRef : Option ConfigMapKeySelector
  secretKeyRef : Option SecretKeySelector
  otherRef : Option String
  deriving DecidableEq, Repr

/-- The `corev1.EnvVar` record. -/
structure EnvVar where
  name : String
  value : String
  valueFrom : Option EnvVarSource
  deriving DecidableEq, Repr

/-- The fields of `corev1.Container` the controllers read or write. -/
structure Container where
  name : String
  image : String
  env : List EnvVar
  deriving DecidableEq, Repr

/-- A `corev1.PodTemplateSpec`, reduced to the containers of its pod spec. -/
structure PodTemplateSpec where
  containers : List Container
  deriving DecidableEq, Repr

/-- The `DeploymentOptions` record (`apis/v1beta1/shared_types.go`); a nil
pointer is `none`. -/
structure DeploymentOptions where
  replicas : Option Int
  podTemplateSpec : Option PodTemplateSpec
  deriving DecidableEq, Repr

/-- The options of a DataPlane. -/
structure DataPlaneOptions where
  deployment : DeploymentOptions
  deriving DecidableEq, Repr

/-- The options of a ControlPlane: its deployment and the name of its
DataPlane. -/
structure ControlPlaneOptions where
  deployment : DeploymentOptions
  dataPlane : Option String
  deriving DecidableEq, Repr

/-- The Go zero value `DataPlaneOptions{}`. -/
def DataPlaneOptions.zero : DataPlaneOptions :=
  { deployment := { replicas := none, podTemplateSpec := none } }

/-- The Go zero value `ControlPlaneOptions{}`. -/
def ControlPlaneOptions.zero : ControlPlaneOptions :=
  { deployment := { replicas := none, podTemplateSpec := none }, dataPlane := none }

/-- A DataPlane object. -/
structure DataPlane where
  objectMeta : ObjectMeta
  options : DataPlaneOptions
  conditions : List Condition
  deriving DecidableEq, Repr

/-- A ControlPlane object. -/
structure ControlPlane where
  objectMeta : ObjectMeta
  gatewayClass : Option String
  options : ControlPlaneOptions
  conditions : List Condition
  deriving DecidableEq, Repr

/-- The spec of a GatewayConfiguration. -/
structure GatewayConfiguration where
  objectMeta : ObjectMeta
  dataPlaneOptions : Option DataPlaneOptions
  controlPlaneOptions : Option ControlPlaneOptions
  deriving DecidableEq, Repr

/-- The value of `new(operatorv1alpha1.GatewayConfiguration)`. -/
def GatewayConfiguration.zero : GatewayConfiguration :=
  { objectMeta := ObjectMeta.zero, dataPlaneOptions := none, controlPlaneOptions := none }

/-- The `ParametersReference` of a GatewayClass. -/
structure ParametersReference where
  group : String
  kind : String
  name : String
  nameSpace : Option String
  deriving DecidableEq, Repr

/-- A GatewayClass object. -/
structure GatewayClass where
  name : String
  controllerName : String
  parametersRef : Option ParametersReference
  conditions : List Condition
  deriving DecidableEq, Repr

/-- A `GatewayAddress`: its type and value. -/
structure GatewayAddress where
  type : Option String
  value : String
  deriving DecidableEq, Repr

/-- A Gateway object. -/
structure Gateway where
  objectMeta : ObjectMeta
  gatewayClassName : String
  conditions : List Condition
  addresses : List GatewayAddress
  deriving DecidableEq, Repr

/-- The fields of a `corev1.Service` the controllers read. -/
structure Service where
  name : String
  nameSpace : String
  clusterIP : String
  loadBalancerIngressIPs : List String
  deriving DecidableEq, Repr

/-- The value `ctrl.Result`. -/
structure Result where
  requeue : Bool
  requeueAfter : Int
  deriving DecidableEq, Repr

/-- The Go zero value `ctrl.Result{}`. -/
def Result.zero : Result := { requeue := false, requeueAfter := 0 }

/-- The largest `time.Duration`: an `int64` count of nanoseconds. -/
def maxDuration : Int := 2 ^ 63 - 1

/-- The smallest `time.Duration`. -/
def minDuration : Int := -(2 ^ 63)

/-- `Time.Sub` on instants without a monotonic reading: the difference `t - u`
when it fits a `Duration`, else the smallest `Duration` when `t` is before `u`
and the largest otherwise. -/
def time.Sub (t u : Int) : Int :=
  if minDuration ≤ t - u ∧ t - u ≤ maxDuration then t - u
  else if t < u then minDuration
  else maxDuration

/-- `time.Until(t)`, which is `t.Sub(time.Now())`; `now` is the value of
`time.Now()` read inside it. -/
def time.Until (t now : Int) : Int := time.Sub t now

/-- Declarations of the repository that lie outside the given sources and are
taken as parameters: the finalizer names, the condition types of the Gateway,
the controller name (`vars.ControllerName`), container names, default images,
DataPlane ports and the name of the database variable (`internal/consts`), the
API group of the operator, and the helper functions the reconcilers call. -/
structure Decls where
  ControlPlaneFinalizerCleanupClusterRole : String
  ControlPlaneFinalizerCleanupClusterRoleBinding : String
  GatewayFinalizerCleanupControlPlanes : String
  GatewayFinalizerCleanupDataPlanes : String
  GatewayFinalizerCleanupNetworkpolicies : String
  GatewayScheduledType : String
  DataPlaneReadyType : String
  ControlPlaneReadyType : String
  GatewayServiceType : String
  GatewayServiceErrorReason : String
  ControllerName : String
  DataPlaneProxyContainerName : String
  DefaultDataPlaneImage : String
  ControlPlaneControllerContainerName : String
  DefaultControlPlaneImage : String
  SchemeGroup : String
  requeueWithoutBackoff : Int
  DataPlaneAdminAPIPort : Nat
  DataPlaneProxyPort : Nat
  DataPlaneProxySSLPort : Nat
  DataPlaneMetricsPort : Nat
  EnvVarKongDatabase : String
  isAccepted : GatewayClass → Bool
  setDataplaneGatewayConfigDefaults : GatewayConfiguration → GatewayConfiguration
  setControlplaneGatewayConfigDefaults :
    Gateway → GatewayConfiguration → String → String → GatewayConfiguration × Option Err
  SetOwnerForObject : ObjectMeta → ObjectMeta → ObjectMeta
  LabelObjectAsGatewayManaged : ObjectMeta → ObjectMeta

/-! ## Finalizers (`internal/utils/kubernetes/metadata.go`) -/

/-- The inner loop of `EnsureFinalizersInMetadata`: is the finalizer in the
list? -/
def finalizerExists (finalizer : String) : List String → Bool
  | [] => false
  | f :: rest => if f = finalizer then true else finalizerExists finalizer rest

/-- `EnsureFinalizersInMetadata`: the finalizers of the metadata afterwards and
whether one was added. -/
def EnsureFinalizersInMetadata (metadataFinalizers : List String) :
    List String → List String × Bool
  | [] => (metadataFinalizers, false)
  | finalizer :: rest =>
    if finalizerExists finalizer metadataFinalizers then
      EnsureFinalizersInMetadata metadataFinalizers rest
    else
      ((EnsureFinalizersInMetadata (metadataFinalizers ++ [finalizer]) rest).1, true)

/-- The loop of `RemoveFinalizerInMetadata`: the finalizers kept and whether the
given one was met. -/
def removeFinalizerLoop (finalizer : String) : List String → List String × Bool
  | [] => ([], false)
  | f :: rest =>
    if f = finalizer then ((removeFinalizerLoop finalizer rest).1, true)
    else (f :: (removeFinalizerLoop finalizer rest).1, (removeFinalizerLoop finalizer rest).2)

/-- `RemoveFinalizerInMetadata`: the finalizers of the metadata afterwards and
whether they changed. -/
def RemoveFinalizerInMetadata (metadataFinalizers : List String) (finalizer : String) :
    List String × Bool :=
  let (newFinalizers, changed) := removeFinalizerLoop finalizer metadataFinalizers
  if changed then (newFinalizers, true) else (metadataFinalizers, false)

/-! ## The deletion branch of the ControlPlane reconciler
(`controllers/controlplane_controller.go`, lines 100 to 159) -/

/-- Outcomes of what the deletion branch of the ControlPlane reconciler reads
and calls: the two readings of the clock (`metav1.Now()` of the grace-period
test, `time.Now()` inside `time.Until`), the results of the two helpers
`ensureOwnedClusterRoleBindingsDeleted` and `ensureOwnedClusterRolesDeleted`
(declared outside the given sources), and the error of `Client.Patch`. -/
structure ControlPlaneDeletionEnv where
  now : Int
  nowUntil : Int
  ensureOwnedClusterRoleBindingsDeleted : Bool × Option Err
  ensureOwnedClusterRolesDeleted : Bool × Option Err
  patch : Option Err

/-- A call of a pass of the ControlPlane reconciler. In the deletion branch:
one of the two deletion helpers, or `Client.Patch` of the ControlPlane with the
given finalizers. In the branch of a ControlPlane that is not deleted:
`Client.Update` of the ControlPlane, the read and the write of `updateStatus`,
and the helpers of the reconciler in the order of the source. -/
inductive ControlPlaneCall where
  | ensureOwnedClusterRoleBindingsDeleted
  | ensureOwnedClusterRolesDeleted
  | patch (finalizers : List String)
  | update (controlplane : ControlPlane)
  | getCurrent
  | statusUpdate (conditions : List Condition)
  | getDataPlaneForControlPlane
  | setOwnerReference
  | getDataplaneServiceName
  | ensureDataPlaneConfiguration
  | ensureServiceAccountForControlPlane
  | ensureClusterRoleForControlPlane
  | ensureClusterRoleBindingForControlPlane
  | ensureCertificate
  | ensureDeploymentForControlPlane
  | ensureIsMarkedProvisioned
  deriving DecidableEq, Repr

/-- What a ControlPlane deletion pass did: the calls it issued in order, the
returned result and error, and the finalizers of the stored ControlPlane at
the end of the pass. -/
structure ControlPlanePass where
  calls : List ControlPlaneCall
  result : Result
  err : Option Err
  finalizers : List String
  deriving DecidableEq, Repr

/-- The deletion branch of `ControlPlaneReconciler.Reconcile`, entered with a
ControlPlane whose deletion timestamp `deletionTimestamp` is not zero. -/
def ControlPlaneReconciler.reconcileDeletion (k : Decls) (env : ControlPlaneDeletionEnv)
    (controlplane : ObjectMeta) (deletionTimestamp : Int) : ControlPlanePass :=
  if deletionTimestamp > env.now then
    { calls := [],
      result := { requeue := true, requeueAfter := time.Until deletionTimestamp env.nowUntil },
      err := none, finalizers := controlplane.finalizers }
  else
    let newControlplane := controlplane
    match env.ensureOwnedClusterRoleBindingsDeleted with
    | (_, some err) =>
      { calls := [.ensureOwnedClusterRoleBindingsDeleted], result := Result.zero,
        err := some err, finalizers := controlplane.finalizers }
    | (true, none) =>
      { calls := [.ensureOwnedClusterRoleBindingsDeleted], result := Result.zero,
        err := none, finalizers := controlplane.finalizers }
    | (false, none) =>
      match RemoveFinalizerInMetadata newControlplane.finalizers
          k.ControlPlaneFinalizerCleanupClusterRoleBinding with
      | (finalizers, true) =>
        match env.patch with
        | some err =>
          { calls := [.ensureOwnedClusterRoleBindingsDeleted, .patch finalizers],
            result := Result.zero, err := some err, finalizers := controlplane.finalizers }
        | none =>
          { calls := [.ensureOwnedClusterRoleBindingsDeleted, .patch finalizers],
            result := Result.zero, err := none, finalizers := finalizers }
      | (finalizers, false) =>
        match env.ensureOwnedClusterRolesDeleted with
        | (_, some err) =>
          { calls := [.ensureOwnedClusterRoleBindingsDeleted, .ensureOwnedClusterRolesDeleted],
            result := Result.zero, err := some err, finalizers := controlplane.finalizers }
        | (true, none) =>
          { calls := [.ensureOwnedClusterRoleBindingsDeleted, .ensureOwnedClusterRolesDeleted],
            result := Result.zero, err := none, finalizers := controlplane.finalizers }
        | (false, none) =>
          match RemoveFinalizerInMetadata finalizers k.ControlPlaneFinalizerCleanupClusterRole with
          | (finalizers2, true) =>
            match env.patch with
            | some err =>
              { calls := [.ensureOwnedClusterRoleBindingsDeleted,
                          .ensureOwnedClusterRolesDeleted, .patch finalizers2],
                result := Result.zero, err := some err, finalizers := controlplane.finalizers }
            | none =>
              { calls := [.ensureOwnedClusterRoleBindingsDeleted,
                          .ensureOwnedClusterRolesDeleted, .patch finalizers2],
                result := Result.zero, err := none, finalizers := finalizers2 }
          | (_, false) =>
            { calls := [.ensureOwnedClusterRoleBindingsDeleted, .ensureOwnedClusterRolesDeleted],
              result := Result.zero, err := none, finalizers := controlplane.finalizers }

/-! ## The Gateway reconciler (`controllers/gateway_controller.go`) -/

/-- The `metav1.LabelSelector` record, reduced to its `MatchLabels`; a map is
the list of its entries. -/
structure LabelSelector where
  matchLabels : List (String × String)
  deriving DecidableEq, Repr

/-- The `networkingv1.NetworkPolicyPort` record: protocol and port number. -/
structure NetworkPolicyPort where
  protocol : Option String
  port : Option Nat
  deriving DecidableEq, Repr

/-- The `networkingv1.NetworkPolicyPeer` record: pod selector and namespace
selector. -/
structure NetworkPolicyPeer where
  podSelector : Option LabelSelector
  namespaceSelector : Option LabelSelector
  deriving DecidableEq, Repr

/-- The `networkingv1.NetworkPolicyIngressRule` record; `fromPeers` is its field
`From`, and an empty list puts no restriction on the source. -/
structure NetworkPolicyIngressRule where
  ports : List NetworkPolicyPort
  fromPeers : List NetworkPolicyPeer
  deriving DecidableEq, Repr

/-- The `networkingv1.NetworkPolicySpec` record. -/
structure NetworkPolicySpec where
  podSelector : LabelSelector
  policyTypes : List String
  ingress : List NetworkPolicyIngressRule
  deriving DecidableEq, Repr

/-- The Go zero value `networkingv1.NetworkPolicySpec{}`. -/
def NetworkPolicySpec.zero : NetworkPolicySpec :=
  { podSelector := { matchLabels := [] }, policyTypes := [], ingress := [] }

/-- A NetworkPolicy object: metadata and spec. -/
structure NetworkPolicy where
  objectMeta : ObjectMeta
  spec : NetworkPolicySpec
  deriving DecidableEq, Repr

/-- Outcomes of what a pass of the Gateway reconciler reads and calls. Each
API operation is issued at most once in a pass, so one outcome per operation
is enough: the two readings of the clock, the lists of owned children
(`gatewayutils.ListDataPlanesForGateway` and its siblings), the results of the
deletion helpers `ensureOwnedDataPlanesDeleted`,
`ensureOwnedControlPlanesDeleted`, `ensureOwnedNetworkPoliciesDeleted`
(declared outside the given sources), the errors of `Client.Patch` and
`Client.Update` of the Gateway, the reads of the GatewayClass and of the
GatewayConfiguration, the errors of the writes of the children (DataPlane,
ControlPlane, NetworkPolicy), the list of
Services of the DataPlane, the result of `ensureDataPlaneHasNetworkPolicy`,
the result of `getGatewayAddresses` and the error of the status patch. -/
structure GatewayEnv where
  now : Int
  nowUntil : Int
  listDataPlanes : Except Err (List DataPlane)
  listControlPlanes : Except Err (List ControlPlane)
  listNetworkPolicies : Except Err (List NetworkPolicy)
  ensureOwnedDataPlanesDeleted : Bool × Option Err
  ensureOwnedControlPlanesDeleted : Bool × Option Err
  ensureOwnedNetworkPoliciesDeleted : Bool × Option Err
  patchGateway : Option Err
  updateGateway : Option Err
  getGatewayClass : Except Err GatewayClass
  getGatewayConfiguration : Except Err GatewayConfiguration
  createDataPlane : Option Err
  updateDataPlane : Option Err
  createControlPlane : Option Err
  patchControlPlane : Option Err
  createNetworkPolicy : Option Err
  updateNetworkPolicy : Option Err
  listServices : Except Err (List Service)
  ensureDataPlaneHasNetworkPolicy : Bool × Option Err
  getGatewayAddresses : List GatewayAddress × Option Err
  patchStatus : Option Err

/-- A call issued by a pass of the Gateway reconciler, reads included. -/
inductive GatewayCall where
  | listDataPlanes
  | listControlPlanes
  | listNetworkPolicies
  | listServices
  | getGatewayClass (name : String)
  | getGatewayConfiguration (nameSpace name : String)
  | ensureOwnedDataPlanesDeleted
  | ensureOwnedControlPlanesDeleted
  | ensureOwnedNetworkPoliciesDeleted
  | patchGateway (finalizers : List String)
  | updateGateway (finalizers : List String)
  | createDataPlane (dataplane : DataPlane)
  | updateDataPlane (dataplane : DataPlane)
  | createControlPlane (controlplane : ControlPlane)
  | patchControlPlane (controlplane : ControlPlane)
  | createNetworkPolicy (networkPolicy : NetworkPolicy)
  | updateNetworkPolicy (networkPolicy : NetworkPolicy)
  | ensureDataPlaneHasNetworkPolicy
  | getGatewayAddresses
  | patchStatus (conditions : List Condition) (addresses : List GatewayAddress)
  deriving DecidableEq, Repr

/-- Is the call a read of the store (a get or a list)? -/
def GatewayCall.isRead : GatewayCall → Bool
  | .listDataPlanes | .listControlPlanes | .listNetworkPolicies | .listServices => true
  | .getGatewayClass _ | .getGatewayConfiguration _ _ | .getGatewayAddresses => true
  | _ => false

/-- What a pass of the Gateway reconciler did: the calls it issued in order, the
returned result and error, and the Gateway object held by the pass at its
end. -/
structure GatewayPass where
  calls : List GatewayCall
  result : Result
  err : Option Err
  gateway : Gateway
  deriving DecidableEq, Repr

/-- The Gateway with its finalizers replaced. -/
def Gateway.withFinalizers (gateway : Gateway) (finalizers : List String) : Gateway :=
  { gateway with objectMeta := { gateway.objectMeta with finalizers := finalizers } }

/-- The NetworkPolicy block of the deletion branch (lines 151 to 179); `calls`
are the calls issued before it. -/
def GatewayReconciler.deleteNetworkPolicies (k : Decls) (env : GatewayEnv)
    (calls : List GatewayCall) (gateway : Gateway) : GatewayPass :=
  match env.listNetworkPolicies with
  | .error err =>
    { calls := calls ++ [.listNetworkPolicies], result := Result.zero, err := some err,
      gateway := gateway }
  | .ok networkPolicies =>
    if networkPolicies.length > 0 then
      match env.ensureOwnedNetworkPoliciesDeleted with
      | (_, some err) =>
        { calls := calls ++ [.listNetworkPolicies, .ensureOwnedNetworkPoliciesDeleted],
          result := Result.zero, err := some err, gateway := gateway }
      | (_, none) =>
        { calls := calls ++ [.listNetworkPolicies, .ensureOwnedNetworkPoliciesDeleted],
          result := Result.zero, err := none, gateway := gateway }
    else
      match RemoveFinalizerInMetadata gateway.objectMeta.finalizers
          k.GatewayFinalizerCleanupNetworkpolicies with
      | (finalizers, true) =>
        { calls := calls ++ [.listNetworkPolicies, .patchGateway finalizers],
          result := Result.zero, err := env.patchGateway,
          gateway := gateway.withFinalizers finalizers }
      | (_, false) =>
        { calls := calls ++ [.listNetworkPolicies], result := Result.zero, err := none,
          gateway := gateway }

/-- The ControlPlane block of the deletion branch (lines 123 to 149), followed
by the NetworkPolicy block when it does not return. -/
def GatewayReconciler.deleteControlPlanes (k : Decls) (env : GatewayEnv)
    (calls : List GatewayCall) (gateway : Gateway) : GatewayPass :=
  match env.listControlPlanes with
  | .error err =>
    { calls := calls ++ [.listControlPlanes], result := Result.zero, err := some err,
      gateway := gateway }
  | .ok controlplanes =>
    if controlplanes.length > 0 then
      match env.ensureOwnedControlPlanesDeleted with
      | (_, some err) =>
        { calls := calls ++ [.listControlPlanes, .ensureOwnedControlPlanesDeleted],
          result := Result.zero, err := some err, gateway := gateway }
      | (true, none) =>
        { calls := calls ++ [.listControlPlanes, .ensureOwnedControlPlanesDeleted],
          result := Result.zero, err := none, gateway := gateway }
      | (false, none) =>
        GatewayReconciler.deleteNetworkPolicies k env
          (calls ++ [.listControlPlanes, .ensureOwnedControlPlanesDeleted]) gateway
    else
      match RemoveFinalizerInMetadata gateway.objectMeta.finalizers
          k.GatewayFinalizerCleanupControlPlanes with
      | (finalizers, true) =>
        { calls := calls ++ [.listControlPlanes, .patchGateway finalizers],
          result := Result.zero, err := env.patchGateway,
          gateway := gateway.withFinalizers finalizers }
      | (_, false) =>
        GatewayReconciler.deleteNetworkPolicies k env (calls ++ [.listControlPlanes]) gateway

/-- The deletion branch of `GatewayReconciler.Reconcile` (lines 86 to 180),
entered with a Gateway whose deletion timestamp `deletionTimestamp` is not
zero: the grace-period test, the DataPlane block, then the blocks of the
ControlPlanes and of the NetworkPolicies. -/
def GatewayReconciler.reconcileDeletion (k : Decls) (env : GatewayEnv) (gateway : Gateway)
    (deletionTimestamp : Int) : GatewayPass :=
  if deletionTimestamp > env.now then
    { calls := [],
      result := { requeue := true, requeueAfter := time.Until deletionTimestamp env.nowUntil },
      err := none, gateway := gateway }
  else
    match env.listDataPlanes with
    | .error err =>
      { calls := [.listDataPlanes], result := Result.zero, err := some err, gateway := gateway }
    | .ok dataplanes =>
      if dataplanes.length > 0 then
        match env.ensureOwnedDataPlanesDeleted with
        | (_, some err) =>
          { calls := [.listDataPlanes, .ensureOwnedDataPlanesDeleted], result := Result.zero,
            err := some err, gateway := gateway }
        | (true, none) =>
          { calls := [.listDataPlanes, .ensureOwnedDataPlanesDeleted], result := Result.zero,
            err := none, gateway := gateway }
        | (false, none) =>
          GatewayReconciler.deleteControlPlanes k env
            [.listDataPlanes, .ensureOwnedDataPlanesDeleted] gateway
      else
        match RemoveFinalizerInMetadata gateway.objectMeta.finalizers
            k.GatewayFinalizerCleanupDataPlanes with
        | (finalizers, true) =>
          { calls := [.listDataPlanes, .patchGateway finalizers], result := Result.zero,
            err := env.patchGateway, gateway := gateway.withFinalizers finalizers }
        | (_, false) =>
          GatewayReconciler.deleteControlPlanes k env [.listDataPlanes] gateway

/-- Modelled from the spec: `GetPodContainerByName` (package
`internal/utils/kubernetes`) is not among the given sources; as its name and
its callers say, it returns a pointer to the first container of the pod spec
that has the given name, and nil when there is none. The pointer is the index
of the container. -/
def GetPodContainerByName (containers : List Container) (name : String) : Option Nat :=
  containers.findIdx? (fun c => decide (c.name = name))

/-- The body shared by `setDataPlaneOptionsDefaults` and
`setControlPlaneOptionsDefaults`, which differ in the container name and the
default image only. -/
def setDeploymentOptionsDefaults (containerName defaultImage : String)
    (deployment : DeploymentOptions) : DeploymentOptions :=
  let podTemplateSpec : PodTemplateSpec :=
    match deployment.podTemplateSpec with
    | none => { containers := [] }
    | some podTemplateSpec => podTemplateSpec
  let containers :=
    match GetPodContainerByName podTemplateSpec.containers containerName with
    | some i =>
      podTemplateSpec.containers.modify
        (fun container =>
          if container.image = "" then { container with image := defaultImage } else container) i
    | none => podTemplateSpec.containers ++ [{ name := containerName, image := defaultImage, env := [] }]
  { replicas := match deployment.replicas with
                | none => some 1
                | some replicas => some replicas,
    podTemplateSpec := some { containers := containers } }

/-- `setDataPlaneOptionsDefaults`. -/
def setDataPlaneOptionsDefaults (k : Decls) (opts : DataPlaneOptions) : DataPlaneOptions :=
  { deployment :=
      (setDeploymentOptionsDefaults k.DataPlaneProxyContainerName k.DefaultDataPlaneImage
        opts.deployment) }

/-- `setControlPlaneOptionsDefaults`. -/
def setControlPlaneOptionsDefaults (k : Decls) (opts : ControlPlaneOptions) :
    ControlPlaneOptions :=
  { opts with
    deployment :=
      (setDeploymentOptionsDefaults k.ControlPlaneControllerContainerName
        k.DefaultControlPlaneImage opts.deployment) }

/-- Modelled from the spec: `dataplaneSpecDeepEqual` is not among the given
sources; the spec has the provisioning step "diff its options against the
(defaulted) desired options; patch if different", so it is equality of the
options. -/
def dataplaneSpecDeepEqual (spec1 spec2 : DataPlaneOptions) : Bool :=
  decide (spec1 = spec2)

/-- The deployment options without the environment variables whose names are
to be ignored. -/
def DeploymentOptions.withoutEnv (deployment : DeploymentOptions)
    (envVarsToIgnore : List String) : DeploymentOptions :=
  { deployment with
    podTemplateSpec := deployment.podTemplateSpec.map (fun podTemplateSpec =>
      { containers := podTemplateSpec.containers.map (fun container =>
          { container with
            env := container.env.filter (fun e => decide (e.name ∉ envVarsToIgnore)) }) }) }

/-- Modelled from the spec: `alphaDeploymentOptionsDeepEqual` is not among the
given sources; the spec has "equality comparison explicitly ignores the
admin-URL environment variable", so it is equality of the deployment options
once the environment variables to ignore are left out. -/
def alphaDeploymentOptionsDeepEqual (opts1 opts2 : DeploymentOptions)
    (envVarsToIgnore : List String) : Bool :=
  decide (opts1.withoutEnv envVarsToIgnore = opts2.withoutEnv envVarsToIgnore)

/-- `controlplaneSpecDeepEqual` (`controllers/controlplane_controller_utils.go`). -/
def controlplaneSpecDeepEqual (spec1 spec2 : ControlPlaneOptions)
    (envVarsToIgnore : List String) : Bool :=
  if !alphaDeploymentOptionsDeepEqual spec1.deployment spec2.deployment envVarsToIgnore ||
      !decide (spec1.dataPlane = spec2.dataPlane) then false
  else true

/-- `createDataPlaneCondition`. -/
def createDataPlaneCondition (k : Decls) (now : Int) (status reason message : String)
    (observedGeneration : Int) : Condition :=
  NewConditionWithGeneration now k.DataPlaneReadyType status reason message observedGeneration

/-- `createControlPlaneCondition`. -/
def createControlPlaneCondition (k : Decls) (now : Int) (status reason message : String)
    (observedGeneration : Int) : Condition :=
  NewConditionWithGeneration now k.ControlPlaneReadyType status reason message
    observedGeneration

/-- The DataPlane that `createDataPlane`
(`controllers/gateway_controller_reconciler_utils.go`) hands to
`Client.Create`. -/
def createDataPlane (k : Decls) (gateway : Gateway) (gatewayConfig : GatewayConfiguration) :
    DataPlane :=
  let objectMeta : ObjectMeta :=
    { ObjectMeta.zero with nameSpace := gateway.objectMeta.nameSpace,
                           generateName := gateway.objectMeta.name ++ "-" }
  let options :=
    match gatewayConfig.dataPlaneOptions with
    | some options => options
    | none => DataPlaneOptions.zero
  { objectMeta := k.LabelObjectAsGatewayManaged (k.SetOwnerForObject objectMeta gateway.objectMeta),
    options := options, conditions := [] }

/-- The ControlPlane that `createControlPlane` hands to `Client.Create`. -/
def createControlPlane (k : Decls) (gatewayClass : GatewayClass) (gateway : Gateway)
    (gatewayConfig : GatewayConfiguration) (dataplaneName : String) : ControlPlane :=
  let objectMeta : ObjectMeta :=
    { ObjectMeta.zero with nameSpace := gateway.objectMeta.nameSpace,
                           generateName := gateway.objectMeta.name ++ "-" }
  let options :=
    match gatewayConfig.controlPlaneOptions with
    | some options => options
    | none => ControlPlaneOptions.zero
  let options :=
    match options.dataPlane with
    | none => { options with dataPlane := some dataplaneName }
    | some _ => options
  { objectMeta := k.LabelObjectAsGatewayManaged (k.SetOwnerForObject objectMeta gateway.objectMeta),
    gatewayClass := some gatewayClass.name, options := options, conditions := [] }

/-- What a provisioning step did: the calls it issued, the conditions of the
Gateway afterwards, the GatewayConfiguration as the step left it (defaulting
writes through the pointer), and the child it returns (`none` is nil). -/
structure Provisioned (α : Type) where
  calls : List GatewayCall
  conditions : List Condition
  gatewayConfig : GatewayConfiguration
  object : Option α

/-- `GatewayReconciler.provisionDataPlane`. Conditions are stamped with
`env.now`. -/
def GatewayReconciler.provisionDataPlane (k : Decls) (env : GatewayEnv) (gateway : Gateway)
    (gatewayConfig : GatewayConfiguration) : Provisioned DataPlane :=
  let gatewayConfig := k.setDataplaneGatewayConfigDefaults gatewayConfig
  let generation := gateway.objectMeta.generation
  let unable (calls : List GatewayCall) (cfg : GatewayConfiguration) (err : Err) :
      Provisioned DataPlane :=
    { calls := calls,
      conditions := SetCondition
        (createDataPlaneCondition k env.now ConditionFalse UnableToProvisionReason err.Error
          generation) gateway.conditions,
      gatewayConfig := cfg, object := none }
  match env.listDataPlanes with
  | .error err => unable [.listDataPlanes] gatewayConfig err
  | .ok dataplanes =>
    match dataplanes with
    | _ :: _ :: _ =>
      unable [.listDataPlanes] gatewayConfig
        (.errorf ("data plane deployments found: " ++ toString dataplanes.length ++
          ", expected: 1"))
    | [] =>
      let created := createDataPlane k gateway gatewayConfig
      match env.createDataPlane with
      | some err => unable [.listDataPlanes, .createDataPlane created] gatewayConfig err
      | none =>
        { calls := [.listDataPlanes, .createDataPlane created],
          conditions := SetCondition
            (createDataPlaneCondition k env.now ConditionFalse ResourceCreatedOrUpdatedReason
              ResourceCreatedMessage generation) gateway.conditions,
          gatewayConfig := gatewayConfig, object := none }
    | [dataplane] =>
      let expectedDataplaneOptions :=
        setDataPlaneOptionsDefaults k
          (match gatewayConfig.dataPlaneOptions with
           | some options => options
           | none => DataPlaneOptions.zero)
      let gatewayConfig :=
        match gatewayConfig.dataPlaneOptions with
        | some _ => { gatewayConfig with dataPlaneOptions := some expectedDataplaneOptions }
        | none => gatewayConfig
      let ready (calls : List GatewayCall) (dataplane : DataPlane)
          (conditions : List Condition) : Provisioned DataPlane :=
        { calls := calls,
          conditions :=
            if IsReady dataplane.conditions then
              SetCondition
                (createDataPlaneCondition k env.now ConditionTrue ResourceReadyReason ""
                  generation) conditions
            else
              SetCondition
                (createDataPlaneCondition k env.now ConditionFalse WaitingToBecomeReadyReason
                  WaitingToBecomeReadyMessage generation) conditions,
          gatewayConfig := gatewayConfig, object := some dataplane }
      if !dataplaneSpecDeepEqual dataplane.options expectedDataplaneOptions then
        let updated : DataPlane := { dataplane with options := expectedDataplaneOptions }
        match env.updateDataPlane with
        | some err => unable [.listDataPlanes, .updateDataPlane updated] gatewayConfig err
        | none =>
          ready [.listDataPlanes, .updateDataPlane updated] updated
            (SetCondition
              (createDataPlaneCondition k env.now ConditionFalse ResourceCreatedOrUpdatedReason
                ResourceUpdatedMessage generation) gateway.conditions)
      else ready [.listDataPlanes] dataplane gateway.conditions

/-- `GatewayReconciler.provisionControlPlane`; `serviceName` is
`services[0].Name` of the caller. Conditions are stamped with `env.now`. -/
def GatewayReconciler.provisionControlPlane (k : Decls) (env : GatewayEnv)
    (gatewayClass : GatewayClass) (gateway : Gateway) (gatewayConfig : GatewayConfiguration)
    (dataplane : DataPlane) (serviceName : String) : Provisioned ControlPlane :=
  let generation := gateway.objectMeta.generation
  let unable (calls : List GatewayCall) (cfg : GatewayConfiguration) (err : Err) :
      Provisioned ControlPlane :=
    { calls := calls,
      conditions := SetCondition
        (createControlPlaneCondition k env.now ConditionFalse UnableToProvisionReason err.Error
          generation) gateway.conditions,
      gatewayConfig := cfg, object := none }
  match k.setControlplaneGatewayConfigDefaults gateway gatewayConfig dataplane.objectMeta.name
      serviceName with
  | (gatewayConfig, some err) => unable [] gatewayConfig err
  | (gatewayConfig, none) =>
    match env.listControlPlanes with
    | .error err => unable [.listControlPlanes] gatewayConfig err
    | .ok controlplanes =>
      match controlplanes with
      | _ :: _ :: _ =>
        unable [.listControlPlanes] gatewayConfig
          (.errorf ("control plane deployments found: " ++ toString controlplanes.length ++
            ", expected: 1, requeing"))
      | [] =>
        let created :=
          createControlPlane k gatewayClass gateway gatewayConfig dataplane.objectMeta.name
        match env.createControlPlane with
        | some err => unable [.listControlPlanes, .createControlPlane created] gatewayConfig err
        | none =>
          { calls := [.listControlPlanes, .createControlPlane created],
            conditions := SetCondition
              (createControlPlaneCondition k env.now ConditionFalse
                ResourceCreatedOrUpdatedReason ResourceCreatedMessage generation)
              gateway.conditions,
            gatewayConfig := gatewayConfig, object := none }
      | [controlplane] =>
        let expectedControlplaneOptions :=
          setControlPlaneOptionsDefaults k
            (match gatewayConfig.controlPlaneOptions with
             | some options => options
             | none => ControlPlaneOptions.zero)
        let gatewayConfig :=
          match gatewayConfig.controlPlaneOptions with
          | some _ =>
            { gatewayConfig with controlPlaneOptions := some expectedControlplaneOptions }
          | none => gatewayConfig
        let ready (calls : List GatewayCall) (controlplane : ControlPlane)
            (conditions : List Condition) : Provisioned ControlPlane :=
          if !IsReady controlplane.conditions then
            { calls := calls,
              conditions := SetCondition
                (createControlPlaneCondition k env.now ConditionFalse
                  WaitingToBecomeReadyReason WaitingToBecomeReadyMessage generation) conditions,
              gatewayConfig := gatewayConfig, object := none }
          else
            { calls := calls,
              conditions := SetCondition
                (createControlPlaneCondition k env.now ConditionTrue ResourceReadyReason ""
                  generation) conditions,
              gatewayConfig := gatewayConfig, object := some controlplane }
        if !controlplaneSpecDeepEqual controlplane.options expectedControlplaneOptions
            ["CONTROLLER_KONG_ADMIN_URL"] then
          let patched : ControlPlane :=
            { controlplane with options := expectedControlplaneOptions }
          match env.patchControlPlane with
          | some err => unable [.listControlPlanes, .patchControlPlane patched] gatewayConfig err
          | none =>
            ready [.listControlPlanes, .patchControlPlane patched] patched
              (SetCondition
                (createControlPlaneCondition k env.now ConditionFalse
                  ResourceCreatedOrUpdatedReason ResourceUpdatedMessage generation)
                gateway.conditions)
        else ready [.listControlPlanes] controlplane gateway.conditions

/-- `GatewayReconciler.verifyGatewayClassSupport`
(`controllers/gateway_controller_reconciler_utils.go`): the calls issued and
the returned class or error. -/
def GatewayReconciler.verifyGatewayClassSupport (k : Decls) (env : GatewayEnv)
    (gateway : Gateway) : List GatewayCall × Except Err GatewayClass :=
  if gateway.gatewayClassName = "" then ([], .error .ErrUnsupportedGateway)
  else
    match env.getGatewayClass with
    | .error err => ([.getGatewayClass gateway.gatewayClassName], .error err)
    | .ok gwc =>
      if gwc.controllerName ≠ k.ControllerName then
        ([.getGatewayClass gateway.gatewayClassName], .error .ErrUnsupportedGateway)
      else ([.getGatewayClass gateway.gatewayClassName], .ok gwc)

/-- `GatewayReconciler.getGatewayConfigForGatewayClass`: the calls issued and
the returned configuration or error. -/
def GatewayReconciler.getGatewayConfigForGatewayClass (k : Decls) (env : GatewayEnv)
    (gatewayClass : GatewayClass) : List GatewayCall × Except Err GatewayConfiguration :=
  match gatewayClass.parametersRef with
  | none =>
    ([], .error (.wrap "" .ErrObjectMissingParametersRef
      (", gatewayClass = " ++ gatewayClass.name)))
  | some parametersRef =>
    if parametersRef.group ≠ k.SchemeGroup ∨ parametersRef.kind ≠ "GatewayConfiguration" then
      ([], .error (.status 400 "Invalid" "" parametersRef.kind
        ("controller only supports " ++ k.SchemeGroup ++
          " GatewayConfiguration resources for GatewayClass parametersRef")))
    else
      match parametersRef.nameSpace with
      | none =>
        ([], .error (.errorf ("GatewayClass " ++ gatewayClass.name ++
          " has invalid ParametersRef: both namespace and name must be provided")))
      | some parametersNamespace =>
        if parametersNamespace = "" ∨ parametersRef.name = "" then
          ([], .error (.errorf ("GatewayClass " ++ gatewayClass.name ++
            " has invalid ParametersRef: both namespace and name must be provided")))
        else
          ([.getGatewayConfiguration parametersNamespace parametersRef.name],
            env.getGatewayConfiguration)

/-- `GatewayReconciler.getOrCreateGatewayConfiguration`. -/
def GatewayReconciler.getOrCreateGatewayConfiguration (k : Decls) (env : GatewayEnv)
    (gatewayClass : GatewayClass) : List GatewayCall × Except Err GatewayConfiguration :=
  match GatewayReconciler.getGatewayConfigForGatewayClass k env gatewayClass with
  | (calls, .error err) =>
    if err.Is .ErrObjectMissingParametersRef then (calls, .ok GatewayConfiguration.zero)
    else (calls, .error err)
  | (calls, .ok gatewayConfig) => (calls, .ok gatewayConfig)

/-- The Gateway API condition type `GatewayConditionAccepted`. -/
def GatewayConditionAccepted : String := "Accepted"

/-- The Gateway API reason `GatewayClassReasonAccepted`. -/
def GatewayClassReasonAccepted : String := "Accepted"

/-- Modelled from the spec: `InitReadyAndProgrammed` of the conditions-aware
wrapper of a Gateway is not among the given sources; the spec has "initialize
Ready and Programmed to False", done here with `InitReady` and
`InitProgrammed`. -/
def InitReadyAndProgrammed (now : Int) (conditions : List Condition) : List Condition :=
  InitProgrammed now (InitReady now conditions)

/-- Modelled from the spec: `SetReadyAndProgrammed` of the conditions-aware
wrapper of a Gateway is not among the given sources; the spec has "mark
Ready+Programmed", done here with `SetReady` and `SetProgrammed` at the
generation of the Gateway. -/
def SetReadyAndProgrammed (now : Int) (conditions : List Condition) (generation : Int) :
    List Condition :=
  SetProgrammed now (SetReady now conditions generation) generation

/-- The Gateway with its conditions replaced. -/
def Gateway.withConditions (gateway : Gateway) (conditions : List Condition) : Gateway :=
  { gateway with conditions := conditions }

/-- The readiness gate after a provisioning step (lines 241 to 250 and 289 to
298), taken when the condition of type `cType` of the Gateway is not valid:
patch the status if the Gateway as read at the start of the pass had no such
condition or had it with status `True`, and return. -/
def GatewayReconciler.notReadyGate (env : GatewayEnv) (cType : String)
    (calls : List GatewayCall) (gateway oldGateway : Gateway) : GatewayPass :=
  let (condition, found) := GetCondition cType oldGateway.conditions
  if !found || decide (condition.status = ConditionTrue) then
    { calls := calls ++ [.patchStatus gateway.conditions gateway.addresses],
      result := Result.zero, err := env.patchStatus, gateway := gateway }
  else
    { calls := calls, result := Result.zero, err := none, gateway := gateway }

/-- The end of `GatewayReconciler.Reconcile` (lines 304 to 335), after the
ControlPlane gate: the NetworkPolicy of the DataPlane, the addresses, and the
Ready and Programmed conditions. `ensureDataPlaneHasNetworkPolicy` and
`getGatewayAddresses` are answered by the outcomes of `env`. -/
def GatewayReconciler.reconcileConnectivity (k : Decls) (env : GatewayEnv)
    (calls : List GatewayCall) (gateway oldGateway : Gateway) : GatewayPass :=
  match env.ensureDataPlaneHasNetworkPolicy with
  | (_, some err) =>
    { calls := calls ++ [.ensureDataPlaneHasNetworkPolicy], result := Result.zero,
      err := some err, gateway := gateway }
  | (true, none) =>
    { calls := calls ++ [.ensureDataPlaneHasNetworkPolicy], result := Result.zero,
      err := none, gateway := gateway }
  | (false, none) =>
    let calls := calls ++ [.ensureDataPlaneHasNetworkPolicy, .getGatewayAddresses]
    let generation := gateway.objectMeta.generation
    let gateway : Gateway := { gateway with addresses := env.getGatewayAddresses.1 }
    let gateway :=
      match env.getGatewayAddresses.2 with
      | none =>
        gateway.withConditions (SetCondition
          (NewConditionWithGeneration env.now k.GatewayServiceType ConditionTrue
            ResourceReadyReason "" generation) gateway.conditions)
      | some err =>
        gateway.withConditions (SetCondition
          (NewConditionWithGeneration env.now k.GatewayServiceType ConditionFalse
            k.GatewayServiceErrorReason err.Error generation) gateway.conditions)
    if (!IsProgrammed gateway.conditions && !IsProgrammed oldGateway.conditions) ||
        decide (gateway.addresses ≠ oldGateway.addresses) then
      let gateway :=
        gateway.withConditions (SetReadyAndProgrammed env.now gateway.conditions generation)
      { calls := calls ++ [.patchStatus gateway.conditions gateway.addresses],
        result := Result.zero, err := env.patchStatus, gateway := gateway }
    else
      { calls := calls, result := Result.zero, err := none, gateway := gateway }

/-- The part of `GatewayReconciler.Reconcile` after the DataPlane gate (lines
256 to 302): the Services of the DataPlane, the provisioning of the
ControlPlane and its gate. `dataplane` is the pointer returned by
`provisionDataPlane`. -/
def GatewayReconciler.reconcileControlPlane (k : Decls) (env : GatewayEnv)
    (calls : List GatewayCall) (gwc : GatewayClass) (gateway oldGateway : Gateway)
    (gatewayConfig : GatewayConfiguration) (dataplane : Option DataPlane) : GatewayPass :=
  match dataplane with
  | none =>
    { calls := calls, result := Result.zero, err := some .nilPointerDereference,
      gateway := gateway }
  | some dataplane =>
    match env.listServices with
    | .error err =>
      { calls := calls ++ [.listServices], result := Result.zero, err := some err,
        gateway := gateway }
    | .ok services =>
      match services with
      | _ :: _ :: _ =>
        { calls := calls ++ [.listServices], result := Result.zero,
          err := some (.errorf ("found " ++ toString services.length ++
            " services for DataPlane currently unsupported: expected 1 or less")),
          gateway := gateway }
      | [] =>
        { calls := calls ++ [.listServices], result := Result.zero,
          err := some (.errorf ("no services found for dataplane " ++
            dataplane.objectMeta.nameSpace ++ "/" ++ dataplane.objectMeta.name)),
          gateway := gateway }
      | [service] =>
        let p := GatewayReconciler.provisionControlPlane k env gwc gateway gatewayConfig
          dataplane service.name
        let gateway := gateway.withConditions p.conditions
        let calls := calls ++ [.listServices] ++ p.calls
        if !IsValidCondition k.ControlPlaneReadyType gateway.conditions then
          GatewayReconciler.notReadyGate env k.ControlPlaneReadyType calls gateway oldGateway
        else
          GatewayReconciler.reconcileConnectivity k env calls gateway oldGateway

/-- `GatewayReconciler.Reconcile`, from the Gateway that `Client.Get` returned
(line 86 on). Conditions are stamped with `env.now`. -/
def GatewayReconciler.Reconcile (k : Decls) (env : GatewayEnv) (gateway : Gateway) :
    GatewayPass :=
  match gateway.objectMeta.deletionTimestamp with
  | some deletionTimestamp =>
    GatewayReconciler.reconcileDeletion k env gateway deletionTimestamp
  | none =>
    match EnsureFinalizersInMetadata gateway.objectMeta.finalizers
        [k.GatewayFinalizerCleanupControlPlanes, k.GatewayFinalizerCleanupDataPlanes,
         k.GatewayFinalizerCleanupNetworkpolicies] with
    | (finalizers, true) =>
      { calls := [.updateGateway finalizers], result := Result.zero,
        err := env.updateGateway.map
          (fun err => Err.wrap "failed updating Gateway's finalizers: " err ""),
        gateway := gateway.withFinalizers finalizers }
    | (_, false) =>
      match GatewayReconciler.verifyGatewayClassSupport k env gateway with
      | (calls, .error err) =>
        if err.Is .ErrUnsupportedGateway then
          { calls := calls, result := Result.zero, err := none, gateway := gateway }
        else
          { calls := calls, result := Result.zero, err := some err, gateway := gateway }
      | (calls, .ok gwc) =>
        if !k.isAccepted gwc then
          { calls := calls, result := Result.zero, err := none, gateway := gateway }
        else
          let oldGateway := gateway
          let gateway :=
            if !IsValidCondition k.GatewayScheduledType gateway.conditions then
              gateway.withConditions (SetCondition
                (NewConditionWithGeneration env.now GatewayConditionAccepted ConditionTrue
                  GatewayClassReasonAccepted
                  ("this gateway has been picked up by the " ++ k.ControllerName ++
                    " and will be processed")
                  gateway.objectMeta.generation) gateway.conditions)
            else gateway
          let gateway :=
            gateway.withConditions (InitReadyAndProgrammed env.now gateway.conditions)
          match GatewayReconciler.getOrCreateGatewayConfiguration k env gwc with
          | (calls2, .error err) =>
            { calls := calls ++ calls2, result := Result.zero, err := some err,
              gateway := gateway }
          | (calls2, .ok gatewayConfig) =>
            let p := GatewayReconciler.provisionDataPlane k env gateway gatewayConfig
            let gateway := gateway.withConditions p.conditions
            let calls := calls ++ calls2 ++ p.calls
            if !IsValidCondition k.DataPlaneReadyType gateway.conditions then
              GatewayReconciler.notReadyGate env k.DataPlaneReadyType calls gateway oldGateway
            else
              GatewayReconciler.reconcileControlPlane k env calls gwc gateway oldGateway
                p.gatewayConfig p.object

/-- The four mutating steps of the ControlPlane deletion state machine. -/
inductive DeletionStep where
  | deleteBindings
  | removeBindingFinalizer
  | deleteRoles
  | removeRoleFinalizer
  deriving DecidableEq, Repr

/-- Does the list of calls hold a patch that drops the finalizer `finalizer`,
which the object carried in `before`? -/
def patchDrops (finalizer : String) (before : List String) (calls : List ControlPlaneCall) :
    Bool :=
  calls.any (fun call =>
    match call with
    | .patch finalizers => decide (finalizer ∈ before ∧ finalizer ∉ finalizers)
    | _ => false)

/-- The steps a ControlPlane deletion pass performed, read off its calls: a
deletion step when the helper was called and reported deletions, a finalizer
removal when a patch was issued that drops a finalizer the ControlPlane
carried. -/
def ControlPlanePass.steps (k : Decls) (env : ControlPlaneDeletionEnv)
    (controlplane : ObjectMeta) (pass : ControlPlanePass) : List DeletionStep :=
  (if ControlPlaneCall.ensureOwnedClusterRoleBindingsDeleted ∈ pass.calls ∧
      env.ensureOwnedClusterRoleBindingsDeleted.1 = true then [.deleteBindings] else []) ++
  (if patchDrops k.ControlPlaneFinalizerCleanupClusterRoleBinding controlplane.finalizers
      pass.calls then [.removeBindingFinalizer] else []) ++
  (if ControlPlaneCall.ensureOwnedClusterRolesDeleted ∈ pass.calls ∧
      env.ensureOwnedClusterRolesDeleted.1 = true then [.deleteRoles] else []) ++
  (if patchDrops k.ControlPlaneFinalizerCleanupClusterRole controlplane.finalizers
      pass.calls then [.removeRoleFinalizer] else [])

/-! ## Sample values, for evaluating the passes on concrete inputs -/

/-- A sample of the outside declarations: finalizer names, condition types and
container names as strings, helpers that leave the configuration as it is. -/
def Decls.sample : Decls :=
  { ControlPlaneFinalizerCleanupClusterRole := "gateway-operator.konghq.com/cleanup-clusterrole",
    ControlPlaneFinalizerCleanupClusterRoleBinding :=
      "gateway-operator.konghq.com/cleanup-clusterrolebinding",
    GatewayFinalizerCleanupControlPlanes := "gateway-operator.konghq.com/cleanup-controlplanes",
    GatewayFinalizerCleanupDataPlanes := "gateway-operator.konghq.com/cleanup-dataplanes",
    GatewayFinalizerCleanupNetworkpolicies :=
      "gateway-operator.konghq.com/cleanup-network-policies",
    GatewayScheduledType := "Accepted",
    DataPlaneReadyType := "DataPlaneReady",
    ControlPlaneReadyType := "ControlPlaneReady",
    GatewayServiceType := "GatewayService",
    GatewayServiceErrorReason := "GatewayServiceError",
    ControllerName := "konghq.com/gateway-operator",
    DataPlaneProxyContainerName := "proxy",
    DefaultDataPlaneImage := "kong:3.4",
    ControlPlaneControllerContainerName := "controller",
    DefaultControlPlaneImage := "kong/kubernetes-ingress-controller:2.12",
    SchemeGroup := "gateway-operator.konghq.com",
    requeueWithoutBackoff := 1000000,
    DataPlaneAdminAPIPort := 8444,
    DataPlaneProxyPort := 8000,
    DataPlaneProxySSLPort := 8443,
    DataPlaneMetricsPort := 8100,
    EnvVarKongDatabase := "KONG_DATABASE",
    isAccepted := fun gwc => IsValidCondition "Accepted" gwc.conditions,
    setDataplaneGatewayConfigDefaults := fun gatewayConfig => gatewayConfig,
    setControlplaneGatewayConfigDefaults := fun _ gatewayConfig _ _ => (gatewayConfig, none),
    SetOwnerForObject := fun objectMeta owner =>
      { objectMeta with
        ownerReferences :=
          [{ apiVersion := "gateway.networking.k8s.io/v1beta1", kind := "Gateway",
             name := owner.name, uid := owner.uid, controller := some true,
             blockOwnerDeletion := none }] },
    LabelObjectAsGatewayManaged := fun objectMeta =>
      { objectMeta with
        labels := objectMeta.labels ++ [("gateway-operator.konghq.com/managed-by", "gateway")] } }

/-- A sample ControlPlane deletion environment: the clock reads 100 twice, no
helper finds a child, no call fails. -/
def ControlPlaneDeletionEnv.sample : ControlPlaneDeletionEnv :=
  { now := 100, nowUntil := 100, ensureOwnedClusterRoleBindingsDeleted := (false, none),
    ensureOwnedClusterRolesDeleted := (false, none), patch := none }

/-- A sample ControlPlane metadata that carries both cleanup finalizers. -/
def ObjectMeta.sampleControlPlane : ObjectMeta :=
  { ObjectMeta.zero with
    name := "cp", nameSpace := "default", uid := "uid-cp",
    finalizers := [Decls.sample.ControlPlaneFinalizerCleanupClusterRole,
                   Decls.sample.ControlPlaneFinalizerCleanupClusterRoleBinding],
    deletionTimestamp := some 50 }

/-- Does the list of calls of a Gateway pass hold a patch of the Gateway that
drops the finalizer `finalizer`, which the Gateway carried in `before`? -/
def gatewayPatchDrops (finalizer : String) (before : List String) (calls : List GatewayCall) :
    Prop :=
  ∃ finalizers, GatewayCall.patchGateway finalizers ∈ calls ∧ finalizer ∈ before ∧
    finalizer ∉ finalizers

/-- ControlPlane cleanup in a Gateway deletion pass: the deletion helper of the
owned ControlPlanes is called, or a patch drops the ControlPlane-cleanup
finalizer. -/
def controlPlaneCleanup (k : Decls) (gateway : Gateway) (calls : List GatewayCall) : Prop :=
  GatewayCall.ensureOwnedControlPlanesDeleted ∈ calls ∨
    gatewayPatchDrops k.GatewayFinalizerCleanupControlPlanes gateway.objectMeta.finalizers calls

/-- NetworkPolicy cleanup in a Gateway deletion pass: the deletion helper of the
owned NetworkPolicies is called, or a patch drops the NetworkPolicy-cleanup
finalizer. -/
def networkPolicyCleanup (k : Decls) (gateway : Gateway) (calls : List GatewayCall) : Prop :=
  GatewayCall.ensureOwnedNetworkPoliciesDeleted ∈ calls ∨
    gatewayPatchDrops k.GatewayFinalizerCleanupNetworkpolicies gateway.objectMeta.finalizers
      calls

/-- A sample Gateway: not deleted, of class `kong`, carrying the three cleanup
finalizers, without conditions. -/
def Gateway.sample : Gateway :=
  { objectMeta :=
      { ObjectMeta.zero with
        name := "gw", nameSpace := "default", uid := "uid-gw", generation := 1,
        finalizers := [Decls.sample.GatewayFinalizerCleanupControlPlanes,
                       Decls.sample.GatewayFinalizerCleanupDataPlanes,
                       Decls.sample.GatewayFinalizerCleanupNetworkpolicies] },
    gatewayClassName := "kong", conditions := [], addresses := [] }

/-- The sample Gateway with the deletion timestamp 50. -/
def Gateway.sampleDeleted : Gateway :=
  { Gateway.sample with
    objectMeta := { Gateway.sample.objectMeta with deletionTimestamp := some 50 } }

/-- A sample GatewayClass, controlled by the sample controller name and
accepted, without a parameters reference. -/
def GatewayClass.sample : GatewayClass :=
  { name := "kong", controllerName := Decls.sample.ControllerName, parametersRef := none,
    conditions := [NewCondition 0 "Accepted" ConditionTrue "Accepted" ""] }

/-- A sample DataPlane named `dp-1`, with the defaulted empty options and no
conditions. -/
def DataPlane.sample : DataPlane :=
  { objectMeta := { ObjectMeta.zero with name := "dp-1", nameSpace := "default", uid := "uid-dp-1" },
    options := setDataPlaneOptionsDefaults Decls.sample DataPlaneOptions.zero,
    conditions := [] }

/-- A sample ControlPlane named `cp-1`, with the defaulted empty options and no
conditions. -/
def ControlPlane.sample : ControlPlane :=
  { objectMeta := { ObjectMeta.zero with name := "cp-1", nameSpace := "default", uid := "uid-cp-1" },
    gatewayClass := some "kong",
    options := setControlPlaneOptionsDefaults Decls.sample ControlPlaneOptions.zero,
    conditions := [] }

/-- A sample environment of a Gateway pass: the clock reads 100 twice, the
class is the sample class, no child exists and no call fails. -/
def GatewayEnv.sample : GatewayEnv :=
  { now := 100, nowUntil := 100, listDataPlanes := .ok [], listControlPlanes := .ok [],
    listNetworkPolicies := .ok [], ensureOwnedDataPlanesDeleted := (false, none),
    ensureOwnedControlPlanesDeleted := (false, none),
    ensureOwnedNetworkPoliciesDeleted := (false, none), patchGateway := none,
    updateGateway := none, getGatewayClass := .ok GatewayClass.sample,
    getGatewayConfiguration := .ok GatewayConfiguration.zero, createDataPlane := none,
    updateDataPlane := none, createControlPlane := none, patchControlPlane := none,
    createNetworkPolicy := none, updateNetworkPolicy := none,
    listServices := .ok [], ensureDataPlaneHasNetworkPolicy := (false, none),
    getGatewayAddresses := ([], none), patchStatus := none }

/-- The sample environment in which one owned DataPlane and one owned
ControlPlane are listed, the DataPlane helper reports no deletion and the
ControlPlane helper reports deletions. -/
def GatewayEnv.sampleLingeringDataPlane : GatewayEnv :=
  { GatewayEnv.sample with
    listDataPlanes := .ok [DataPlane.sample], ensureOwnedDataPlanesDeleted := (false, none),
    listControlPlanes := .ok [ControlPlane.sample],
    ensureOwnedControlPlanesDeleted := (true, none) }

/-- A call of the NetworkPolicy block of the Gateway deletion branch. -/
def networkPolicyBlockCall (k : Decls) (env : GatewayEnv) (gateway : Gateway)
    (c : GatewayCall) : Prop :=
  c = .listNetworkPolicies ∨
    (c = .ensureOwnedNetworkPoliciesDeleted ∧
      ∃ nps, env.listNetworkPolicies = .ok nps ∧ nps ≠ []) ∨
    (c = .patchGateway (gateway.objectMeta.finalizers.filter
        (fun x => decide (x ≠ k.GatewayFinalizerCleanupNetworkpolicies))) ∧
      k.GatewayFinalizerCleanupNetworkpolicies ∈ gateway.objectMeta.finalizers ∧
      env.listNetworkPolicies = .ok [])

/-- A call of the ControlPlane block of the Gateway deletion branch. -/
def controlPlaneBlockCall (k : Decls) (env : GatewayEnv) (gateway : Gateway)
    (c : GatewayCall) : Prop :=
  c = .listControlPlanes ∨
    (c = .ensureOwnedControlPlanesDeleted ∧
      ∃ cps, env.listControlPlanes = .ok cps ∧ cps ≠ []) ∨
    (c = .patchGateway (gateway.objectMeta.finalizers.filter
        (fun x => decide (x ≠ k.GatewayFinalizerCleanupControlPlanes))) ∧
      k.GatewayFinalizerCleanupControlPlanes ∈ gateway.objectMeta.finalizers ∧
      env.listControlPlanes = .ok [])

/-- A call of the DataPlane block of the Gateway deletion branch. -/
def dataPlaneBlockCall (k : Decls) (env : GatewayEnv) (gateway : Gateway)
    (c : GatewayCall) : Prop :=
  c = .listDataPlanes ∨
    (c = .ensureOwnedDataPlanesDeleted ∧
      ∃ dps, env.listDataPlanes = .ok dps ∧ dps ≠ []) ∨
    (c = .patchGateway (gateway.objectMeta.finalizers.filter
        (fun x => decide (x ≠ k.GatewayFinalizerCleanupDataPlanes))) ∧
      k.GatewayFinalizerCleanupDataPlanes ∈ gateway.objectMeta.finalizers ∧
      env.listDataPlanes = .ok [])

/-- The ControlPlane block lets the pass go on to the NetworkPolicy block. -/
def controlPlaneBlockPassed (k : Decls) (env : GatewayEnv) (gateway : Gateway) : Prop :=
  ∃ cps, env.listControlPlanes = .ok cps ∧
    ((cps ≠ [] ∧ env.ensureOwnedControlPlanesDeleted = (false, none)) ∨
     (cps = [] ∧ k.GatewayFinalizerCleanupControlPlanes ∉ gateway.objectMeta.finalizers))

/-- The DataPlane block lets the pass go on to the ControlPlane block. -/
def dataPlaneBlockPassed (k : Decls) (env : GatewayEnv) (gateway : Gateway) : Prop :=
  ∃ dps, env.listDataPlanes = .ok dps ∧
    ((dps ≠ [] ∧ env.ensureOwnedDataPlanesDeleted = (false, none)) ∨
     (dps = [] ∧ k.GatewayFinalizerCleanupDataPlanes ∉ gateway.objectMeta.finalizers))

/-- A call that changes no object of the store other than the status of the
Gateway: a read, or the status patch. -/
def GatewayCall.isReadOrStatusPatch : GatewayCall → Bool
  | .patchStatus _ _ => true
  | call => call.isRead

/-- The sample environment in which two owned DataPlanes are listed. -/
def GatewayEnv.sampleTwoDataPlanes : GatewayEnv :=
  { GatewayEnv.sample with
    listDataPlanes := .ok
      [DataPlane.sample,
       { DataPlane.sample with
         objectMeta := { DataPlane.sample.objectMeta with name := "dp-2", uid := "uid-dp-2" } }] }

/-- The sample ControlPlane whose controller container also carries the
environment variable `CONTROLLER_KONG_ADMIN_URL`. -/
def ControlPlane.sampleWithAdminURL : ControlPlane :=
  { ControlPlane.sample with
    options :=
      { deployment :=
          { replicas := some 1,
            podTemplateSpec := some
              { containers :=
                  [{ name := "controller", image := "kong/kubernetes-ingress-controller:2.12",
                     env := [{ name := "CONTROLLER_KONG_ADMIN_URL",
                               value := "https://10-0-0-1.dp-admin.default.svc:8444",
                               valueFrom := none }] }] } },
        dataPlane := none } }

/-- The sample environment in which the one owned ControlPlane is the sample
with the admin URL variable. -/
def GatewayEnv.sampleAdminURL : GatewayEnv :=
  { GatewayEnv.sample with listControlPlanes := .ok [ControlPlane.sampleWithAdminURL] }

/-- The sample Gateway without class name and without finalizers. -/
def Gateway.sampleNoClass : Gateway :=
  { Gateway.sample with
    objectMeta := { Gateway.sample.objectMeta with finalizers := [] },
    gatewayClassName := "" }

/-- The value of the local `expectedDataplaneOptions` of `provisionDataPlane`:
the DataPlane options of the GatewayConfiguration (after
`setDataplaneGatewayConfigDefaults`), or the empty options when it has none,
with the defaults set. -/
def expectedDataplaneOptions (k : Decls) (gatewayConfig : GatewayConfiguration) :
    DataPlaneOptions :=
  setDataPlaneOptionsDefaults k
    ((k.setDataplaneGatewayConfigDefaults gatewayConfig).dataPlaneOptions.getD
      DataPlaneOptions.zero)

/-- The value of the local `expectedControlplaneOptions` of
`provisionControlPlane`, from the GatewayConfiguration that
`setControlplaneGatewayConfigDefaults` left: its ControlPlane options, or the
empty options when it has none, with the defaults set. -/
def expectedControlplaneOptions (k : Decls) (gatewayConfig : GatewayConfiguration) :
    ControlPlaneOptions :=
  setControlPlaneOptionsDefaults k
    (gatewayConfig.controlPlaneOptions.getD ControlPlaneOptions.zero)

/-- A sample proxy Service of the sample DataPlane. -/
def Service.sample : Service :=
  { name := "dp-1-proxy", nameSpace := "default", clusterIP := "10.0.0.7",
    loadBalancerIngressIPs := [] }

/-- The sample environment in which one proxy Service and two owned
ControlPlanes are listed. -/
def GatewayEnv.sampleTwoControlPlanes : GatewayEnv :=
  { GatewayEnv.sample with
    listServices := .ok [Service.sample],
    listControlPlanes := .ok [ControlPlane.sample, ControlPlane.sampleWithAdminURL] }

/-- The sample environment in which one owned DataPlane is listed. -/
def GatewayEnv.sampleOneDataPlane : GatewayEnv :=
  { GatewayEnv.sample with listDataPlanes := .ok [DataPlane.sample] }

/-- The sample environments with the clock at 10, before the deletion timestamp
50 of the sample objects. -/
def GatewayEnv.sampleGracePeriod : GatewayEnv :=
  { GatewayEnv.sample with now := 10, nowUntil := 11 }

/-- The sample ControlPlane deletion environment with the clock at 10. -/
def ControlPlaneDeletionEnv.sampleGracePeriod : ControlPlaneDeletionEnv :=
  { ControlPlaneDeletionEnv.sample with now := 10, nowUntil := 11 }

/-- The sample Gateway with an empty class name, carrying the three cleanup
finalizers. -/
def Gateway.sampleEmptyClass : Gateway :=
  { Gateway.sample with gatewayClassName := "" }


/-- The sample Gateway, deleted, on which the DataPlane-cleanup finalizer has
already been removed. -/
def Gateway.sampleDeletedWithoutDataPlanes : Gateway :=
  { Gateway.sample with
    objectMeta :=
      { Gateway.sample.objectMeta with
        finalizers := [Decls.sample.GatewayFinalizerCleanupControlPlanes,
                       Decls.sample.GatewayFinalizerCleanupNetworkpolicies],
        deletionTimestamp := some 50 } }

/-- The sample environment in which no owned DataPlane is left, one owned
ControlPlane and one owned NetworkPolicy are listed, the ControlPlane helper
reports no deletion and the NetworkPolicy helper reports deletions. -/
def GatewayEnv.sampleLingeringControlPlane : GatewayEnv :=
  { GatewayEnv.sample with
    listControlPlanes := .ok [ControlPlane.sample],
    ensureOwnedControlPlanesDeleted := (false, none),
    listNetworkPolicies := .ok
      [{ objectMeta := { ObjectMeta.zero with name := "np-1", nameSpace := "default" },
         spec := NetworkPolicySpec.zero }],
    ensureOwnedNetworkPoliciesDeleted := (true, none) }

/-! ## Defaults of the ControlPlane options
(`controllers/controlplane_controller_utils.go`) -/

/-- `controlPlaneDefaultsArgs`: the parameters of `setControlPlaneDefaults`. -/
structure controlPlaneDefaultsArgs where
  nameSpace : String
  dataPlanePodIP : String
  dataplaneProxyServiceName : String
  dataplaneAdminServiceName : String
  deriving DecidableEq, Repr

/-- `controllerKongAdminURL`. -/
def controllerKongAdminURL (k : Decls) (podIP adminServiceName podNamespace : String) :
    String :=
  "https://" ++ podIP.replace "." "-" ++ "." ++ adminServiceName ++ "." ++ podNamespace ++
    ".svc:" ++ toString k.DataPlaneAdminAPIPort

/-- `controllerPublishService`. -/
def controllerPublishService (dataplaneName dataplaneNamespace : String) : String :=
  dataplaneNamespace ++ "/" ++ dataplaneName

/-- `envValueByName`: the value of the first variable with the given name, the
empty string when there is none. -/
def envValueByName : List EnvVar → String → String
  | [], _ => ""
  | envVar :: rest, name => if envVar.name = name then envVar.value else envValueByName rest name

/-- `envVarSourceByName`: the `ValueFrom` of the first variable with the given
name, nil when there is none. -/
def envVarSourceByName : List EnvVar → String → Option EnvVarSource
  | [], _ => none
  | envVar :: rest, name =>
    if envVar.name = name then envVar.valueFrom else envVarSourceByName rest name

/-- `updateEnv`: the variables of other names, followed by the variable `name`
with the value `val`. -/
def updateEnv (envVars : List EnvVar) (name val : String) : List EnvVar :=
  envVars.filter (fun envVar => decide (envVar.name ≠ name)) ++
    [{ name := name, value := val, valueFrom := none }]

/-- `updateEnvSource`: the variables of other names, followed by the variable
`name` coming from `envSource`. -/
def updateEnvSource (envVars : List EnvVar) (name : String) (envSource : EnvVarSource) :
    List EnvVar :=
  envVars.filter (fun envVar => decide (envVar.name ≠ name)) ++
    [{ name := name, value := "", valueFrom := some envSource }]

/-- `rejectEnvByName`. -/
def rejectEnvByName (envVars : List EnvVar) (name : String) : List EnvVar :=
  envVars.filter (fun envVar => decide (envVar.name ≠ name))

/-- The source `metadata.namespace` of the pod, the local
`envSourceMetadataNamespace` of `setControlPlaneDefaults`. -/
def envSourceMetadataNamespace : EnvVarSource :=
  { fieldRef := some { apiVersion := "v1", fieldPath := "metadata.namespace" },
    configMapKeyRef := none, secretKeyRef := none, otherRef := none }

/-- The source `metadata.name` of the pod, the local `envSourceMetadataName` of
`setControlPlaneDefaults`. -/
def envSourceMetadataName : EnvVarSource :=
  { fieldRef := some { apiVersion := "v1", fieldPath := "metadata.name" },
    configMapKeyRef := none, secretKeyRef := none, otherRef := none }

/-- The part of `setControlPlaneDefaults` that works on `container.Env` (lines
70 to 122): the environment afterwards and the flag `changed`. `dontOverride`
is the set of keys of the map of that name. The flag is raised by the first
five steps only, as in the source; the three TLS paths are written without
raising it. -/
def setControlPlaneDefaultsEnv (k : Decls) (env : List EnvVar) (dontOverride : List String)
    (args : controlPlaneDefaultsArgs) : List EnvVar × Bool :=
  let changed1 := decide (envVarSourceByName env "POD_NAMESPACE" ≠ some envSourceMetadataNamespace)
  let env1 :=
    if changed1 then updateEnvSource env "POD_NAMESPACE" envSourceMetadataNamespace else env
  let changed2 := decide (envVarSourceByName env1 "POD_NAME" ≠ some envSourceMetadataName)
  let env2 := if changed2 then updateEnvSource env1 "POD_NAME" envSourceMetadataName else env1
  let changed3 :=
    decide (envValueByName env2 "CONTROLLER_GATEWAY_API_CONTROLLER_NAME" ≠ k.ControllerName)
  let env3 :=
    if changed3 then updateEnv env2 "CONTROLLER_GATEWAY_API_CONTROLLER_NAME" k.ControllerName
    else env2
  let publishService := controllerPublishService args.dataplaneProxyServiceName args.nameSpace
  let changed4 :=
    decide (args.nameSpace ≠ "" ∧ args.dataplaneProxyServiceName ≠ "" ∧
      "CONTROLLER_PUBLISH_SERVICE" ∉ dontOverride ∧
      envValueByName env3 "CONTROLLER_PUBLISH_SERVICE" ≠ publishService)
  let env4 := if changed4 then updateEnv env3 "CONTROLLER_PUBLISH_SERVICE" publishService else env3
  let adminURL :=
    controllerKongAdminURL k args.dataPlanePodIP args.dataplaneAdminServiceName args.nameSpace
  let changed5 :=
    decide (args.dataPlanePodIP ≠ "" ∧ args.dataplaneAdminServiceName ≠ "" ∧
      "CONTROLLER_KONG_ADMIN_URL" ∉ dontOverride ∧
      envValueByName env4 "CONTROLLER_KONG_ADMIN_URL" ≠ adminURL)
  let env5 := if changed5 then updateEnv env4 "CONTROLLER_KONG_ADMIN_URL" adminURL else env4
  let env6 :=
    if "CONTROLLER_KONG_ADMIN_TLS_CLIENT_CERT_FILE" ∉ dontOverride then
      updateEnv env5 "CONTROLLER_KONG_ADMIN_TLS_CLIENT_CERT_FILE"
        "/var/cluster-certificate/tls.crt"
    else env5
  let env7 :=
    if "CONTROLLER_KONG_ADMIN_TLS_CLIENT_KEY_FILE" ∉ dontOverride then
      updateEnv env6 "CONTROLLER_KONG_ADMIN_TLS_CLIENT_KEY_FILE"
        "/var/cluster-certificate/tls.key"
    else env6
  let env8 :=
    if "CONTROLLER_KONG_ADMIN_CA_CERT_FILE" ∉ dontOverride then
      updateEnv env7 "CONTROLLER_KONG_ADMIN_CA_CERT_FILE" "/var/cluster-certificate/ca.crt"
    else env7
  (env8, changed1 || changed2 || changed3 || changed4 || changed5)

/-- `setControlPlaneDefaults`: the options afterwards and the returned flag.
When the pod spec has a controller container, `container` points to it and the
environment is written through the pointer. When it has none, `container` is a
fresh local value, a copy of which (made before any variable is set) is
appended to the pod spec: the variables are then set on the local value only,
and the appended container keeps an empty environment. -/
def setControlPlaneDefaults (k : Decls) (spec : ControlPlaneOptions)
    (dontOverride : List String) (args : controlPlaneDefaultsArgs) :
    ControlPlaneOptions × Bool :=
  let podTemplateSpec : PodTemplateSpec :=
    match spec.deployment.podTemplateSpec with
    | none => { containers := [] }
    | some podTemplateSpec => podTemplateSpec
  match GetPodContainerByName podTemplateSpec.containers
      k.ControlPlaneControllerContainerName with
  | some i =>
    let env := (podTemplateSpec.containers[i]?.map (fun container => container.env)).getD []
    let r := setControlPlaneDefaultsEnv k env dontOverride args
    ({ spec with
       deployment :=
         { spec.deployment with
           podTemplateSpec := some
             { containers :=
                 podTemplateSpec.containers.modify
                   (fun container => { container with env := r.1 }) i } } },
     r.2)
  | none =>
    let r := setControlPlaneDefaultsEnv k [] dontOverride args
    ({ spec with
       deployment :=
         { spec.deployment with
           podTemplateSpec := some
             { containers :=
                 podTemplateSpec.containers ++
                   [{ name := k.ControlPlaneControllerContainerName, image := "", env := [] }] } } },
     r.2)

/-- The environment of the controller container of the options: of the
container that `GetPodContainerByName` finds, empty when there is none. -/
def controllerEnv (k : Decls) (spec : ControlPlaneOptions) : List EnvVar :=
  match spec.deployment.podTemplateSpec with
  | none => []
  | some podTemplateSpec =>
    match GetPodContainerByName podTemplateSpec.containers
        k.ControlPlaneControllerContainerName with
    | none => []
    | some i => (podTemplateSpec.containers[i]?.map (fun container => container.env)).getD []

/-- The options after `n` successive calls of `setControlPlaneDefaults` with
the same arguments. -/
def setControlPlaneDefaultsTimes (k : Decls) (dontOverride : List String)
    (args : controlPlaneDefaultsArgs) : Nat → ControlPlaneOptions → ControlPlaneOptions
  | 0, spec => spec
  | n + 1, spec =>
    setControlPlaneDefaultsTimes k dontOverride args n
      (setControlPlaneDefaults k spec dontOverride args).1

/-- The variables that `setControlPlaneDefaults` leaves alone when their name
is a key of `dontOverride`. -/
def overridableEnvNames : List String :=
  ["CONTROLLER_PUBLISH_SERVICE", "CONTROLLER_KONG_ADMIN_URL",
   "CONTROLLER_KONG_ADMIN_TLS_CLIENT_CERT_FILE", "CONTROLLER_KONG_ADMIN_TLS_CLIENT_KEY_FILE",
   "CONTROLLER_KONG_ADMIN_CA_CERT_FILE"]

/-- Does the pod spec of the options have a controller container? -/
def hasControllerContainer (k : Decls) (spec : ControlPlaneOptions) : Bool :=
  match spec.deployment.podTemplateSpec with
  | none => false
  | some podTemplateSpec =>
    (GetPodContainerByName podTemplateSpec.containers
      k.ControlPlaneControllerContainerName).isSome

/-- Sample options whose controller container carries two variables set by the
caller: `POD_NAMESPACE` with the value `custom` and
`CONTROLLER_PUBLISH_SERVICE` with the value `other/svc`. -/
def ControlPlaneOptions.sampleCallerEnv : ControlPlaneOptions :=
  { deployment :=
      { replicas := some 1,
        podTemplateSpec := some
          { containers :=
              [{ name := "controller", image := "kong/kubernetes-ingress-controller:2.12",
                 env := [{ name := "POD_NAMESPACE", value := "custom", valueFrom := none },
                         { name := "CONTROLLER_PUBLISH_SERVICE", value := "other/svc",
                           valueFrom := none }] }] } },
    dataPlane := none }

/-- Sample options whose controller container already carries the three
variables that raise the flag of `setControlPlaneDefaults`, with the computed
values, and no TLS path. -/
def ControlPlaneOptions.sampleComputedEnv : ControlPlaneOptions :=
  { deployment :=
      { replicas := some 1,
        podTemplateSpec := some
          { containers :=
              [{ name := "controller", image := "kong/kubernetes-ingress-controller:2.12",
                 env := [{ name := "POD_NAMESPACE", value := "",
                           valueFrom := some envSourceMetadataNamespace },
                         { name := "POD_NAME", value := "",
                           valueFrom := some envSourceMetadataName },
                         { name := "CONTROLLER_GATEWAY_API_CONTROLLER_NAME",
                           value := "konghq.com/gateway-operator", valueFrom := none }] }] } },
    dataPlane := none }

/-- Sample arguments: the namespace `default` and the proxy Service
`dp-1-proxy`, no pod IP and no admin Service. -/
def controlPlaneDefaultsArgs.sample : controlPlaneDefaultsArgs :=
  { nameSpace := "default", dataPlanePodIP := "", dataplaneProxyServiceName := "dp-1-proxy",
    dataplaneAdminServiceName := "" }

/-- The empty arguments. -/
def controlPlaneDefaultsArgs.zero : controlPlaneDefaultsArgs :=
  { nameSpace := "", dataPlanePodIP := "", dataplaneProxyServiceName := "",
    dataplaneAdminServiceName := "" }

/-! ## The NetworkPolicy of the DataPlane
(`controllers/gateway_controller_reconciler_utils.go`, lines 189 to 288) -/

/-- The constant `corev1.ProtocolTCP`. -/
def ProtocolTCP : String := "TCP"

/-- The constant `networkingv1.PolicyTypeIngress`. -/
def PolicyTypeIngress : String := "Ingress"

/-- `generateDataPlaneNetworkPolicy`: the policy of a DataPlane, with the rules
`limitAdminAPIIngress`, `allowProxyIngress` and `allowMetricsIngress` in this
order. The four port numbers are constants of `k`. -/
def generateDataPlaneNetworkPolicy (k : Decls) (nameSpace : String) (dataplane : DataPlane)
    (controlplane : ControlPlane) : NetworkPolicy :=
  let protocolTCP := ProtocolTCP
  let adminAPIPort := k.DataPlaneAdminAPIPort
  let proxyPort := k.DataPlaneProxyPort
  let proxySSLPort := k.DataPlaneProxySSLPort
  let metricsPort := k.DataPlaneMetricsPort
  let limitAdminAPIIngress : NetworkPolicyIngressRule :=
    { ports := [{ protocol := some protocolTCP, port := some adminAPIPort }],
      fromPeers :=
        [{ podSelector := some { matchLabels := [("app", controlplane.objectMeta.name)] },
           namespaceSelector := some
             { matchLabels :=
                 [("kubernetes.io/metadata.name", dataplane.objectMeta.nameSpace)] } }] }
  let allowProxyIngress : NetworkPolicyIngressRule :=
    { ports := [{ protocol := some protocolTCP, port := some proxyPort },
                { protocol := some protocolTCP, port := some proxySSLPort }],
      fromPeers := [] }
  let allowMetricsIngress : NetworkPolicyIngressRule :=
    { ports := [{ protocol := some protocolTCP, port := some metricsPort }],
      fromPeers := [] }
  { objectMeta :=
      { ObjectMeta.zero with
        nameSpace := nameSpace,
        generateName := dataplane.objectMeta.name ++ "-limit-admin-api-" },
    spec :=
      { podSelector := { matchLabels := [("app", dataplane.objectMeta.name)] },
        policyTypes := [PolicyTypeIngress],
        ingress := [limitAdminAPIIngress, allowProxyIngress, allowMetricsIngress] } }

/-- The read `m[key]` of a Go map given by the list of its entries. -/
def mapLookup (m : List (String × String)) (key : String) : Option String :=
  (m.find? (fun entry => decide (entry.1 = key))).map (fun entry => entry.2)

/-- `maps.Equal`: the two maps have the same number of entries and every entry
of the first is an entry of the second. -/
def mapsEqual (m1 m2 : List (String × String)) : Bool :=
  if m1.length ≠ m2.length then false
  else m1.all (fun entry => decide (mapLookup m2 entry.1 = some entry.2))

/-- The comparison of two optional booleans in the comparator of
`EnsureObjectMetaIsUpdated`: both set and equal, or both nil. -/
def sameOptionalBool (a b : Option Bool) : Bool :=
  (a.isSome && b.isSome && decide (a = b)) || (a.isNone && b.isNone)

/-- The comparator of owner references in `EnsureObjectMetaIsUpdated`. -/
def ownerReferenceEqual (newObjRef genObjRef : OwnerReference) : Bool :=
  let sameController := sameOptionalBool newObjRef.controller genObjRef.controller
  let sameBlockOwnerDeletion :=
    sameOptionalBool newObjRef.blockOwnerDeletion genObjRef.blockOwnerDeletion
  decide (newObjRef.apiVersion = genObjRef.apiVersion) &&
    decide (newObjRef.kind = genObjRef.kind) &&
    decide (newObjRef.name = genObjRef.name) &&
    decide (newObjRef.uid = genObjRef.uid) &&
    sameController &&
    sameBlockOwnerDeletion

/-- `slices.EqualFunc`: the same length and the comparator holds at every
index. -/
def slicesEqualFunc {α β : Type} (eq : α → β → Bool) : List α → List β → Bool
  | [], [] => true
  | a :: s1, b :: s2 => eq a b && slicesEqualFunc eq s1 s2
  | _, _ => false

/-- The loop of `EnsureObjectMetaIsUpdated` over its options. -/
def applyObjectMetaOptions (generatedMeta : ObjectMeta) :
    List (ObjectMeta → ObjectMeta → Bool × ObjectMeta) → Bool → ObjectMeta → Bool × ObjectMeta
  | [], metaToUpdate, existingMeta => (metaToUpdate, existingMeta)
  | opt :: rest, metaToUpdate, existingMeta =>
    let (changed, existingMeta) := opt existingMeta generatedMeta
    applyObjectMetaOptions generatedMeta rest (if changed then true else metaToUpdate)
      existingMeta

/-- `EnsureObjectMetaIsUpdated` of `internal/utils/kubernetes/metadata.go`:
whether the existing metadata has to be written, and the metadata to write. -/
def EnsureObjectMetaIsUpdated (existingMeta generatedMeta : ObjectMeta)
    (options : List (ObjectMeta → ObjectMeta → Bool × ObjectMeta)) : Bool × ObjectMeta :=
  let metaToUpdate := false
  let (metaToUpdate, existingMeta) :=
    if !mapsEqual existingMeta.labels generatedMeta.labels then
      (true, { existingMeta with labels := generatedMeta.labels })
    else (metaToUpdate, existingMeta)
  let (metaToUpdate, existingMeta) :=
    if !slicesEqualFunc ownerReferenceEqual existingMeta.ownerReferences
        generatedMeta.ownerReferences then
      (true, { existingMeta with ownerReferences := generatedMeta.ownerReferences })
    else (metaToUpdate, existingMeta)
  applyObjectMetaOptions generatedMeta options metaToUpdate existingMeta

/-- The policy `ensureDataPlaneHasNetworkPolicy` generates: the generated
policy, owned by the Gateway and labelled as managed by a Gateway. -/
def generatedPolicyForGateway (k : Decls) (gateway : Gateway) (dataplane : DataPlane)
    (controlplane : ControlPlane) : NetworkPolicy :=
  let generatedPolicy :=
    generateDataPlaneNetworkPolicy k gateway.objectMeta.nameSpace dataplane controlplane
  let generatedPolicy : NetworkPolicy :=
    { generatedPolicy with
      objectMeta := k.SetOwnerForObject generatedPolicy.objectMeta gateway.objectMeta }
  { generatedPolicy with objectMeta := k.LabelObjectAsGatewayManaged generatedPolicy.objectMeta }

/-- `GatewayReconciler.ensureDataPlaneHasNetworkPolicy`: the calls it issues, the
flag `createdOrUpdate` and the error. The list of the policies of the Gateway
and the errors of the two writes are outcomes of `env`. -/
def GatewayReconciler.ensureDataPlaneHasNetworkPolicy (k : Decls) (env : GatewayEnv)
    (gateway : Gateway) (dataplane : DataPlane) (controlplane : ControlPlane) :
    List GatewayCall × Bool × Option Err :=
  match env.listNetworkPolicies with
  | .error err => ([.listNetworkPolicies], false, some err)
  | .ok networkPolicies =>
    let count := networkPolicies.length
    if count > 1 then
      ([.listNetworkPolicies], false,
        some (.wrap "" .ErrTooManyDataPlaneNetworkPolicies
          (", got: " ++ toString count ++ ", expected 1")))
    else
      let generatedPolicy := generatedPolicyForGateway k gateway dataplane controlplane
      match networkPolicies with
      | existingPolicy :: _ =>
        let (updated, objectMeta) :=
          EnsureObjectMetaIsUpdated existingPolicy.objectMeta generatedPolicy.objectMeta []
        let existingPolicy : NetworkPolicy := { existingPolicy with objectMeta := objectMeta }
        if updated then
          ([.listNetworkPolicies, .updateNetworkPolicy existingPolicy], true,
            env.updateNetworkPolicy)
        else ([.listNetworkPolicies], false, none)
      | [] =>
        ([.listNetworkPolicies, .createNetworkPolicy generatedPolicy], true,
          env.createNetworkPolicy)

/-! ## The addresses of the Gateway
(`controllers/gateway_controller_reconciler_utils.go`, lines 74 to 122) -/

/-- The constant `gatewayv1alpha2.IPAddressType`. -/
def IPAddressType : String := "IPAddress"

/-- `GatewayReconciler.ensureGatewayConnectivityStatus`: the Gateway afterwards
and the error. The list of the Services of the DataPlane is an outcome of
`env`. -/
def GatewayReconciler.ensureGatewayConnectivityStatus (env : GatewayEnv) (gateway : Gateway)
    (dataplane : DataPlane) : Gateway × Option Err :=
  match env.listServices with
  | .error err => (gateway, some err)
  | .ok services =>
    let count := services.length
    if count > 1 then
      (gateway, some (.errorf ("found " ++ toString count ++
        " services for DataPlane currently unsupported: expected 1 or less")))
    else
      match services with
      | [] =>
        (gateway, some (.errorf ("no services found for dataplane " ++
          dataplane.objectMeta.nameSpace ++ "/" ++ dataplane.objectMeta.name)))
      | svc :: _ =>
        if svc.clusterIP = "" then
          (gateway, some (.errorf ("service " ++ svc.name ++
            " doesn't have a ClusterIP yet, not ready")))
        else
          let gatewayIPs : Except Err (List String) :=
            match svc.loadBalancerIngressIPs with
            | [] => .ok []
            | ip :: _ =>
              if ip = "" then
                .error (.errorf ("missing loadbalancer.ingress[0].ip in service " ++
                  svc.nameSpace ++ "/" ++ svc.name))
              else .ok [ip]
          match gatewayIPs with
          | .error err => (gateway, some err)
          | .ok gatewayIPs =>
            let allIPs := gatewayIPs ++ [svc.clusterIP]
            let newAddresses : List GatewayAddress :=
              allIPs.map (fun ip => { type := some IPAddressType, value := ip })
            ({ gateway with addresses := newAddresses }, none)

/-- A policy of the sample Gateway that carries the labels and the owner
references of the generated policy, and the empty spec. -/
def NetworkPolicy.sampleStale : NetworkPolicy :=
  { objectMeta :=
      { (generatedPolicyForGateway Decls.sample Gateway.sample DataPlane.sample
          ControlPlane.sample).objectMeta with name := "dp-1-limit-admin-api-x7k2p" },
    spec := NetworkPolicySpec.zero }

/-- The sample environment in which the Gateway owns the one policy
`NetworkPolicy.sampleStale`. -/
def GatewayEnv.sampleStalePolicy : GatewayEnv :=
  { GatewayEnv.sample with listNetworkPolicies := .ok [NetworkPolicy.sampleStale] }

/-- A sample Service with a cluster IP and one load-balancer ingress entry. -/
def Service.sampleLoadBalancer : Service :=
  { name := "dp-1-proxy", nameSpace := "default", clusterIP := "10.0.0.7",
    loadBalancerIngressIPs := ["172.18.0.100"] }

/-- The sample environment in which the DataPlane has the one Service
`Service.sampleLoadBalancer`. -/
def GatewayEnv.sampleLoadBalancer : GatewayEnv :=
  { GatewayEnv.sample with listServices := .ok [Service.sampleLoadBalancer] }

/-! ## The branch of a ControlPlane that is not deleted
(`controllers/controlplane_controller.go`, lines 161 to 337) -/

/-- The reason of the API status an error carries, read through wrapping as
`k8serrors.ReasonForError` does; the empty text is `StatusReasonUnknown`. -/
def Err.reason : Err → String
  | .status _ reason _ _ _ => reason
  | .wrap _ inner _ => inner.reason
  | _ => ""

/-- The test `k8serrors.IsConflict`: the reason of the error is `Conflict`. -/
def Err.IsConflict (err : Err) : Bool := decide (err.reason = "Conflict")

/-- The test `k8serrors.IsNotFound`: the reason of the error is `NotFound`. -/
def Err.IsNotFound (err : Err) : Bool := decide (err.reason = "NotFound")

/-- The fields of an `appsv1.Deployment` the reconciler reads: the desired
number of replicas `Spec.Replicas` (a pointer), the observed number
`Status.Replicas` and the available number `Status.AvailableReplicas`. -/
structure Deployment where
  specReplicas : Option Int
  statusReplicas : Int
  statusAvailableReplicas : Int
  deriving DecidableEq, Repr

/-- Outcomes of what the branch reads and calls: the clock, the errors of
`Client.Update` and of `Client.Status().Update`, the conditions of the stored
ControlPlane read by `updateStatus`, and the results of the helpers declared
outside the given sources. A helper that writes to the ControlPlane it is given
returns the ControlPlane afterwards. -/
structure ControlPlaneEnv where
  now : Int
  update : Option Err
  getCurrent : Except Err (List Condition)
  statusUpdate : Option Err
  ensureIsMarkedScheduled : ControlPlane → Bool × ControlPlane
  getDataPlaneForControlPlane : Except Err DataPlane
  setOwnerReference : Option Err
  getDataplaneServiceName : Except Err String
  ensureDataPlaneConfiguration : ControlPlane → ControlPlane × Option Err
  ensureDataPlaneStatus : ControlPlane → Bool × ControlPlane
  ensureServiceAccountForControlPlane : Bool × Option Err
  ensureClusterRoleForControlPlane : Bool × Option Err
  ensureClusterRoleBindingForControlPlane : Bool × Option Err
  ensureCertificate : Bool × Option Err
  ensureDeploymentForControlPlane : Bool × Deployment × Option Err
  ensureIsMarkedProvisioned : ControlPlane → ControlPlane

/-- What a pass over a ControlPlane that is not deleted did: the calls it
issued in order, the returned result and error, and the ControlPlane held by
the pass at its end. -/
structure ControlPlaneActivePass where
  calls : List ControlPlaneCall
  result : Result
  err : Option Err
  controlplane : ControlPlane
  deriving DecidableEq, Repr

/-- `ControlPlaneReconciler.updateStatus`: the calls and the returned error.
When the read fails with not-found, `current` stays the empty object. -/
def ControlPlaneReconciler.updateStatus (env : ControlPlaneEnv) (updated : ControlPlane) :
    List ControlPlaneCall × Option Err :=
  let write (current : List Condition) : List ControlPlaneCall × Option Err :=
    if NeedsUpdate current updated.conditions then
      ([.getCurrent, .statusUpdate updated.conditions], env.statusUpdate)
    else ([.getCurrent], none)
  match env.getCurrent with
  | .error err => if !err.IsNotFound then ([.getCurrent], some err) else write []
  | .ok current => write current

/-- Lines 299 to 322 of `Reconcile`: the readiness of the Deployment, the
Provisioned mark and the last write of the status. -/
def ControlPlaneReconciler.reconcileReadiness (k : Decls) (env : ControlPlaneEnv)
    (calls : List ControlPlaneCall) (controlplane : ControlPlane)
    (controlplaneDeployment : Deployment) : ControlPlaneActivePass :=
  if controlplaneDeployment.statusReplicas = 0 ∨
      controlplaneDeployment.statusAvailableReplicas < controlplaneDeployment.statusReplicas then
    { calls := calls, result := Result.zero, err := none, controlplane := controlplane }
  else
    let controlplane := env.ensureIsMarkedProvisioned controlplane
    let (statusCalls, err) := ControlPlaneReconciler.updateStatus env controlplane
    let calls := calls ++ [.ensureIsMarkedProvisioned] ++ statusCalls
    match err with
    | some err =>
      if err.IsConflict then
        { calls := calls,
          result := { requeue := true, requeueAfter := k.requeueWithoutBackoff },
          err := none, controlplane := controlplane }
      else { calls := calls, result := Result.zero, err := some err, controlplane := controlplane }
    | none => { calls := calls, result := Result.zero, err := none, controlplane := controlplane }

/-- Lines 241 to 297 of `Reconcile`: the ServiceAccount, the ClusterRole, the
ClusterRoleBinding, the certificate and the Deployment of the ControlPlane, then
the readiness. `dataplaneIsSet` is the result of `ensureDataPlaneStatus`. -/
def ControlPlaneReconciler.reconcileOwned (k : Decls) (env : ControlPlaneEnv)
    (calls : List ControlPlaneCall) (controlplane : ControlPlane) (dataplaneIsSet : Bool) :
    ControlPlaneActivePass :=
  let stop (calls : List ControlPlaneCall) (err : Option Err) : ControlPlaneActivePass :=
    { calls := calls, result := Result.zero, err := err, controlplane := controlplane }
  let calls := calls ++ [.ensureServiceAccountForControlPlane]
  match env.ensureServiceAccountForControlPlane with
  | (_, some err) => stop calls (some err)
  | (true, none) => stop calls none
  | (false, none) =>
  let calls := calls ++ [.ensureClusterRoleForControlPlane]
  match env.ensureClusterRoleForControlPlane with
  | (_, some err) => stop calls (some err)
  | (true, none) => stop calls none
  | (false, none) =>
  let calls := calls ++ [.ensureClusterRoleBindingForControlPlane]
  match env.ensureClusterRoleBindingForControlPlane with
  | (_, some err) => stop calls (some err)
  | (true, none) => stop calls none
  | (false, none) =>
  let calls := calls ++ [.ensureCertificate]
  match env.ensureCertificate with
  | (_, some err) => stop calls (some err)
  | (true, none) => stop calls none
  | (false, none) =>
  let calls := calls ++ [.ensureDeploymentForControlPlane]
  match env.ensureDeploymentForControlPlane with
  | (_, _, some err) => stop calls (some err)
  | (true, _, none) =>
    if !dataplaneIsSet then
      let (statusCalls, err) := ControlPlaneReconciler.updateStatus env controlplane
      stop (calls ++ statusCalls) err
    else stop calls none
  | (false, controlplaneDeployment, none) =>
    ControlPlaneReconciler.reconcileReadiness k env calls controlplane controlplaneDeployment

/-- Lines 206 to 239 of `Reconcile`: the defaults of the options, the write of
the spec, the configuration and the status of the DataPlane. The call of
`setControlPlaneDefaults` in `Reconcile` passes the namespace of the
ControlPlane, the name of the Service of the DataPlane and a nil set of
protected names; they are the namespace, the name of the proxy Service and the
empty `dontOverride` of the function in `controlplane_controller_utils.go`. -/
def ControlPlaneReconciler.reconcileConfiguration (k : Decls) (env : ControlPlaneEnv)
    (calls : List ControlPlaneCall) (controlplane : ControlPlane)
    (dataplaneServiceName : String) : ControlPlaneActivePass :=
  let (options, changed) :=
    setControlPlaneDefaults k controlplane.options []
      { nameSpace := controlplane.objectMeta.nameSpace, dataPlanePodIP := "",
        dataplaneProxyServiceName := dataplaneServiceName, dataplaneAdminServiceName := "" }
  let controlplane : ControlPlane := { controlplane with options := options }
  if changed then
    let calls := calls ++ [.update controlplane]
    match env.update with
    | some err =>
      if err.IsConflict then
        { calls := calls,
          result := { requeue := true, requeueAfter := k.requeueWithoutBackoff },
          err := none, controlplane := controlplane }
      else { calls := calls, result := Result.zero, err := some err, controlplane := controlplane }
    | none => { calls := calls, result := Result.zero, err := none, controlplane := controlplane }
  else
    let calls := calls ++ [.ensureDataPlaneConfiguration]
    match env.ensureDataPlaneConfiguration controlplane with
    | (controlplane, some err) =>
      if err.IsConflict then
        { calls := calls,
          result := { requeue := true, requeueAfter := k.requeueWithoutBackoff },
          err := none, controlplane := controlplane }
      else { calls := calls, result := Result.zero, err := some err, controlplane := controlplane }
    | (controlplane, none) =>
      let (dataplaneIsSet, controlplane) := env.ensureDataPlaneStatus controlplane
      ControlPlaneReconciler.reconcileOwned k env calls controlplane dataplaneIsSet

/-- Lines 161 to 204 of `Reconcile`, entered with a ControlPlane whose deletion
timestamp is zero: the finalizers, the Ready condition, the Scheduled mark and
the DataPlane of the ControlPlane; then the rest of the pass. -/
def ControlPlaneReconciler.reconcileActive (k : Decls) (env : ControlPlaneEnv)
    (controlplane : ControlPlane) : ControlPlaneActivePass :=
  let (finalizers, finalizersChanged) :=
    EnsureFinalizersInMetadata controlplane.objectMeta.finalizers
      [k.ControlPlaneFinalizerCleanupClusterRole,
       k.ControlPlaneFinalizerCleanupClusterRoleBinding]
  let controlplane : ControlPlane :=
    { controlplane with objectMeta := { controlplane.objectMeta with finalizers := finalizers } }
  if finalizersChanged then
    { calls := [.update controlplane], result := Result.zero, err := env.update,
      controlplane := controlplane }
  else
    let controlplane : ControlPlane :=
      { controlplane with conditions := InitReady env.now controlplane.conditions }
    match env.ensureIsMarkedScheduled controlplane with
    | (true, controlplane) =>
      let (statusCalls, err) := ControlPlaneReconciler.updateStatus env controlplane
      { calls := statusCalls, result := Result.zero, err := err, controlplane := controlplane }
    | (false, controlplane) =>
      match env.getDataPlaneForControlPlane with
      | .error err =>
        if !err.Is .ErrDataPlaneNotSet then
          { calls := [.getDataPlaneForControlPlane], result := Result.zero, err := some err,
            controlplane := controlplane }
        else
          ControlPlaneReconciler.reconcileConfiguration k env [.getDataPlaneForControlPlane]
            controlplane ""
      | .ok _ =>
        match env.setOwnerReference with
        | some err =>
          { calls := [.getDataPlaneForControlPlane, .setOwnerReference], result := Result.zero,
            err := some err, controlplane := controlplane }
        | none =>
          match env.getDataplaneServiceName with
          | .error err =>
            { calls := [.getDataPlaneForControlPlane, .setOwnerReference,
                        .getDataplaneServiceName],
              result := Result.zero, err := some err, controlplane := controlplane }
          | .ok dataplaneServiceName =>
            ControlPlaneReconciler.reconcileConfiguration k env
              [.getDataPlaneForControlPlane, .setOwnerReference, .getDataplaneServiceName]
              controlplane dataplaneServiceName

/-- The sample options after `setControlPlaneDefaults` with the sample
arguments: a further call with these arguments returns false. -/
def ControlPlaneOptions.sampleSettled : ControlPlaneOptions :=
  (setControlPlaneDefaults Decls.sample ControlPlaneOptions.sampleComputedEnv []
    controlPlaneDefaultsArgs.sample).1

/-- A sample ControlPlane that is not deleted and carries no finalizer. -/
def ControlPlane.sampleNew : ControlPlane :=
  { objectMeta := { ObjectMeta.zero with name := "cp-1", nameSpace := "default", uid := "uid-cp-1" },
    gatewayClass := some "kong", options := ControlPlaneOptions.sampleSettled, conditions := [] }

/-- The sample ControlPlane with both cleanup finalizers and no condition. -/
def ControlPlane.sampleFinalized : ControlPlane :=
  { ControlPlane.sampleNew with
    objectMeta :=
      { ControlPlane.sampleNew.objectMeta with
        finalizers := [Decls.sample.ControlPlaneFinalizerCleanupClusterRole,
                       Decls.sample.ControlPlaneFinalizerCleanupClusterRoleBinding] } }

/-- The sample ControlPlane with both cleanup finalizers and the condition
`Provisioned` at `False`. -/
def ControlPlane.sampleScheduled : ControlPlane :=
  { ControlPlane.sampleFinalized with
    conditions := [NewCondition 90 "Provisioned" ConditionFalse "PodsNotReady" ""] }

/-- A conflict answer of the API server (HTTP 409, reason `Conflict`). -/
def Err.sampleConflict : Err :=
  .status 409 "Conflict" "the object has been modified" "controlplanes" ""

/-- A sample environment of a pass over a ControlPlane that is not deleted: the
clock reads 100, the stored ControlPlane has no condition, the DataPlane
`dp-1` with the Service `dp-1-proxy` is set, every owned object is in place,
the Deployment wants one replica, has one and one is available, and no call
fails. The Scheduled mark adds the condition `Provisioned` at `False` when
there is none, the Provisioned mark sets it to `True`. -/
def ControlPlaneEnv.sample : ControlPlaneEnv :=
  { now := 100, update := none, getCurrent := .ok [], statusUpdate := none,
    ensureIsMarkedScheduled := fun controlplane =>
      if (GetCondition "Provisioned" controlplane.conditions).2 then (false, controlplane)
      else
        (true,
          { controlplane with
            conditions :=
              SetCondition (NewCondition 100 "Provisioned" ConditionFalse "PodsNotReady" "")
                controlplane.conditions }),
    getDataPlaneForControlPlane := .ok DataPlane.sample,
    setOwnerReference := none,
    getDataplaneServiceName := .ok "dp-1-proxy",
    ensureDataPlaneConfiguration := fun controlplane => (controlplane, none),
    ensureDataPlaneStatus := fun controlplane => (true, controlplane),
    ensureServiceAccountForControlPlane := (false, none),
    ensureClusterRoleForControlPlane := (false, none),
    ensureClusterRoleBindingForControlPlane := (false, none),
    ensureCertificate := (false, none),
    ensureDeploymentForControlPlane :=
      (false, { specReplicas := some 1, statusReplicas := 1, statusAvailableReplicas := 1 }, none),
    ensureIsMarkedProvisioned := fun controlplane =>
      { controlplane with
        conditions :=
          SetCondition (NewCondition 100 "Provisioned" ConditionTrue "PodsReady" "")
            controlplane.conditions } }

/-- The sample environment in which `Client.Update` answers with a conflict. -/
def ControlPlaneEnv.sampleUpdateConflict : ControlPlaneEnv :=
  { ControlPlaneEnv.sample with update := some Err.sampleConflict }

/-- The sample environment in which `Client.Status().Update` answers with a
conflict. -/
def ControlPlaneEnv.sampleStatusConflict : ControlPlaneEnv :=
  { ControlPlaneEnv.sample with statusUpdate := some Err.sampleConflict }

/-- The sample environment with no DataPlane set, in which the Deployment has
just been scaled down and `Client.Status().Update` answers with a conflict. -/
def ControlPlaneEnv.sampleDormantStatusConflict : ControlPlaneEnv :=
  { ControlPlaneEnv.sample with
    statusUpdate := some Err.sampleConflict,
    getDataPlaneForControlPlane := .error .ErrDataPlaneNotSet,
    ensureDataPlaneStatus := fun controlplane => (false, controlplane),
    ensureDeploymentForControlPlane :=
      (true, { specReplicas := some 0, statusReplicas := 1, statusAvailableReplicas := 1 },
        none) }

/-- The sample environment in which the Deployment wants three replicas, has
one and one is available. -/
def ControlPlaneEnv.sampleScalingUp : ControlPlaneEnv :=
  { ControlPlaneEnv.sample with
    ensureDeploymentForControlPlane :=
      (false, { specReplicas := some 3, statusReplicas := 1, statusAvailableReplicas := 1 },
        none) }

/-- Does the list of calls hold a write of the status? -/
def hasStatusUpdate (calls : List ControlPlaneCall) : Bool :=
  calls.any (fun call => match call with
    | .statusUpdate _ => true
    | _ => false)

/-- The link between the Provisioned mark and the readiness of the Deployment
in a pass over a ControlPlane that is not deleted. First: when the pass marks
the ControlPlane provisioned, the Deployment step has answered with an unchanged Deployment and no error, the
observed number of replicas of that Deployment is not zero and not above the
available number, and the mark is followed by the calls of `updateStatus` on
the ControlPlane as marked and by nothing else. Second: when the pass has
reached the Deployment step, the step has answered with an unchanged Deployment
and no error, and the observed number of replicas is zero or above the
available number, the pass neither marks nor writes the status, and returns
the zero result and no error. Third: when the pass has reached the Deployment
step, the step has answered with an unchanged Deployment and no error, and the
observed number of replicas is not zero and not above the available number,
the pass marks the ControlPlane provisioned, whatever the desired number of
replicas of the Deployment. -/
def provisionedOnlyWhenAvailable (env : ControlPlaneEnv) (pass : ControlPlaneActivePass) :
    Prop :=
  (ControlPlaneCall.ensureIsMarkedProvisioned ∈ pass.calls →
      ∃ controlplaneDeployment : Deployment,
        env.ensureDeploymentForControlPlane = (false, controlplaneDeployment, none) ∧
          controlplaneDeployment.statusReplicas ≠ 0 ∧
          controlplaneDeployment.statusReplicas ≤
            controlplaneDeployment.statusAvailableReplicas ∧
          ∃ before : List ControlPlaneCall,
            pass.calls =
              before ++ ControlPlaneCall.ensureIsMarkedProvisioned ::
                (ControlPlaneReconciler.updateStatus env pass.controlplane).1) ∧
    (∀ controlplaneDeployment : Deployment,
      ControlPlaneCall.ensureDeploymentForControlPlane ∈ pass.calls →
      env.ensureDeploymentForControlPlane = (false, controlplaneDeployment, none) →
      (controlplaneDeployment.statusReplicas = 0 ∨
        controlplaneDeployment.statusAvailableReplicas <
          controlplaneDeployment.statusReplicas) →
      hasStatusUpdate pass.calls = false ∧
        ControlPlaneCall.ensureIsMarkedProvisioned ∉ pass.calls ∧
        pass.result = Result.zero ∧ pass.err = none) ∧
    (∀ controlplaneDeployment : Deployment,
      ControlPlaneCall.ensureDeploymentForControlPlane ∈ pass.calls →
      env.ensureDeploymentForControlPlane = (false, controlplaneDeployment, none) →
      controlplaneDeployment.statusReplicas ≠ 0 →
      controlplaneDeployment.statusReplicas ≤ controlplaneDeployment.statusAvailableReplicas →
      ControlPlaneCall.ensureIsMarkedProvisioned ∈ pass.calls)

/-! ## The readiness gates of the Gateway pass -/

/-- The Gateway as `GatewayReconciler.Reconcile` holds it when it calls
`provisionDataPlane`: the Accepted condition set when the Scheduled condition
was not valid, then the Ready and Programmed conditions initialised. -/
def GatewayReconciler.initialConditions (k : Decls) (env : GatewayEnv) (gateway : Gateway) :
    Gateway :=
  let gateway :=
    if !IsValidCondition k.GatewayScheduledType gateway.conditions then
      gateway.withConditions (SetCondition
        (NewConditionWithGeneration env.now GatewayConditionAccepted ConditionTrue
          GatewayClassReasonAccepted
          ("this gateway has been picked up by the " ++ k.ControllerName ++
            " and will be processed")
          gateway.objectMeta.generation) gateway.conditions)
    else gateway
  gateway.withConditions (InitReadyAndProgrammed env.now gateway.conditions)

/-- Is the call a step on the ControlPlanes of the Gateway? -/
def GatewayCall.isControlPlaneStep : GatewayCall → Bool
  | .listControlPlanes | .createControlPlane _ | .patchControlPlane _ => true
  | .ensureOwnedControlPlanesDeleted => true
  | _ => false

/-- Is the call a step on the NetworkPolicies of the Gateway? -/
def GatewayCall.isNetworkPolicyStep : GatewayCall → Bool
  | .listNetworkPolicies | .createNetworkPolicy _ | .updateNetworkPolicy _ => true
  | .ensureDataPlaneHasNetworkPolicy | .ensureOwnedNetworkPoliciesDeleted => true
  | _ => false

/-- The sample environment with one owned DataPlane in which the patch of the
status of the Gateway fails. -/
def GatewayEnv.samplePatchStatusFails : GatewayEnv :=
  { GatewayEnv.sampleOneDataPlane with patchStatus := some (.errorf "connection refused") }

/-! ## Validation of the DataPlane (`internal/validation/dataplane/validation.go`) -/

/-- The `Validator`: what its client answers to the `Get` of a ConfigMap and of
a Secret (by namespace and name: the error, or the `Data` of the object, a nil
map being empty), and `base64.StdEncoding.DecodeString`, taken as a parameter
(`none` is a decoding error). -/
structure Validator where
  getConfigMap : String → String → Except Err (List (String × String))
  getSecret : String → String → Except Err (List (String × String))
  decodeString : String → Option String

/-- The body of the loop of `ValidateDeployOptions` for one variable named
`EnvVarKongDatabase`: the value of `dbMode` afterwards, or the error the
function returns. -/
def Validator.dbModeOfEnvVar (v : Validator) (nameSpace : String) (envVar : EnvVar)
    (dbMode : String) : Except Err String :=
  if envVar.value ≠ "" then .ok envVar.value
  else
    match envVar.valueFrom with
    | none => .ok dbMode
    | some valueFrom =>
      let afterConfigMap : Except Err String :=
        match valueFrom.configMapKeyRef with
        | none => .ok dbMode
        | some cmKeyRef =>
          match v.getConfigMap nameSpace cmKeyRef.name with
          | .error err =>
            .error (.wrap ("failed to get configMap " ++ cmKeyRef.name ++
              " in configMapKeyRef, error ") err "")
          | .ok data =>
            if (mapLookup data cmKeyRef.key).getD "" ≠ "" then
              .ok ((mapLookup data cmKeyRef.key).getD "")
            else .ok dbMode
      match afterConfigMap with
      | .error err => .error err
      | .ok dbMode =>
        match valueFrom.secretKeyRef with
        | none => .ok dbMode
        | some secretRef =>
          match v.getSecret nameSpace secretRef.name with
          | .error err =>
            .error (.wrap ("failed to get secret " ++ secretRef.name ++
              " in secretRef, error ") err "")
          | .ok data =>
            if ((mapLookup data secretRef.key).getD "").length > 0 then
              match v.decodeString ((mapLookup data secretRef.key).getD "") with
              | some decoded => .ok decoded
              | none => .ok dbMode
            else .ok dbMode

/-- The loop of `ValidateDeployOptions` over `opts.Env`, from the current value
of `dbMode`. -/
def Validator.dbModeLoop (k : Decls) (v : Validator) (nameSpace : String) :
    List EnvVar → String → Except Err String
  | [], dbMode => .ok dbMode
  | envVar :: rest, dbMode =>
    if envVar.name = k.EnvVarKongDatabase then
      match v.dbModeOfEnvVar nameSpace envVar dbMode with
      | .error err => .error err
      | .ok dbMode => Validator.dbModeLoop k v nameSpace rest dbMode
    else Validator.dbModeLoop k v nameSpace rest dbMode

/-- `Validator.ValidateDeployOptions`; `optsEnv` is `opts.Env` (the type of
`opts` is declared outside the given sources). The local `dbModeFound` is
written and never read, and is left out. -/
def Validator.ValidateDeployOptions (k : Decls) (v : Validator) (nameSpace : String)
    (optsEnv : List EnvVar) : Option Err :=
  match Validator.dbModeLoop k v nameSpace optsEnv "" with
  | .error err => some err
  | .ok dbMode =>
    if dbMode ≠ "" ∧ dbMode ≠ "off" then
      some (.errorf ("database backend " ++ dbMode ++ " of dataplane not supported currently"))
    else none

/-- A sample `Validator` whose client finds no object and whose decoding
fails. -/
def Validator.sample : Validator :=
  { getConfigMap := fun _ _ => .error (.status 404 "NotFound" "not found" "configmaps" ""),
    getSecret := fun _ _ => .error (.status 404 "NotFound" "not found" "secrets" ""),
    decodeString := fun _ => none }

/-- Sample `opts.Env`: `KONG_DATABASE` set to `postgres`, then `KONG_DATABASE`
set to the empty value, both without `ValueFrom`. -/
def EnvVar.samplePostgresThenEmpty : List EnvVar :=
  [{ name := "KONG_DATABASE", value := "postgres", valueFrom := none },
   { name := "KONG_DATABASE", value := "", valueFrom := none }]

/-- The sample declarations with a `setControlplaneGatewayConfigDefaults` that
returns an error and leaves the GatewayConfiguration as it was. -/
def Decls.sampleFailingDefaults : Decls :=
  { Decls.sample with
    setControlplaneGatewayConfigDefaults := fun _ gatewayConfig _ _ =>
      (gatewayConfig, some (.errorf "defaults not set")) }

/-- The sample ControlPlane with a `Ready` condition of status `True`. -/
def ControlPlane.sampleReady : ControlPlane :=
  { ControlPlane.sample with
    conditions := [NewCondition 90 ReadyType ConditionTrue ResourceReadyReason ""] }

/-- The sample environment in which the one owned ControlPlane is the ready
sample. -/
def GatewayEnv.sampleReadyControlPlane : GatewayEnv :=
  { GatewayEnv.sample with listControlPlanes := .ok [ControlPlane.sampleReady] }

/-- The sample DataPlane with a `Ready` condition of status `True`. -/
def DataPlane.sampleReady : DataPlane :=
  { DataPlane.sample with
    conditions := [NewCondition 90 ReadyType ConditionTrue ResourceReadyReason ""] }

/-- The sample environment in which one ready owned DataPlane, its one proxy
Service and two owned ControlPlanes are listed. -/
def GatewayEnv.sampleReadyDataPlaneTwoControlPlanes : GatewayEnv :=
  { GatewayEnv.sampleTwoControlPlanes with listDataPlanes := .ok [DataPlane.sampleReady] }

/-- The sample DataPlane, ready, with options other than the expected ones. -/
def DataPlane.sampleReadyStale : DataPlane :=
  { DataPlane.sampleReady with options := DataPlaneOptions.zero }

/-- The sample environment in which one ready owned DataPlane with stale
options, its one proxy Service and two owned ControlPlanes are listed. -/
def GatewayEnv.sampleStaleDataPlaneTwoControlPlanes : GatewayEnv :=
  { GatewayEnv.sampleTwoControlPlanes with listDataPlanes := .ok [DataPlane.sampleReadyStale] }

/-! # Theorems -/

/-! ## Condition lemmas -/

theorem SetCondition_filter_same (c : Condition) (conds : List Condition) :
    (SetCondition c conds).filter (fun x => decide (x.type = c.type)) = [c] := by
  unfold SetCondition
  rw [List.filter_append, List.filter_filter]
  have h : List.filter (fun a => decide (a.type = c.type) && decide (a.type ≠ c.type)) conds
      = [] := by
    apply List.filter_eq_nil_iff.mpr
    intro a _
    simp
  simp [h]

theorem SetCondition_getLast (c : Condition) (conds : List Condition) :
    (SetCondition c conds).getLast? = some c := by
  simp [SetCondition]

theorem GetCondition_found_iff (t : String) (l : List Condition) :
    (GetCondition t l).2 = true ↔ ∃ u ∈ l, u.type = t := by
  induction l with
  | nil => simp [GetCondition]
  | cons a rest ih =>
    unfold GetCondition
    by_cases h : a.type = t
    · simp [h]
    · simp [h, ih]

theorem GetCondition_mem (t : String) (l : List Condition)
    (h : (GetCondition t l).2 = true) :
    (GetCondition t l).1 ∈ l ∧ (GetCondition t l).1.type = t := by
  induction l with
  | nil => simp [GetCondition] at h
  | cons a rest ih =>
    unfold GetCondition at h ⊢
    by_cases ha : a.type = t
    · simp [ha]
    · simp only [ha, if_false] at h ⊢
      exact ⟨List.mem_cons_of_mem _ (ih h).1, (ih h).2⟩

theorem type_unique (l : List Condition) (hn : (l.map (fun c => c.type)).Nodup)
    (u v : Condition) (hu : u ∈ l) (hv : v ∈ l) (h : u.type = v.type) : u = v :=
  List.inj_on_of_nodup_map hn hu hv h

theorem needsUpdateLoop_iff (updated current : List Condition) :
    needsUpdateLoop updated current = true ↔
      ∃ c ∈ current, (GetCondition c.type updated).2 = false ∨
        ((GetCondition c.type updated).1.reason ≠ c.reason ∨
         (GetCondition c.type updated).1.message ≠ c.message ∨
         (GetCondition c.type updated).1.status ≠ c.status) := by
  induction current with
  | nil => simp [needsUpdateLoop]
  | cons c rest ih =>
    unfold needsUpdateLoop
    rcases hg : GetCondition c.type updated with ⟨u, found⟩
    cases found with
    | false => simp [hg]
    | true =>
      by_cases hd : u.reason ≠ c.reason ∨ u.message ≠ c.message ∨ u.status ≠ c.status
      · simp only [Bool.not_true, Bool.false_eq_true, if_false, hd, if_true, true_iff]
        exact ⟨c, List.mem_cons_self _ _, Or.inr (by rw [hg]; exact hd)⟩
      · simp only [Bool.not_true, Bool.false_eq_true, if_false, hd, ih]
        constructor
        · rintro ⟨x, hx, hx2⟩
          exact ⟨x, List.mem_cons_of_mem _ hx, hx2⟩
        · rintro ⟨x, hx, hx2⟩
          rcases List.mem_cons.mp hx with rfl | hx
          · rw [hg] at hx2
            rcases hx2 with h1 | h1
            · simp at h1
            · exact absurd h1 hd
          · exact ⟨x, hx, hx2⟩

theorem needsUpdateLoop_iff_nodup (updated current : List Condition)
    (hd : (updated.map (fun c => c.type)).Nodup) :
    needsUpdateLoop updated current = true ↔
      ∃ c ∈ current, (∀ u ∈ updated, u.type ≠ c.type) ∨
        ∃ u ∈ updated, u.type = c.type ∧
          (u.reason ≠ c.reason ∨ u.message ≠ c.message ∨ u.status ≠ c.status) := by
  rw [needsUpdateLoop_iff]
  constructor
  · rintro ⟨c, hc, h⟩
    refine ⟨c, hc, ?_⟩
    rcases hf : (GetCondition c.type updated).2 with _ | _
    · left
      intro u hu hut
      have := (GetCondition_found_iff c.type updated).mpr ⟨u, hu, hut⟩
      rw [hf] at this
      exact Bool.false_ne_true this
    · right
      rcases h with h | h
      · rw [hf] at h
        exact absurd h (by decide)
      · exact ⟨_, (GetCondition_mem _ _ hf).1, (GetCondition_mem _ _ hf).2, h⟩
  · rintro ⟨c, hc, h⟩
    refine ⟨c, hc, ?_⟩
    rcases h with h | ⟨u, hu, hut, hdiff⟩
    · left
      rcases hf : (GetCondition c.type updated).2 with _ | _
      · rfl
      · obtain ⟨u, hu, hut⟩ := (GetCondition_found_iff c.type updated).mp hf
        exact absurd hut (h u hu)
    · right
      have hf := (GetCondition_found_iff c.type updated).mpr ⟨u, hu, hut⟩
      have hm := GetCondition_mem _ _ hf
      have : (GetCondition c.type updated).1 = u :=
        type_unique updated hd _ _ hm.1 hu (hm.2.trans hut.symm)
      rw [this]
      exact hdiff

/-! ## Finalizer lemmas -/

theorem removeFinalizerLoop_eq (f : String) (l : List String) :
    removeFinalizerLoop f l = (l.filter (fun x => decide (x ≠ f)), decide (f ∈ l)) := by
  induction l with
  | nil => simp [removeFinalizerLoop]
  | cons a rest ih =>
    unfold removeFinalizerLoop
    by_cases h : a = f
    · subst h
      simp [ih]
    · have h2 : ¬ f = a := fun e => h e.symm
      simp [h, h2, ih]

theorem RemoveFinalizerInMetadata_eq (l : List String) (f : String) :
    RemoveFinalizerInMetadata l f =
      if f ∈ l then (l.filter (fun x => decide (x ≠ f)), true) else (l, false) := by
  unfold RemoveFinalizerInMetadata
  rw [removeFinalizerLoop_eq]
  by_cases h : f ∈ l <;> simp [h]

theorem RemoveFinalizerInMetadata_true (l l2 : List String) (f : String)
    (h : RemoveFinalizerInMetadata l f = (l2, true)) :
    f ∈ l ∧ l2 = l.filter (fun x => decide (x ≠ f)) := by
  rw [RemoveFinalizerInMetadata_eq] at h
  by_cases hm : f ∈ l
  · simp only [hm, if_true, Prod.mk.injEq, and_true] at h
    exact ⟨hm, h.symm⟩
  · simp [hm] at h

theorem RemoveFinalizerInMetadata_false (l l2 : List String) (f : String)
    (h : RemoveFinalizerInMetadata l f = (l2, false)) : f ∉ l ∧ l2 = l := by
  rw [RemoveFinalizerInMetadata_eq] at h
  by_cases hm : f ∈ l
  · simp [hm] at h
  · simp only [hm, if_false, Prod.mk.injEq, and_true] at h
    exact ⟨hm, h.symm⟩

theorem mem_filter_ne_of_mem (l : List String) (f g : String) (hg : g ∈ l) (hne : g ≠ f) :
    g ∈ l.filter (fun x => decide (x ≠ f)) := by
  simp [List.mem_filter, hg, hne]

/-! ## The deletion branch of the ControlPlane reconciler -/

/-- C1: in a ControlPlane deletion pass, when
`ensureOwnedClusterRoleBindingsDeleted` reports deletions, or when
`ensureOwnedClusterRolesDeleted` is called and reports deletions, the pass
issues no patch and ends with the finalizers of the ControlPlane unchanged. -/
theorem C1_no_finalizer_removed_when_deletions_reported (k : Decls)
    (env : ControlPlaneDeletionEnv) (controlplane : ObjectMeta) (deletionTimestamp : Int)
    (h : env.ensureOwnedClusterRoleBindingsDeleted.1 = true ∨
      (ControlPlaneCall.ensureOwnedClusterRolesDeleted ∈
          (ControlPlaneReconciler.reconcileDeletion k env controlplane deletionTimestamp).calls ∧
        env.ensureOwnedClusterRolesDeleted.1 = true)) :
    (ControlPlaneReconciler.reconcileDeletion k env controlplane deletionTimestamp).finalizers
        = controlplane.finalizers ∧
      ∀ finalizers, ControlPlaneCall.patch finalizers ∉
        (ControlPlaneReconciler.reconcileDeletion k env controlplane deletionTimestamp).calls := by
  unfold ControlPlaneReconciler.reconcileDeletion at h ⊢
  rcases env with ⟨now, nowUntil, ⟨b1, e1⟩, ⟨b2, e2⟩, patch⟩
  simp only [RemoveFinalizerInMetadata_eq] at h ⊢
  by_cases hdt : deletionTimestamp > now
  · simp [hdt]
  · simp only [if_neg hdt] at h ⊢
    by_cases hm1 : k.ControlPlaneFinalizerCleanupClusterRoleBinding ∈ controlplane.finalizers <;>
    by_cases hm2 : k.ControlPlaneFinalizerCleanupClusterRole ∈ controlplane.finalizers <;>
    cases e1 <;> cases b1 <;> cases e2 <;> cases b2 <;> cases patch <;>
    simp_all

/-- Witness of C1: the binding helper reports deletions on the sample
ControlPlane. -/
theorem C1_no_finalizer_removed_when_deletions_reported_witness :
    ({ ControlPlaneDeletionEnv.sample with
        ensureOwnedClusterRoleBindingsDeleted := (true, none) }
      : ControlPlaneDeletionEnv).ensureOwnedClusterRoleBindingsDeleted.1 = true ∧
    ((ControlPlaneReconciler.reconcileDeletion Decls.sample
        { ControlPlaneDeletionEnv.sample with
          ensureOwnedClusterRoleBindingsDeleted := (true, none) }
        ObjectMeta.sampleControlPlane 50).finalizers
        = ObjectMeta.sampleControlPlane.finalizers ∧
      ∀ finalizers, ControlPlaneCall.patch finalizers ∉
        (ControlPlaneReconciler.reconcileDeletion Decls.sample
          { ControlPlaneDeletionEnv.sample with
            ensureOwnedClusterRoleBindingsDeleted := (true, none) }
          ObjectMeta.sampleControlPlane 50).calls) :=
  ⟨rfl, C1_no_finalizer_removed_when_deletions_reported Decls.sample
    { ControlPlaneDeletionEnv.sample with ensureOwnedClusterRoleBindingsDeleted := (true, none) }
    ObjectMeta.sampleControlPlane 50 (Or.inl rfl)⟩

/-- C2: in every ControlPlane deletion pass bindings are handled before roles
and one step at most is taken. While the binding finalizer is present at the
start of the pass, `ensureOwnedClusterRolesDeleted` is not called (no
ClusterRole is deleted), no patch drops the cluster-role finalizer and the
cluster-role finalizer is still on the stored ControlPlane at the end; and the
pass performs at most one of the four steps (delete bindings, remove binding
finalizer, delete roles, remove role finalizer). The two finalizer names are
distinct. -/
theorem C2_bindings_before_roles_single_step (k : Decls) (env : ControlPlaneDeletionEnv)
    (controlplane : ObjectMeta) (deletionTimestamp : Int)
    (hne : k.ControlPlaneFinalizerCleanupClusterRoleBinding ≠
      k.ControlPlaneFinalizerCleanupClusterRole) :
    (k.ControlPlaneFinalizerCleanupClusterRoleBinding ∈ controlplane.finalizers →
      ControlPlaneCall.ensureOwnedClusterRolesDeleted ∉
          (ControlPlaneReconciler.reconcileDeletion k env controlplane deletionTimestamp).calls ∧
        patchDrops k.ControlPlaneFinalizerCleanupClusterRole controlplane.finalizers
          (ControlPlaneReconciler.reconcileDeletion k env controlplane deletionTimestamp).calls
          = false ∧
        (k.ControlPlaneFinalizerCleanupClusterRole ∈ controlplane.finalizers →
          k.ControlPlaneFinalizerCleanupClusterRole ∈
            (ControlPlaneReconciler.reconcileDeletion k env controlplane
              deletionTimestamp).finalizers)) ∧
    ((ControlPlaneReconciler.reconcileDeletion k env controlplane deletionTimestamp).steps
        k env controlplane).length ≤ 1 := by
  have hne2 : ¬ k.ControlPlaneFinalizerCleanupClusterRole =
      k.ControlPlaneFinalizerCleanupClusterRoleBinding := fun e => hne e.symm
  unfold ControlPlanePass.steps patchDrops ControlPlaneReconciler.reconcileDeletion
  rcases env with ⟨now, nowUntil, ⟨b1, e1⟩, ⟨b2, e2⟩, patch⟩
  simp only [RemoveFinalizerInMetadata_eq]
  by_cases hdt : deletionTimestamp > now
  · simp only [if_pos hdt]
    simp
  · simp only [if_neg hdt]
    by_cases hm1 : k.ControlPlaneFinalizerCleanupClusterRoleBinding ∈ controlplane.finalizers
    · simp only [hm1, if_true]
      cases e1 <;> cases b1 <;> cases patch <;>
      simp [List.mem_filter, hm1, hne, hne2]
    · simp only [hm1, if_false]
      by_cases hm2 : k.ControlPlaneFinalizerCleanupClusterRole ∈ controlplane.finalizers
      · simp only [hm2, if_true]
        cases e1 <;> cases b1 <;> cases e2 <;> cases b2 <;> cases patch <;>
        simp [List.mem_filter, hm1, hm2, hne, hne2]
      · simp only [hm2, if_false]
        cases e1 <;> cases b1 <;> cases e2 <;> cases b2 <;>
        simp [List.mem_filter, hm1, hm2, hne, hne2]

/-- Witness of C2: the sample declarations have distinct finalizer names. -/
theorem C2_bindings_before_roles_single_step_witness :
    Decls.sample.ControlPlaneFinalizerCleanupClusterRoleBinding ≠
        Decls.sample.ControlPlaneFinalizerCleanupClusterRole ∧
    ((ControlPlaneReconciler.reconcileDeletion Decls.sample ControlPlaneDeletionEnv.sample
        ObjectMeta.sampleControlPlane 50).steps Decls.sample ControlPlaneDeletionEnv.sample
        ObjectMeta.sampleControlPlane).length ≤ 1 :=
  ⟨by decide,
    (C2_bindings_before_roles_single_step Decls.sample ControlPlaneDeletionEnv.sample
      ObjectMeta.sampleControlPlane 50 (by decide)).2⟩

/-- C4 (amended): a ControlPlane or a Gateway whose deletion timestamp is set
and strictly later than the clock: the pass issues no call at all (so it
deletes nothing), leaves the finalizers as they are, and returns without error
a requeue whose delay is `time.Until` of the deletion timestamp. That delay is
the deletion timestamp minus the clock as `time.Until` reads it whenever the
difference fits a `Duration`, the largest `Duration` when the difference is
above it, and the smallest `Duration` when it is below. -/
theorem C4_grace_period_requeue (k : Decls) (cenv : ControlPlaneDeletionEnv)
    (controlplane : ObjectMeta) (cTimestamp : Int) (genv : GatewayEnv) (gateway : Gateway)
    (gTimestamp : Int) (hc : cTimestamp > cenv.now)
    (hg : gateway.objectMeta.deletionTimestamp = some gTimestamp)
    (hgl : gTimestamp > genv.now) :
    ControlPlaneReconciler.reconcileDeletion k cenv controlplane cTimestamp =
        { calls := [],
          result := { requeue := true, requeueAfter := time.Until cTimestamp cenv.nowUntil },
          err := none, finalizers := controlplane.finalizers } ∧
    GatewayReconciler.Reconcile k genv gateway =
        { calls := [],
          result := { requeue := true, requeueAfter := time.Until gTimestamp genv.nowUntil },
          err := none, gateway := gateway } ∧
    (∀ t now : Int,
      (minDuration ≤ t - now → t - now ≤ maxDuration → time.Until t now = t - now) ∧
        (maxDuration < t - now → time.Until t now = maxDuration) ∧
        (t - now < minDuration → time.Until t now = minDuration)) := by
  refine ⟨?_, ?_, ?_⟩
  · unfold ControlPlaneReconciler.reconcileDeletion
    rw [if_pos hc]
  · unfold GatewayReconciler.Reconcile
    rw [hg]
    show GatewayReconciler.reconcileDeletion k genv gateway gTimestamp = _
    unfold GatewayReconciler.reconcileDeletion
    rw [if_pos hgl]
  · intro t now
    have hmin : minDuration < 0 := by decide
    have hmax : 0 < maxDuration := by decide
    unfold time.Until time.Sub
    refine ⟨?_, ?_, ?_⟩
    · intro h1 h2
      rw [if_pos ⟨h1, h2⟩]
    · intro h
      have h1 : ¬ (minDuration ≤ t - now ∧ t - now ≤ maxDuration) := fun hh => by omega
      have h2 : ¬ t < now := by omega
      rw [if_neg h1, if_neg h2]
    · intro h
      have h1 : ¬ (minDuration ≤ t - now ∧ t - now ≤ maxDuration) := fun hh => by omega
      have h2 : t < now := by omega
      rw [if_neg h1, if_pos h2]

/-- C4 (the claim as stated fails): the sample ControlPlane has a deletion
timestamp of `10 ^ 19` nanoseconds, later than the clock at 10; the pass
returns a requeue whose delay is the largest `Duration`, which is not the
deletion timestamp minus the clock. -/
theorem C4_counterexample :
    (10 : Int) ^ 19 > ControlPlaneDeletionEnv.sampleGracePeriod.now ∧
      (ControlPlaneReconciler.reconcileDeletion Decls.sample
        ControlPlaneDeletionEnv.sampleGracePeriod ObjectMeta.sampleControlPlane
        (10 ^ 19)).result.requeueAfter = maxDuration ∧
      (ControlPlaneReconciler.reconcileDeletion Decls.sample
        ControlPlaneDeletionEnv.sampleGracePeriod ObjectMeta.sampleControlPlane
        (10 ^ 19)).result.requeueAfter ≠
          10 ^ 19 - ControlPlaneDeletionEnv.sampleGracePeriod.nowUntil ∧
      (ControlPlaneReconciler.reconcileDeletion Decls.sample
        ControlPlaneDeletionEnv.sampleGracePeriod ObjectMeta.sampleControlPlane
        (10 ^ 19)).result.requeueAfter ≠
          10 ^ 19 - ControlPlaneDeletionEnv.sampleGracePeriod.now := by
  refine ⟨by decide, by decide, by decide, by decide⟩

/-! ## The deletion branch of the Gateway reconciler -/

theorem deleteNetworkPolicies_calls (k : Decls) (env : GatewayEnv) (calls : List GatewayCall)
    (gateway : Gateway) (c : GatewayCall)
    (hc : c ∈ (GatewayReconciler.deleteNetworkPolicies k env calls gateway).calls) :
    c ∈ calls ∨ networkPolicyBlockCall k env gateway c := by
  unfold networkPolicyBlockCall
  unfold GatewayReconciler.deleteNetworkPolicies at hc
  rw [RemoveFinalizerInMetadata_eq] at hc
  rcases h1 : env.listNetworkPolicies with e | nps
  · simp [h1] at hc
    tauto
  · rcases h2 : env.ensureOwnedNetworkPoliciesDeleted with ⟨b, e⟩
    by_cases hm : k.GatewayFinalizerCleanupNetworkpolicies ∈ gateway.objectMeta.finalizers <;>
    cases nps <;> cases e <;>
    simp [h1, h2, hm] at hc ⊢ <;> tauto

theorem deleteControlPlanes_calls (k : Decls) (env : GatewayEnv) (calls : List GatewayCall)
    (gateway : Gateway) (c : GatewayCall)
    (hc : c ∈ (GatewayReconciler.deleteControlPlanes k env calls gateway).calls) :
    c ∈ calls ∨ controlPlaneBlockCall k env gateway c ∨
      (networkPolicyBlockCall k env gateway c ∧ controlPlaneBlockPassed k env gateway) := by
  unfold GatewayReconciler.deleteControlPlanes at hc
  rw [RemoveFinalizerInMetadata_eq] at hc
  cases h1 : env.listControlPlanes with
  | error e =>
    simp [h1] at hc
    rcases hc with hc | hc
    · exact Or.inl hc
    · exact Or.inr (Or.inl (Or.inl hc))
  | ok cps =>
    rcases h2 : env.ensureOwnedControlPlanesDeleted with ⟨b, e⟩
    have hlist : c = .listControlPlanes → controlPlaneBlockCall k env gateway c :=
      fun h => Or.inl h
    cases cps with
    | nil =>
      by_cases hm : k.GatewayFinalizerCleanupControlPlanes ∈ gateway.objectMeta.finalizers
      · simp [h1, h2, hm] at hc
        rcases hc with hc | hc | hc
        · exact Or.inl hc
        · exact Or.inr (Or.inl (hlist hc))
        · refine Or.inr (Or.inl (Or.inr (Or.inr ⟨?_, hm, h1⟩)))
          simp [hc]
      · simp only [h1, h2, hm, if_false, List.length_nil, gt_iff_lt, Nat.lt_irrefl] at hc
        rcases deleteNetworkPolicies_calls k env _ gateway c hc with h3 | h3
        · simp only [List.mem_append, List.mem_singleton] at h3
          rcases h3 with h3 | h3
          · exact Or.inl h3
          · exact Or.inr (Or.inl (hlist h3))
        · exact Or.inr (Or.inr ⟨h3, [], h1, Or.inr ⟨rfl, hm⟩⟩)
    | cons a l =>
      have hens : c = .ensureOwnedControlPlanesDeleted → controlPlaneBlockCall k env gateway c :=
        fun h => Or.inr (Or.inl ⟨h, a :: l, h1, List.cons_ne_nil _ _⟩)
      cases e with
      | some err =>
        simp [h1, h2] at hc
        rcases hc with hc | hc | hc
        · exact Or.inl hc
        · exact Or.inr (Or.inl (hlist hc))
        · exact Or.inr (Or.inl (hens hc))
      | none =>
        cases b with
        | true =>
          simp [h1, h2] at hc
          rcases hc with hc | hc | hc
          · exact Or.inl hc
          · exact Or.inr (Or.inl (hlist hc))
          · exact Or.inr (Or.inl (hens hc))
        | false =>
          simp only [h1, h2, List.length_cons, gt_iff_lt, Nat.zero_lt_succ, if_true] at hc
          rcases deleteNetworkPolicies_calls k env _ gateway c hc with h3 | h3
          · simp only [List.mem_append, List.mem_cons, List.mem_singleton, List.not_mem_nil,
              or_false] at h3
            rcases h3 with h3 | h3 | h3
            · exact Or.inl h3
            · exact Or.inr (Or.inl (hlist h3))
            · exact Or.inr (Or.inl (hens h3))
          · exact Or.inr (Or.inr ⟨h3, a :: l, h1, Or.inl ⟨List.cons_ne_nil _ _, h2⟩⟩)

theorem reconcileDeletion_calls (k : Decls) (env : GatewayEnv) (gateway : Gateway)
    (deletionTimestamp : Int) (c : GatewayCall)
    (hc : c ∈ (GatewayReconciler.reconcileDeletion k env gateway deletionTimestamp).calls) :
    dataPlaneBlockCall k env gateway c ∨
      ((controlPlaneBlockCall k env gateway c ∨
          (networkPolicyBlockCall k env gateway c ∧ controlPlaneBlockPassed k env gateway)) ∧
        dataPlaneBlockPassed k env gateway) := by
  unfold GatewayReconciler.reconcileDeletion at hc
  rw [RemoveFinalizerInMetadata_eq] at hc
  by_cases hdt : deletionTimestamp > env.now
  · simp [hdt] at hc
  · simp only [if_neg hdt] at hc
    cases h1 : env.listDataPlanes with
    | error e =>
      simp [h1] at hc
      exact Or.inl (Or.inl hc)
    | ok dps =>
      rcases h2 : env.ensureOwnedDataPlanesDeleted with ⟨b, e⟩
      have hlist : c = .listDataPlanes → dataPlaneBlockCall k env gateway c :=
        fun h => Or.inl h
      cases dps with
      | nil =>
        by_cases hm : k.GatewayFinalizerCleanupDataPlanes ∈ gateway.objectMeta.finalizers
        · simp [h1, h2, hm] at hc
          rcases hc with hc | hc
          · exact Or.inl (hlist hc)
          · refine Or.inl (Or.inr (Or.inr ⟨?_, hm, h1⟩))
            simp [hc]
        · simp only [h1, h2, hm, if_false, List.length_nil, gt_iff_lt, Nat.lt_irrefl] at hc
          rcases deleteControlPlanes_calls k env _ gateway c hc with h3 | h3
          · simp only [List.mem_singleton] at h3
            exact Or.inl (hlist h3)
          · exact Or.inr ⟨h3, [], h1, Or.inr ⟨rfl, hm⟩⟩
      | cons a l =>
        have hens : c = .ensureOwnedDataPlanesDeleted → dataPlaneBlockCall k env gateway c :=
          fun h => Or.inr (Or.inl ⟨h, a :: l, h1, List.cons_ne_nil _ _⟩)
        cases e with
        | some err =>
          simp [h1, h2] at hc
          rcases hc with hc | hc
          · exact Or.inl (hlist hc)
          · exact Or.inl (hens hc)
        | none =>
          cases b with
          | true =>
            simp [h1, h2] at hc
            rcases hc with hc | hc
            · exact Or.inl (hlist hc)
            · exact Or.inl (hens hc)
          | false =>
            simp only [h1, h2, List.length_cons, gt_iff_lt, Nat.zero_lt_succ, if_true] at hc
            rcases deleteControlPlanes_calls k env _ gateway c hc with h3 | h3
            · simp only [List.mem_cons, List.mem_singleton, List.not_mem_nil, or_false] at h3
              rcases h3 with h3 | h3
              · exact Or.inl (hlist h3)
              · exact Or.inl (hens h3)
            · exact Or.inr ⟨h3, a :: l, h1, Or.inl ⟨List.cons_ne_nil _ _, h2⟩⟩

/-- The order of the blocks of the Gateway deletion branch, with three distinct
finalizer names: what a patch that drops a cleanup finalizer, and what the
cleanup of the ControlPlanes and of the NetworkPolicies, tell of the block
before. -/
theorem reconcileDeletion_order (k : Decls) (env : GatewayEnv) (gateway : Gateway)
    (deletionTimestamp : Int)
    (hdc : k.GatewayFinalizerCleanupDataPlanes ≠ k.GatewayFinalizerCleanupControlPlanes)
    (hdn : k.GatewayFinalizerCleanupDataPlanes ≠ k.GatewayFinalizerCleanupNetworkpolicies)
    (hcn : k.GatewayFinalizerCleanupControlPlanes ≠ k.GatewayFinalizerCleanupNetworkpolicies) :
    (gatewayPatchDrops k.GatewayFinalizerCleanupDataPlanes gateway.objectMeta.finalizers
        (GatewayReconciler.reconcileDeletion k env gateway deletionTimestamp).calls →
      env.listDataPlanes = .ok []) ∧
    (controlPlaneCleanup k gateway
        (GatewayReconciler.reconcileDeletion k env gateway deletionTimestamp).calls →
      ∃ dataplanes, env.listDataPlanes = .ok dataplanes ∧
        ((dataplanes ≠ [] ∧ env.ensureOwnedDataPlanesDeleted = (false, none)) ∨
         (dataplanes = [] ∧
          k.GatewayFinalizerCleanupDataPlanes ∉ gateway.objectMeta.finalizers))) ∧
    (gatewayPatchDrops k.GatewayFinalizerCleanupControlPlanes gateway.objectMeta.finalizers
        (GatewayReconciler.reconcileDeletion k env gateway deletionTimestamp).calls →
      env.listControlPlanes = .ok []) ∧
    (networkPolicyCleanup k gateway
        (GatewayReconciler.reconcileDeletion k env gateway deletionTimestamp).calls →
      ∃ controlplanes, env.listControlPlanes = .ok controlplanes ∧
        ((controlplanes ≠ [] ∧ env.ensureOwnedControlPlanesDeleted = (false, none)) ∨
         (controlplanes = [] ∧
          k.GatewayFinalizerCleanupControlPlanes ∉ gateway.objectMeta.finalizers))) := by
  have key := reconcileDeletion_calls k env gateway deletionTimestamp
  have keep : ∀ (f g : String), g ≠ f → g ∈ gateway.objectMeta.finalizers →
      g ∈ gateway.objectMeta.finalizers.filter (fun x => decide (x ≠ f)) :=
    fun f g hne hg => mem_filter_ne_of_mem _ f g hg hne
  refine ⟨?_, ?_, ?_, ?_⟩
  · rintro ⟨fs, hmem, hin, hnot⟩
    rcases key _ hmem with h | ⟨h, _⟩
    · rcases h with h | ⟨h, _⟩ | ⟨_, _, h⟩
      · cases h
      · cases h
      · exact h
    · rcases h with h | ⟨h, _⟩
      · rcases h with h | ⟨h, _⟩ | ⟨h, _, _⟩
        · cases h
        · cases h
        · cases h
          exact absurd (keep _ _ hdc hin) hnot
      · rcases h with h | ⟨h, _⟩ | ⟨h, _, _⟩
        · cases h
        · cases h
        · cases h
          exact absurd (keep _ _ hdn hin) hnot
  · rintro (hmem | ⟨fs, hmem, hin, hnot⟩)
    · rcases key _ hmem with h | ⟨_, h⟩
      · rcases h with h | ⟨h, _⟩ | ⟨h, _, _⟩ <;> cases h
      · exact h
    · rcases key _ hmem with h | ⟨_, h⟩
      · rcases h with h | ⟨h, _⟩ | ⟨h, _, _⟩
        · cases h
        · cases h
        · cases h
          exact absurd (keep _ _ (Ne.symm hdc) hin) hnot
      · exact h
  · rintro ⟨fs, hmem, hin, hnot⟩
    rcases key _ hmem with h | ⟨h, _⟩
    · rcases h with h | ⟨h, _⟩ | ⟨h, _, _⟩
      · cases h
      · cases h
      · cases h
        exact absurd (keep _ _ (Ne.symm hdc) hin) hnot
    · rcases h with h | ⟨h, _⟩
      · rcases h with h | ⟨h, _⟩ | ⟨_, _, h⟩
        · cases h
        · cases h
        · exact h
      · rcases h with h | ⟨h, _⟩ | ⟨h, _, _⟩
        · cases h
        · cases h
        · cases h
          exact absurd (keep _ _ hcn hin) hnot
  · rintro (hmem | ⟨fs, hmem, hin, hnot⟩)
    · rcases key _ hmem with h | ⟨h, _⟩
      · rcases h with h | ⟨h, _⟩ | ⟨h, _, _⟩ <;> cases h
      · rcases h with h | ⟨_, h⟩
        · rcases h with h | ⟨h, _⟩ | ⟨h, _, _⟩ <;> cases h
        · exact h
    · rcases key _ hmem with h | ⟨h, _⟩
      · rcases h with h | ⟨h, _⟩ | ⟨h, _, _⟩
        · cases h
        · cases h
        · cases h
          exact absurd (keep _ _ (Ne.symm hdn) hin) hnot
      · rcases h with h | ⟨_, h⟩
        · rcases h with h | ⟨h, _⟩ | ⟨h, _, _⟩
          · cases h
          · cases h
          · cases h
            exact absurd (keep _ _ (Ne.symm hcn) hin) hnot
        · exact h

theorem deleteNetworkPolicies_enters (k : Decls) (env : GatewayEnv) (calls : List GatewayCall)
    (gateway : Gateway) :
    GatewayCall.listNetworkPolicies ∈
        (GatewayReconciler.deleteNetworkPolicies k env calls gateway).calls ∧
      (∀ networkPolicies, env.listNetworkPolicies = .ok networkPolicies →
        networkPolicies ≠ [] →
        GatewayCall.ensureOwnedNetworkPoliciesDeleted ∈
          (GatewayReconciler.deleteNetworkPolicies k env calls gateway).calls) := by
  unfold GatewayReconciler.deleteNetworkPolicies
  rcases h1 : env.listNetworkPolicies with e | nps
  · simp
  · rcases h2 : env.ensureOwnedNetworkPoliciesDeleted with ⟨b, e⟩
    rcases h3 : RemoveFinalizerInMetadata gateway.objectMeta.finalizers
      k.GatewayFinalizerCleanupNetworkpolicies with ⟨fs, changed⟩
    cases nps <;> cases e <;> cases changed <;> simp

theorem deleteControlPlanes_enters (k : Decls) (env : GatewayEnv) (calls : List GatewayCall)
    (gateway : Gateway) :
    GatewayCall.listControlPlanes ∈
        (GatewayReconciler.deleteControlPlanes k env calls gateway).calls ∧
      (∀ controlplanes, env.listControlPlanes = .ok controlplanes → controlplanes ≠ [] →
        GatewayCall.ensureOwnedControlPlanesDeleted ∈
          (GatewayReconciler.deleteControlPlanes k env calls gateway).calls) := by
  have hsub : ∀ (prefixCalls : List GatewayCall) (c : GatewayCall), c ∈ prefixCalls →
      c ∈ (GatewayReconciler.deleteNetworkPolicies k env prefixCalls gateway).calls := by
    intro prefixCalls c hc
    unfold GatewayReconciler.deleteNetworkPolicies
    rcases h1 : env.listNetworkPolicies with e | nps
    · simp [hc]
    · rcases h2 : env.ensureOwnedNetworkPoliciesDeleted with ⟨b, e⟩
      rcases h3 : RemoveFinalizerInMetadata gateway.objectMeta.finalizers
        k.GatewayFinalizerCleanupNetworkpolicies with ⟨fs, changed⟩
      cases nps <;> cases e <;> cases changed <;> simp [hc]
  unfold GatewayReconciler.deleteControlPlanes
  rcases h1 : env.listControlPlanes with e | cps
  · simp
  · rcases h2 : env.ensureOwnedControlPlanesDeleted with ⟨b, e⟩
    rcases h3 : RemoveFinalizerInMetadata gateway.objectMeta.finalizers
      k.GatewayFinalizerCleanupControlPlanes with ⟨fs, changed⟩
    cases cps with
    | nil =>
      cases changed
      · simp only [List.length_nil, gt_iff_lt, lt_self_iff_false, if_false]
        refine ⟨hsub _ _ (by simp), ?_⟩
        intro cps heq hne
        simp only [Except.ok.injEq] at heq
        exact absurd heq.symm hne
      · simp
    | cons cp rest =>
      cases e with
      | some err => simp
      | none =>
        cases b
        · simp only [List.length_cons, gt_iff_lt, Nat.zero_lt_succ, if_true]
          exact ⟨hsub _ _ (by simp), fun _ _ _ => hsub _ _ (by simp)⟩
        · simp

theorem deleteControlPlanes_goes_on (k : Decls) (env : GatewayEnv) (calls : List GatewayCall)
    (gateway : Gateway) (controlplanes : List ControlPlane)
    (hlist : env.listControlPlanes = .ok controlplanes) (hne : controlplanes ≠ [])
    (hens : env.ensureOwnedControlPlanesDeleted = (false, none)) :
    GatewayReconciler.deleteControlPlanes k env calls gateway =
      GatewayReconciler.deleteNetworkPolicies k env
        (calls ++ [.listControlPlanes, .ensureOwnedControlPlanesDeleted]) gateway := by
  unfold GatewayReconciler.deleteControlPlanes
  cases controlplanes with
  | nil => exact absurd rfl hne
  | cons cp rest => simp [hlist, hens]

theorem reconcileDeletion_dataPlanes_go_on (k : Decls) (env : GatewayEnv) (gateway : Gateway)
    (deletionTimestamp : Int) (dataplanes : List DataPlane)
    (hgrace : ¬ deletionTimestamp > env.now)
    (hlist : env.listDataPlanes = .ok dataplanes) (hne : dataplanes ≠ [])
    (hens : env.ensureOwnedDataPlanesDeleted = (false, none)) :
    GatewayReconciler.reconcileDeletion k env gateway deletionTimestamp =
      GatewayReconciler.deleteControlPlanes k env
        [.listDataPlanes, .ensureOwnedDataPlanesDeleted] gateway := by
  unfold GatewayReconciler.reconcileDeletion
  cases dataplanes with
  | nil => exact absurd rfl hne
  | cons dp rest => simp [hgrace, hlist, hens]

theorem reconcileDeletion_reaches_controlPlanes (k : Decls) (env : GatewayEnv)
    (gateway : Gateway) (deletionTimestamp : Int)
    (hgrace : ¬ deletionTimestamp > env.now) (hpassed : dataPlaneBlockPassed k env gateway) :
    ∃ calls, GatewayReconciler.reconcileDeletion k env gateway deletionTimestamp =
      GatewayReconciler.deleteControlPlanes k env calls gateway := by
  obtain ⟨dps, hlist, h⟩ := hpassed
  rcases h with ⟨hne, hens⟩ | ⟨hnil, hfin⟩
  · exact ⟨_, reconcileDeletion_dataPlanes_go_on k env gateway deletionTimestamp dps hgrace
      hlist hne hens⟩
  · subst hnil
    refine ⟨[.listDataPlanes], ?_⟩
    unfold GatewayReconciler.reconcileDeletion
    rw [RemoveFinalizerInMetadata_eq]
    simp [hgrace, hlist, hfin]

/-- C3 (as amended): in every Gateway deletion pass, with three distinct
finalizer names: a patch drops the DataPlane-cleanup finalizer only when the
list of owned DataPlanes is empty; ControlPlane cleanup (the deletion helper of
the ControlPlanes is called, or a patch drops the ControlPlane-cleanup
finalizer) happens only in a pass in which either owned DataPlanes are listed
and `ensureOwnedDataPlanesDeleted` reports no deletion and no error, or no
owned DataPlane is listed and the DataPlane-cleanup finalizer is absent at the
start; so it never happens when the DataPlane helper reports deletions or
fails, nor when the list is empty with the finalizer still present. The same
holds for NetworkPolicy cleanup relative to the ControlPlanes. And after the
grace period, when owned DataPlanes are listed and the helper reports no
deletion and no error, the pass goes on to the ControlPlane block: it lists the
owned ControlPlanes and, when there are any, calls their deletion helper;
likewise a pass that has reached the ControlPlane block, lists owned
ControlPlanes and gets no deletion and no error from their helper goes on to
list the NetworkPolicies and, when there are any, to call their deletion
helper. -/
theorem C3_gateway_deletion_order (k : Decls) (env : GatewayEnv) (gateway : Gateway)
    (deletionTimestamp : Int)
    (hdc : k.GatewayFinalizerCleanupDataPlanes ≠ k.GatewayFinalizerCleanupControlPlanes)
    (hdn : k.GatewayFinalizerCleanupDataPlanes ≠ k.GatewayFinalizerCleanupNetworkpolicies)
    (hcn : k.GatewayFinalizerCleanupControlPlanes ≠ k.GatewayFinalizerCleanupNetworkpolicies) :
    ((gatewayPatchDrops k.GatewayFinalizerCleanupDataPlanes gateway.objectMeta.finalizers
          (GatewayReconciler.reconcileDeletion k env gateway deletionTimestamp).calls →
        env.listDataPlanes = .ok []) ∧
      (controlPlaneCleanup k gateway
          (GatewayReconciler.reconcileDeletion k env gateway deletionTimestamp).calls →
        ∃ dataplanes, env.listDataPlanes = .ok dataplanes ∧
          ((dataplanes ≠ [] ∧ env.ensureOwnedDataPlanesDeleted = (false, none)) ∨
           (dataplanes = [] ∧
            k.GatewayFinalizerCleanupDataPlanes ∉ gateway.objectMeta.finalizers))) ∧
      (gatewayPatchDrops k.GatewayFinalizerCleanupControlPlanes gateway.objectMeta.finalizers
          (GatewayReconciler.reconcileDeletion k env gateway deletionTimestamp).calls →
        env.listControlPlanes = .ok []) ∧
      (networkPolicyCleanup k gateway
          (GatewayReconciler.reconcileDeletion k env gateway deletionTimestamp).calls →
        ∃ controlplanes, env.listControlPlanes = .ok controlplanes ∧
          ((controlplanes ≠ [] ∧ env.ensureOwnedControlPlanesDeleted = (false, none)) ∨
           (controlplanes = [] ∧
            k.GatewayFinalizerCleanupControlPlanes ∉ gateway.objectMeta.finalizers)))) ∧
    (¬ deletionTimestamp > env.now →
      ∀ dataplanes, env.listDataPlanes = .ok dataplanes → dataplanes ≠ [] →
        env.ensureOwnedDataPlanesDeleted = (false, none) →
        GatewayCall.listControlPlanes ∈
            (GatewayReconciler.reconcileDeletion k env gateway deletionTimestamp).calls ∧
          (∀ controlplanes, env.listControlPlanes = .ok controlplanes → controlplanes ≠ [] →
            GatewayCall.ensureOwnedControlPlanesDeleted ∈
              (GatewayReconciler.reconcileDeletion k env gateway deletionTimestamp).calls)) ∧
    (¬ deletionTimestamp > env.now → dataPlaneBlockPassed k env gateway →
      ∀ controlplanes, env.listControlPlanes = .ok controlplanes → controlplanes ≠ [] →
        env.ensureOwnedControlPlanesDeleted = (false, none) →
        GatewayCall.listNetworkPolicies ∈
            (GatewayReconciler.reconcileDeletion k env gateway deletionTimestamp).calls ∧
          (∀ networkPolicies, env.listNetworkPolicies = .ok networkPolicies →
            networkPolicies ≠ [] →
            GatewayCall.ensureOwnedNetworkPoliciesDeleted ∈
              (GatewayReconciler.reconcileDeletion k env gateway deletionTimestamp).calls)) := by
  refine ⟨reconcileDeletion_order k env gateway deletionTimestamp hdc hdn hcn, ?_, ?_⟩
  · intro hgrace dataplanes hlist hne hens
    rw [reconcileDeletion_dataPlanes_go_on k env gateway deletionTimestamp dataplanes hgrace
      hlist hne hens]
    exact deleteControlPlanes_enters k env _ gateway
  · intro hgrace hpassed controlplanes hlist hne hens
    obtain ⟨calls, hreach⟩ :=
      reconcileDeletion_reaches_controlPlanes k env gateway deletionTimestamp hgrace hpassed
    rw [hreach, deleteControlPlanes_goes_on k env calls gateway controlplanes hlist hne hens]
    exact deleteNetworkPolicies_enters k env _ gateway

/-- Counterexample to C3 as stated. On the sample Gateway, deleted, after the
grace period, one owned DataPlane is listed and the DataPlane-cleanup finalizer
is present at the start, the DataPlane helper reports no deletion, and the pass
goes on to call the deletion helper of the ControlPlanes. Likewise, with one
owned ControlPlane listed and the ControlPlane-cleanup finalizer present, the
ControlPlane helper reports no deletion and the pass goes on to call the
deletion helper of the NetworkPolicies. -/
theorem C3_counterexample :
    (GatewayEnv.sampleLingeringDataPlane.listDataPlanes = .ok [DataPlane.sample] ∧
      Decls.sample.GatewayFinalizerCleanupDataPlanes ∈
        Gateway.sampleDeleted.objectMeta.finalizers ∧
      ¬ (50 : Int) > GatewayEnv.sampleLingeringDataPlane.now ∧
      controlPlaneCleanup Decls.sample Gateway.sampleDeleted
        (GatewayReconciler.Reconcile Decls.sample GatewayEnv.sampleLingeringDataPlane
          Gateway.sampleDeleted).calls) ∧
    (GatewayEnv.sampleLingeringControlPlane.listControlPlanes = .ok [ControlPlane.sample] ∧
      Decls.sample.GatewayFinalizerCleanupControlPlanes ∈
        Gateway.sampleDeletedWithoutDataPlanes.objectMeta.finalizers ∧
      ¬ (50 : Int) > GatewayEnv.sampleLingeringControlPlane.now ∧
      networkPolicyCleanup Decls.sample Gateway.sampleDeletedWithoutDataPlanes
        (GatewayReconciler.Reconcile Decls.sample GatewayEnv.sampleLingeringControlPlane
          Gateway.sampleDeletedWithoutDataPlanes).calls) := by
  refine ⟨⟨rfl, ?_, by decide, Or.inl ?_⟩, ⟨rfl, ?_, by decide, Or.inl ?_⟩⟩
  · simp [Gateway.sampleDeleted, Gateway.sample, Decls.sample]
  · simp [GatewayReconciler.Reconcile, GatewayReconciler.reconcileDeletion,
      GatewayReconciler.deleteControlPlanes, Gateway.sampleDeleted,
      GatewayEnv.sampleLingeringDataPlane, GatewayEnv.sample]
  · simp [Gateway.sampleDeletedWithoutDataPlanes, Decls.sample]
  · have h : (GatewayReconciler.Reconcile Decls.sample GatewayEnv.sampleLingeringControlPlane
        Gateway.sampleDeletedWithoutDataPlanes).calls =
        [.listDataPlanes, .listControlPlanes, .ensureOwnedControlPlanesDeleted,
         .listNetworkPolicies, .ensureOwnedNetworkPoliciesDeleted] := by rfl
    rw [h]
    simp

/-! ## The condition model -/

/-- C5: for every condition list (also one that holds several entries of one
type) and every condition `c`, after `SetCondition c` the entries whose type
is `c.type` are exactly `[c]` (one entry, equal to `c`), and `c` is the last
element; hence setting the same type again with another reason leaves exactly
one entry of that type, bearing the latest reason. -/
theorem C5_SetCondition_replaces (conditions : List Condition) (c : Condition)
    (reason2 : String) :
    (SetCondition c conditions).filter (fun x => decide (x.type = c.type)) = [c] ∧
    (SetCondition c conditions).getLast? = some c ∧
    (SetCondition { c with reason := reason2 } (SetCondition c conditions)).filter
        (fun x => decide (x.type = c.type)) = [{ c with reason := reason2 }] :=
  ⟨SetCondition_filter_same c conditions, SetCondition_getLast c conditions,
    SetCondition_filter_same { c with reason := reason2 } (SetCondition c conditions)⟩

/-- C6: for condition lists `current` and `desired` with at most one entry per
type (the proof uses it of `desired` only, so `current` is left free),
`NeedsUpdate current desired` is true if and only if the
lengths differ or some condition of `current` has no same-type condition in
`desired` or differs from it in reason, message or status; consequently a
`desired` list that differs from `current` only by order, observed generation
or transition time yields false. -/
theorem C6_NeedsUpdate_iff (current desired : List Condition)
    (hd : (desired.map (fun c => c.type)).Nodup) :
    (NeedsUpdate current desired = true ↔
      (current.length ≠ desired.length ∨
        ∃ c ∈ current, (∀ u ∈ desired, u.type ≠ c.type) ∨
          ∃ u ∈ desired, u.type = c.type ∧
            (u.reason ≠ c.reason ∨ u.message ≠ c.message ∨ u.status ≠ c.status))) ∧
    ((desired.map Condition.core).Perm (current.map Condition.core) →
      NeedsUpdate current desired = false) := by
  have hiff : NeedsUpdate current desired = true ↔
      (current.length ≠ desired.length ∨
        ∃ c ∈ current, (∀ u ∈ desired, u.type ≠ c.type) ∨
          ∃ u ∈ desired, u.type = c.type ∧
            (u.reason ≠ c.reason ∨ u.message ≠ c.message ∨ u.status ≠ c.status)) := by
    unfold NeedsUpdate
    by_cases hl : current.length = desired.length
    · simp only [hl, ne_eq, not_true_eq_false, if_false, false_or]
      exact needsUpdateLoop_iff_nodup desired current hd
    · simp [hl]
  refine ⟨hiff, ?_⟩
  intro hperm
  cases hn : NeedsUpdate current desired with
  | false => rfl
  | true =>
    exfalso
    rcases hiff.mp hn with hl | ⟨c, hcm, hno | ⟨u, hu, hut, hdiff⟩⟩
    · have := hperm.length_eq
      simp only [List.length_map] at this
      exact hl this.symm
    · have hmem : c.core ∈ desired.map Condition.core :=
        hperm.symm.subset (List.mem_map_of_mem _ hcm)
      obtain ⟨u, hu, hcore⟩ := List.mem_map.mp hmem
      have : u.type = c.type := congrArg Prod.fst hcore
      exact hno u hu this
    · have hmem : c.core ∈ desired.map Condition.core :=
        hperm.symm.subset (List.mem_map_of_mem _ hcm)
      obtain ⟨v, hv, hcore⟩ := List.mem_map.mp hmem
      have hvt : v.type = c.type := congrArg Prod.fst hcore
      have huv : u = v := type_unique desired hd u v hu hv (hut.trans hvt.symm)
      subst huv
      have h1 : u.status = c.status := congrArg (fun p => p.2.1) hcore
      have h2 : u.reason = c.reason := congrArg (fun p => p.2.2.1) hcore
      have h3 : u.message = c.message := congrArg (fun p => p.2.2.2) hcore
      rcases hdiff with h | h | h
      · exact h h2
      · exact h h3
      · exact h h1


/-- Witness of C6: two conditions listed in the other order, with other
generations and transition times. -/
theorem C6_NeedsUpdate_iff_witness :
    ([NewConditionWithGeneration 7 "Ready" ConditionTrue "Ready" "" 2,
      NewConditionWithGeneration 8 "Scheduled" ConditionTrue "Scheduled" "" 2].map
        (fun c => c.type)).Nodup ∧
    NeedsUpdate
      [NewConditionWithGeneration 1 "Scheduled" ConditionTrue "Scheduled" "" 1,
       NewConditionWithGeneration 2 "Ready" ConditionTrue "Ready" "" 1]
      [NewConditionWithGeneration 7 "Ready" ConditionTrue "Ready" "" 2,
       NewConditionWithGeneration 8 "Scheduled" ConditionTrue "Scheduled" "" 2] = false :=
  ⟨by decide,
    (C6_NeedsUpdate_iff
      [NewConditionWithGeneration 1 "Scheduled" ConditionTrue "Scheduled" "" 1,
       NewConditionWithGeneration 2 "Ready" ConditionTrue "Ready" "" 1]
      [NewConditionWithGeneration 7 "Ready" ConditionTrue "Ready" "" 2,
       NewConditionWithGeneration 8 "Scheduled" ConditionTrue "Scheduled" "" 2]
      (by decide)).2 (List.Perm.swap _ _ [])⟩

/-- Witness of C3: the sample declarations have three distinct finalizer names;
in the pass in which the DataPlane helper reports no deletion, ControlPlane
cleanup takes place. -/
theorem C3_gateway_deletion_order_witness :
    Decls.sample.GatewayFinalizerCleanupDataPlanes ≠
        Decls.sample.GatewayFinalizerCleanupControlPlanes ∧
    Decls.sample.GatewayFinalizerCleanupDataPlanes ≠
        Decls.sample.GatewayFinalizerCleanupNetworkpolicies ∧
    Decls.sample.GatewayFinalizerCleanupControlPlanes ≠
        Decls.sample.GatewayFinalizerCleanupNetworkpolicies ∧
    ∃ dataplanes, GatewayEnv.sampleLingeringDataPlane.listDataPlanes = .ok dataplanes ∧
      ((dataplanes ≠ [] ∧
          GatewayEnv.sampleLingeringDataPlane.ensureOwnedDataPlanesDeleted = (false, none)) ∨
       (dataplanes = [] ∧
        Decls.sample.GatewayFinalizerCleanupDataPlanes ∉
          Gateway.sampleDeleted.objectMeta.finalizers)) :=
  ⟨by decide, by decide, by decide,
    (C3_gateway_deletion_order Decls.sample GatewayEnv.sampleLingeringDataPlane
      Gateway.sampleDeleted 50 (by decide) (by decide) (by decide)).1.2.1
      (Or.inl (by
        simp [GatewayReconciler.reconcileDeletion, GatewayReconciler.deleteControlPlanes,
          GatewayEnv.sampleLingeringDataPlane, GatewayEnv.sample]))⟩

/-- Witness of C4: the sample objects, deleted at 50, with the clock at 10 and
then 11. -/
theorem C4_grace_period_requeue_witness :
    (50 : Int) > ControlPlaneDeletionEnv.sampleGracePeriod.now ∧
    Gateway.sampleDeleted.objectMeta.deletionTimestamp = some 50 ∧
    (50 : Int) > GatewayEnv.sampleGracePeriod.now ∧
    (ControlPlaneReconciler.reconcileDeletion Decls.sample
        ControlPlaneDeletionEnv.sampleGracePeriod ObjectMeta.sampleControlPlane 50 =
        { calls := [],
          result :=
            { requeue := true,
              requeueAfter :=
                time.Until 50 ControlPlaneDeletionEnv.sampleGracePeriod.nowUntil },
          err := none, finalizers := ObjectMeta.sampleControlPlane.finalizers } ∧
      GatewayReconciler.Reconcile Decls.sample GatewayEnv.sampleGracePeriod
          Gateway.sampleDeleted =
        { calls := [],
          result := { requeue := true,
                      requeueAfter := time.Until 50 GatewayEnv.sampleGracePeriod.nowUntil },
          err := none, gateway := Gateway.sampleDeleted }) ∧
    time.Until 50 GatewayEnv.sampleGracePeriod.nowUntil = 39 :=
  ⟨by decide, rfl, by decide,
    ⟨(C4_grace_period_requeue Decls.sample ControlPlaneDeletionEnv.sampleGracePeriod
      ObjectMeta.sampleControlPlane 50 GatewayEnv.sampleGracePeriod Gateway.sampleDeleted 50
      (by decide) rfl (by decide)).1,
     (C4_grace_period_requeue Decls.sample ControlPlaneDeletionEnv.sampleGracePeriod
      ObjectMeta.sampleControlPlane 50 GatewayEnv.sampleGracePeriod Gateway.sampleDeleted 50
      (by decide) rfl (by decide)).2.1⟩,
    by decide⟩

/-! ## Provisioning and the main branch of the Gateway reconciler -/

theorem finalizerExists_eq (f : String) (l : List String) :
    finalizerExists f l = decide (f ∈ l) := by
  induction l with
  | nil => simp [finalizerExists]
  | cons a rest ih =>
    unfold finalizerExists
    by_cases h : a = f
    · simp [h]
    · have h2 : ¬ f = a := fun e => h e.symm
      simp [h, h2, ih]

theorem EnsureFinalizersInMetadata_present (l : List String) (a b c : String)
    (ha : a ∈ l) (hb : b ∈ l) (hc : c ∈ l) :
    EnsureFinalizersInMetadata l [a, b, c] = (l, false) := by
  simp [EnsureFinalizersInMetadata, finalizerExists_eq, ha, hb, hc]

theorem provisionDataPlane_many (k : Decls) (env : GatewayEnv) (gateway : Gateway)
    (gatewayConfig : GatewayConfiguration) (d1 d2 : DataPlane) (rest : List DataPlane)
    (h : env.listDataPlanes = .ok (d1 :: d2 :: rest)) :
    GatewayReconciler.provisionDataPlane k env gateway gatewayConfig =
      { calls := [.listDataPlanes],
        conditions := SetCondition
          (createDataPlaneCondition k env.now ConditionFalse UnableToProvisionReason
            ("data plane deployments found: " ++ toString (d1 :: d2 :: rest).length ++
              ", expected: 1") gateway.objectMeta.generation) gateway.conditions,
        gatewayConfig := k.setDataplaneGatewayConfigDefaults gatewayConfig,
        object := none } := by
  unfold GatewayReconciler.provisionDataPlane
  simp only [h]
  rfl

theorem provisionControlPlane_many (k : Decls) (env : GatewayEnv) (gatewayClass : GatewayClass)
    (gateway : Gateway) (gatewayConfig cfg : GatewayConfiguration) (dataplane : DataPlane)
    (serviceName : String) (c1 c2 : ControlPlane) (rest : List ControlPlane)
    (hcfg : k.setControlplaneGatewayConfigDefaults gateway gatewayConfig
      dataplane.objectMeta.name serviceName = (cfg, none))
    (h : env.listControlPlanes = .ok (c1 :: c2 :: rest)) :
    GatewayReconciler.provisionControlPlane k env gatewayClass gateway gatewayConfig dataplane
        serviceName =
      { calls := [.listControlPlanes],
        conditions := SetCondition
          (createControlPlaneCondition k env.now ConditionFalse UnableToProvisionReason
            ("control plane deployments found: " ++ toString (c1 :: c2 :: rest).length ++
              ", expected: 1, requeing") gateway.objectMeta.generation) gateway.conditions,
        gatewayConfig := cfg,
        object := none } := by
  unfold GatewayReconciler.provisionControlPlane
  simp only [hcfg, h]
  rfl

theorem notReadyGate_spec (env : GatewayEnv) (cType : String) (calls : List GatewayCall)
    (gateway oldGateway : Gateway) :
    ((GatewayReconciler.notReadyGate env cType calls gateway oldGateway).err = none ∨
      (GatewayReconciler.notReadyGate env cType calls gateway oldGateway).err
        = env.patchStatus) ∧
    (GatewayReconciler.notReadyGate env cType calls gateway oldGateway).result = Result.zero ∧
    (GatewayReconciler.notReadyGate env cType calls gateway oldGateway).gateway = gateway ∧
    ∀ c ∈ (GatewayReconciler.notReadyGate env cType calls gateway oldGateway).calls,
      c ∈ calls ∨ c = .patchStatus gateway.conditions gateway.addresses := by
  unfold GatewayReconciler.notReadyGate
  rcases GetCondition cType oldGateway.conditions with ⟨condition, found⟩
  by_cases h : (!found || decide (condition.status = ConditionTrue)) = true
  · dsimp only
    rw [if_pos h]
    refine ⟨Or.inr rfl, rfl, rfl, ?_⟩
    intro c hc
    simpa using hc
  · dsimp only
    rw [if_neg h]
    refine ⟨Or.inl rfl, rfl, rfl, ?_⟩
    intro c hc
    exact Or.inl hc

theorem getGatewayConfigForGatewayClass_reads (k : Decls) (env : GatewayEnv)
    (gatewayClass : GatewayClass) :
    ∀ c ∈ (GatewayReconciler.getGatewayConfigForGatewayClass k env gatewayClass).1,
      c.isRead = true := by
  unfold GatewayReconciler.getGatewayConfigForGatewayClass
  intro c hc
  split at hc
  · simp at hc
  · split at hc
    · simp at hc
    · split at hc
      · simp at hc
      · split at hc
        · simp at hc
        · simp at hc
          subst hc
          rfl

theorem getOrCreateGatewayConfiguration_reads (k : Decls) (env : GatewayEnv)
    (gatewayClass : GatewayClass) :
    ∀ c ∈ (GatewayReconciler.getOrCreateGatewayConfiguration k env gatewayClass).1,
      c.isRead = true := by
  have h := getGatewayConfigForGatewayClass_reads k env gatewayClass
  unfold GatewayReconciler.getOrCreateGatewayConfiguration
  generalize GatewayReconciler.getGatewayConfigForGatewayClass k env gatewayClass = res at h ⊢
  rcases res with ⟨calls, r⟩
  cases r with
  | error err =>
    by_cases he : err.Is .ErrObjectMissingParametersRef = true
    · simpa [he] using h
    · simpa [he] using h
  | ok cfg => simpa using h

theorem verifyGatewayClassSupport_supported (k : Decls) (env : GatewayEnv) (gateway : Gateway)
    (gwc : GatewayClass) (hname : gateway.gatewayClassName ≠ "")
    (hclass : env.getGatewayClass = .ok gwc) (hctrl : gwc.controllerName = k.ControllerName) :
    GatewayReconciler.verifyGatewayClassSupport k env gateway =
      ([.getGatewayClass gateway.gatewayClassName], .ok gwc) := by
  unfold GatewayReconciler.verifyGatewayClassSupport
  simp [hname, hclass, hctrl]

theorem SetCondition_cons (c a : Condition) (rest : List Condition) :
    SetCondition c (a :: rest) =
      if a.type = c.type then SetCondition c rest else a :: SetCondition c rest := by
  unfold SetCondition
  by_cases h : a.type = c.type <;> simp [List.filter_cons, h]

theorem GetCondition_SetCondition (c : Condition) (conditions : List Condition) :
    GetCondition c.type (SetCondition c conditions) = (c, true) := by
  induction conditions with
  | nil => simp [SetCondition, GetCondition]
  | cons a rest ih =>
    rw [SetCondition_cons]
    by_cases h : a.type = c.type
    · simp [h, ih]
    · simp [h, GetCondition, ih]

theorem IsValidCondition_SetCondition (c : Condition) (conditions : List Condition) :
    IsValidCondition c.type (SetCondition c conditions) = decide (c.status = ConditionTrue) := by
  induction conditions with
  | nil => simp [SetCondition, IsValidCondition]
  | cons a rest ih =>
    rw [SetCondition_cons]
    by_cases h : a.type = c.type
    · simp [h, ih]
    · simp [h, IsValidCondition, ih]

theorem IsValidCondition_dataPlane_false (k : Decls) (now : Int) (reason message : String)
    (generation : Int) (conditions : List Condition) :
    IsValidCondition k.DataPlaneReadyType
      (SetCondition (createDataPlaneCondition k now ConditionFalse reason message generation)
        conditions) = false :=
  IsValidCondition_SetCondition
    (createDataPlaneCondition k now ConditionFalse reason message generation) conditions

theorem IsValidCondition_controlPlane_false (k : Decls) (now : Int) (reason message : String)
    (generation : Int) (conditions : List Condition) :
    IsValidCondition k.ControlPlaneReadyType
      (SetCondition (createControlPlaneCondition k now ConditionFalse reason message generation)
        conditions) = false :=
  IsValidCondition_SetCondition
    (createControlPlaneCondition k now ConditionFalse reason message generation) conditions

theorem Reconcile_many_dataplanes (k : Decls) (env : GatewayEnv) (gateway : Gateway)
    (gwc : GatewayClass) (cfg : GatewayConfiguration) (d1 d2 : DataPlane)
    (rest : List DataPlane)
    (hdel : gateway.objectMeta.deletionTimestamp = none)
    (hfc : k.GatewayFinalizerCleanupControlPlanes ∈ gateway.objectMeta.finalizers)
    (hfd : k.GatewayFinalizerCleanupDataPlanes ∈ gateway.objectMeta.finalizers)
    (hfn : k.GatewayFinalizerCleanupNetworkpolicies ∈ gateway.objectMeta.finalizers)
    (hname : gateway.gatewayClassName ≠ "") (hclass : env.getGatewayClass = .ok gwc)
    (hctrl : gwc.controllerName = k.ControllerName) (hacc : k.isAccepted gwc = true)
    (hcfg : (GatewayReconciler.getOrCreateGatewayConfiguration k env gwc).2 = .ok cfg)
    (hlist : env.listDataPlanes = .ok (d1 :: d2 :: rest)) :
    ∃ conditions calls,
      (∀ c ∈ calls, c.isRead = true) ∧
      GatewayReconciler.Reconcile k env gateway =
        GatewayReconciler.notReadyGate env k.DataPlaneReadyType calls
          (gateway.withConditions (SetCondition
            (createDataPlaneCondition k env.now ConditionFalse UnableToProvisionReason
              ("data plane deployments found: " ++ toString (d1 :: d2 :: rest).length ++
                ", expected: 1") gateway.objectMeta.generation) conditions))
          gateway := by
  have hreads := getOrCreateGatewayConfiguration_reads k env gwc
  unfold GatewayReconciler.Reconcile
  simp only [hdel]
  rw [EnsureFinalizersInMetadata_present _ _ _ _ hfc hfd hfn]
  simp only
  rw [verifyGatewayClassSupport_supported k env gateway gwc hname hclass hctrl]
  simp only [hacc, Bool.not_true, Bool.false_eq_true, if_false]
  generalize GatewayReconciler.getOrCreateGatewayConfiguration k env gwc = res at hcfg hreads ⊢
  rcases res with ⟨calls2, r⟩
  simp only at hcfg hreads
  subst hcfg
  simp only
  rw [provisionDataPlane_many k env _ cfg d1 d2 rest hlist]
  have hmem : ∀ c ∈ [GatewayCall.getGatewayClass gateway.gatewayClassName] ++ calls2 ++
      [GatewayCall.listDataPlanes], c.isRead = true := by
    intro c hc
    simp only [List.mem_append, List.mem_singleton] at hc
    rcases hc with (hc | hc) | hc
    · subst hc; rfl
    · exact hreads c hc
    · subst hc; rfl
  by_cases hs : IsValidCondition k.GatewayScheduledType gateway.conditions = true
  · simp only [hs, Bool.not_true, Bool.false_eq_true, if_false, Gateway.withConditions,
      IsValidCondition_dataPlane_false, Bool.not_false, if_true]
    exact ⟨_, _, hmem, rfl⟩
  · simp only [hs, Bool.not_false, Bool.not_eq_true, if_true, Gateway.withConditions,
      IsValidCondition_dataPlane_false]
    exact ⟨_, _, hmem, rfl⟩

theorem reconcileControlPlane_many (k : Decls) (env : GatewayEnv) (calls : List GatewayCall)
    (gwc : GatewayClass) (gateway oldGateway : Gateway) (gatewayConfig cfg : GatewayConfiguration)
    (dataplane : DataPlane) (service : Service) (c1 c2 : ControlPlane)
    (rest : List ControlPlane)
    (hsvc : env.listServices = .ok [service])
    (hdef : k.setControlplaneGatewayConfigDefaults gateway gatewayConfig
      dataplane.objectMeta.name service.name = (cfg, none))
    (hlist : env.listControlPlanes = .ok (c1 :: c2 :: rest)) :
    GatewayReconciler.reconcileControlPlane k env calls gwc gateway oldGateway gatewayConfig
        (some dataplane) =
      GatewayReconciler.notReadyGate env k.ControlPlaneReadyType
        (calls ++ [.listServices] ++ [.listControlPlanes])
        (gateway.withConditions (SetCondition
          (createControlPlaneCondition k env.now ConditionFalse UnableToProvisionReason
            ("control plane deployments found: " ++ toString (c1 :: c2 :: rest).length ++
              ", expected: 1, requeing") gateway.objectMeta.generation) gateway.conditions))
        oldGateway := by
  unfold GatewayReconciler.reconcileControlPlane
  simp only [hsvc]
  rw [provisionControlPlane_many k env gwc gateway gatewayConfig cfg dataplane service.name
    c1 c2 rest hdef hlist]
  simp only [Gateway.withConditions, IsValidCondition_controlPlane_false, Bool.not_false,
    if_true]

theorem isReadOrStatusPatch_of_isRead (c : GatewayCall) (h : c.isRead = true) :
    c.isReadOrStatusPatch = true := by
  cases c <;> first | rfl | exact h

/-- C8 (as amended): with zero owned DataPlanes, `provisionDataPlane` issues,
after the list, exactly one create, of a DataPlane whose options are the
DataPlane options of the GatewayConfiguration (as
`setDataplaneGatewayConfigDefaults` left it; the empty options when it has
none); it returns no DataPlane object; and it leaves the Gateway with exactly
one DataPlaneReady condition, of status `False`, whose reason is
`ResourceCreatedOrUpdated` (message "Resource has been created") when the
create succeeds and `UnableToProvision` (message of the error) when the create
fails. -/
theorem C8_provision_without_dataplane (k : Decls) (env : GatewayEnv) (gateway : Gateway)
    (gatewayConfig : GatewayConfiguration) (h : env.listDataPlanes = .ok []) :
    (GatewayReconciler.provisionDataPlane k env gateway gatewayConfig).calls =
        [.listDataPlanes,
         .createDataPlane
           (createDataPlane k gateway (k.setDataplaneGatewayConfigDefaults gatewayConfig))] ∧
    (createDataPlane k gateway (k.setDataplaneGatewayConfigDefaults gatewayConfig)).options =
        ((k.setDataplaneGatewayConfigDefaults gatewayConfig).dataPlaneOptions.getD
          DataPlaneOptions.zero) ∧
    (GatewayReconciler.provisionDataPlane k env gateway gatewayConfig).object = none ∧
    (GatewayReconciler.provisionDataPlane k env gateway gatewayConfig).conditions.filter
        (fun c => decide (c.type = k.DataPlaneReadyType)) =
      [createDataPlaneCondition k env.now ConditionFalse
        (match env.createDataPlane with
         | none => ResourceCreatedOrUpdatedReason
         | some _ => UnableToProvisionReason)
        (match env.createDataPlane with
         | none => ResourceCreatedMessage
         | some err => err.Error)
        gateway.objectMeta.generation] := by
  unfold GatewayReconciler.provisionDataPlane
  simp only [h]
  refine ⟨?_, ?_, ?_, ?_⟩
  · cases env.createDataPlane <;> rfl
  · unfold createDataPlane
    cases (k.setDataplaneGatewayConfigDefaults gatewayConfig).dataPlaneOptions <;> rfl
  · cases env.createDataPlane <;> rfl
  · cases env.createDataPlane
    · exact SetCondition_filter_same
        (createDataPlaneCondition k env.now ConditionFalse ResourceCreatedOrUpdatedReason
          ResourceCreatedMessage gateway.objectMeta.generation) gateway.conditions
    · exact SetCondition_filter_same
        (createDataPlaneCondition k env.now ConditionFalse UnableToProvisionReason _
          gateway.objectMeta.generation) gateway.conditions

/-- Counterexample to C8 as stated: on the sample Gateway without owned
DataPlane, after a create that succeeds, the DataPlaneReady condition has the
reason `ResourceCreatedOrUpdated`, not `WaitingToBecomeReady`. -/
theorem C8_counterexample :
    GatewayEnv.sample.listDataPlanes = .ok [] ∧
    (GatewayReconciler.provisionDataPlane Decls.sample GatewayEnv.sample Gateway.sample
        GatewayConfiguration.zero).conditions =
      [{ type := "DataPlaneReady", status := "False", observedGeneration := 1,
         lastTransitionTime := 100, reason := "ResourceCreatedOrUpdated",
         message := "Resource has been created" }] ∧
    "ResourceCreatedOrUpdated" ≠ WaitingToBecomeReadyReason := by
  refine ⟨rfl, ?_, by decide⟩
  rfl

/-- Witness of C8: the sample Gateway without owned DataPlane. -/
theorem C8_provision_without_dataplane_witness :
    GatewayEnv.sample.listDataPlanes = .ok [] ∧
    (GatewayReconciler.provisionDataPlane Decls.sample GatewayEnv.sample Gateway.sample
        GatewayConfiguration.zero).object = none :=
  ⟨rfl,
    (C8_provision_without_dataplane Decls.sample GatewayEnv.sample Gateway.sample
      GatewayConfiguration.zero rfl).2.2.1⟩

/-- With exactly one owned DataPlane, `provisionDataPlane` updates it exactly
when its options differ from the defaulted options of the
GatewayConfiguration. -/
theorem provisionDataPlane_written_iff (k : Decls) (env : GatewayEnv) (gateway : Gateway)
    (gatewayConfig : GatewayConfiguration) (dataplane : DataPlane)
    (hlist : env.listDataPlanes = .ok [dataplane]) :
    (dataplane.options ≠ expectedDataplaneOptions k gatewayConfig →
        (GatewayReconciler.provisionDataPlane k env gateway gatewayConfig).calls =
          [.listDataPlanes,
           .updateDataPlane
             { dataplane with options := expectedDataplaneOptions k gatewayConfig }] ∧
        (env.updateDataPlane = none →
          (GatewayReconciler.provisionDataPlane k env gateway gatewayConfig).object =
            some { dataplane with options := expectedDataplaneOptions k gatewayConfig })) ∧
      (dataplane.options = expectedDataplaneOptions k gatewayConfig →
        (GatewayReconciler.provisionDataPlane k env gateway gatewayConfig).calls =
          [.listDataPlanes]) := by
  unfold GatewayReconciler.provisionDataPlane expectedDataplaneOptions
  simp only [hlist]
  generalize k.setDataplaneGatewayConfigDefaults gatewayConfig = cfg0
  rcases cfg0 with ⟨m, dpo, cpo⟩
  cases dpo <;>
  · simp only [Option.getD_none, Option.getD_some, dataplaneSpecDeepEqual]
    constructor
    · intro hne
      simp only [hne, decide_False, Bool.not_false, if_true]
      constructor
      · cases env.updateDataPlane <;> rfl
      · intro hu
        simp only [hu]
    · intro heq
      simp only [heq, decide_True, Bool.not_true, Bool.false_eq_true, if_false]

/-- With exactly one owned ControlPlane and a defaulting helper that returned
`cfg` without error, `provisionControlPlane` patches the ControlPlane exactly
when its options differ from the defaulted options of `cfg` in the DataPlane
name or in the deployment options with `CONTROLLER_KONG_ADMIN_URL` left out. -/
theorem provisionControlPlane_written_iff (k : Decls) (env2 : GatewayEnv)
    (gatewayClass : GatewayClass) (gateway2 : Gateway) (gatewayConfig2 cfg : GatewayConfiguration)
    (dataplane2 : DataPlane) (serviceName : String) (controlplane : ControlPlane)
    (hdef : k.setControlplaneGatewayConfigDefaults gateway2 gatewayConfig2
      dataplane2.objectMeta.name serviceName = (cfg, none))
    (hclist : env2.listControlPlanes = .ok [controlplane]) :
    ((controlplane.options.deployment.withoutEnv ["CONTROLLER_KONG_ADMIN_URL"] ≠
          (expectedControlplaneOptions k cfg).deployment.withoutEnv
            ["CONTROLLER_KONG_ADMIN_URL"] ∨
        controlplane.options.dataPlane ≠ (expectedControlplaneOptions k cfg).dataPlane) →
        (GatewayReconciler.provisionControlPlane k env2 gatewayClass gateway2 gatewayConfig2
            dataplane2 serviceName).calls =
          [.listControlPlanes,
           .patchControlPlane
             { controlplane with options := expectedControlplaneOptions k cfg }] ∧
        (env2.patchControlPlane = none → IsReady controlplane.conditions = true →
          (GatewayReconciler.provisionControlPlane k env2 gatewayClass gateway2 gatewayConfig2
              dataplane2 serviceName).object =
            some { controlplane with options := expectedControlplaneOptions k cfg })) ∧
      ((controlplane.options.deployment.withoutEnv ["CONTROLLER_KONG_ADMIN_URL"] =
          (expectedControlplaneOptions k cfg).deployment.withoutEnv
            ["CONTROLLER_KONG_ADMIN_URL"] ∧
        controlplane.options.dataPlane = (expectedControlplaneOptions k cfg).dataPlane) →
        (GatewayReconciler.provisionControlPlane k env2 gatewayClass gateway2 gatewayConfig2
            dataplane2 serviceName).calls = [.listControlPlanes]) := by
  unfold GatewayReconciler.provisionControlPlane expectedControlplaneOptions
  simp only [hdef, hclist]
  rcases cfg with ⟨m, dpo, cpo⟩
  cases cpo <;>
  · simp only [Option.getD_none, Option.getD_some, controlplaneSpecDeepEqual,
      alphaDeploymentOptionsDeepEqual]
    generalize setControlPlaneOptionsDefaults k _ = expected
    constructor
    · intro hne
      have hd : (!decide (controlplane.options.deployment.withoutEnv
            ["CONTROLLER_KONG_ADMIN_URL"] =
              expected.deployment.withoutEnv ["CONTROLLER_KONG_ADMIN_URL"]) ||
          !decide (controlplane.options.dataPlane = expected.dataPlane)) = true := by
        rcases hne with h | h
        · simp [h]
        · simp [h]
      simp only [hd, if_true, Bool.not_false]
      constructor
      · cases env2.patchControlPlane
        · simp only
          split <;> rfl
        · rfl
      · intro hp hr
        simp only [hp, hr, Bool.not_true, Bool.false_eq_true, if_false]
    · rintro ⟨h1, h2⟩
      simp only [h1, h2, decide_True, Bool.not_true, Bool.or_self, Bool.false_eq_true,
        if_false]
      split <;> rfl

/-- When `setControlplaneGatewayConfigDefaults` returns an error,
`provisionControlPlane` issues no call, returns no ControlPlane and records the
error in the ControlPlaneReady condition with the reason `UnableToProvision`
(lines 444 to 453). -/
theorem provisionControlPlane_defaults_fail (k : Decls) (env : GatewayEnv)
    (gatewayClass : GatewayClass) (gateway : Gateway) (gatewayConfig cfg : GatewayConfiguration)
    (dataplane : DataPlane) (serviceName : String) (err : Err)
    (hdef : k.setControlplaneGatewayConfigDefaults gateway gatewayConfig
      dataplane.objectMeta.name serviceName = (cfg, some err)) :
    GatewayReconciler.provisionControlPlane k env gatewayClass gateway gatewayConfig dataplane
        serviceName =
      { calls := [],
        conditions := SetCondition
          (createControlPlaneCondition k env.now ConditionFalse UnableToProvisionReason err.Error
            gateway.objectMeta.generation) gateway.conditions,
        gatewayConfig := cfg, object := none } := by
  unfold GatewayReconciler.provisionControlPlane
  simp only [hdef]

/-- C9 (as amended): with exactly one owned child, the provisioning step writes
the child exactly when its options differ from the defaulted options of the
GatewayConfiguration, where for a ControlPlane the difference is looked for in
the DataPlane name and in the deployment options with the environment
variables named `CONTROLLER_KONG_ADMIN_URL` left out, and the ControlPlane is
only looked at when `setControlplaneGatewayConfigDefaults` returns no error.
The write (an update of the DataPlane, a patch of the ControlPlane) carries the
child with its options set to exactly the defaulted expected options, and when
it succeeds that child is the one the step goes on with; when there is no such
difference the only call is the list. When
`setControlplaneGatewayConfigDefaults` returns an error, the ControlPlane step
issues no call at all, whatever the options of the child, and returns no
ControlPlane. -/
theorem C9_child_written_iff_options_differ (k : Decls) (env : GatewayEnv) (gateway : Gateway)
    (gatewayConfig : GatewayConfiguration) (dataplane : DataPlane) (env2 : GatewayEnv)
    (gatewayClass : GatewayClass) (gateway2 : Gateway) (gatewayConfig2 : GatewayConfiguration)
    (dataplane2 : DataPlane) (serviceName : String) (controlplane : ControlPlane)
    (hlist : env.listDataPlanes = .ok [dataplane])
    (hclist : env2.listControlPlanes = .ok [controlplane]) :
    ((dataplane.options ≠ expectedDataplaneOptions k gatewayConfig →
        (GatewayReconciler.provisionDataPlane k env gateway gatewayConfig).calls =
          [.listDataPlanes,
           .updateDataPlane
             { dataplane with options := expectedDataplaneOptions k gatewayConfig }] ∧
        (env.updateDataPlane = none →
          (GatewayReconciler.provisionDataPlane k env gateway gatewayConfig).object =
            some { dataplane with options := expectedDataplaneOptions k gatewayConfig })) ∧
      (dataplane.options = expectedDataplaneOptions k gatewayConfig →
        (GatewayReconciler.provisionDataPlane k env gateway gatewayConfig).calls =
          [.listDataPlanes])) ∧
    (∀ cfg : GatewayConfiguration,
      k.setControlplaneGatewayConfigDefaults gateway2 gatewayConfig2
        dataplane2.objectMeta.name serviceName = (cfg, none) →
      ((controlplane.options.deployment.withoutEnv ["CONTROLLER_KONG_ADMIN_URL"] ≠
            (expectedControlplaneOptions k cfg).deployment.withoutEnv
              ["CONTROLLER_KONG_ADMIN_URL"] ∨
          controlplane.options.dataPlane ≠ (expectedControlplaneOptions k cfg).dataPlane) →
          (GatewayReconciler.provisionControlPlane k env2 gatewayClass gateway2 gatewayConfig2
              dataplane2 serviceName).calls =
            [.listControlPlanes,
             .patchControlPlane
               { controlplane with options := expectedControlplaneOptions k cfg }] ∧
          (env2.patchControlPlane = none → IsReady controlplane.conditions = true →
            (GatewayReconciler.provisionControlPlane k env2 gatewayClass gateway2 gatewayConfig2
                dataplane2 serviceName).object =
              some { controlplane with options := expectedControlplaneOptions k cfg })) ∧
        ((controlplane.options.deployment.withoutEnv ["CONTROLLER_KONG_ADMIN_URL"] =
            (expectedControlplaneOptions k cfg).deployment.withoutEnv
              ["CONTROLLER_KONG_ADMIN_URL"] ∧
          controlplane.options.dataPlane = (expectedControlplaneOptions k cfg).dataPlane) →
          (GatewayReconciler.provisionControlPlane k env2 gatewayClass gateway2 gatewayConfig2
              dataplane2 serviceName).calls = [.listControlPlanes])) ∧
    (∀ (cfg : GatewayConfiguration) (err : Err),
      k.setControlplaneGatewayConfigDefaults gateway2 gatewayConfig2
        dataplane2.objectMeta.name serviceName = (cfg, some err) →
      (GatewayReconciler.provisionControlPlane k env2 gatewayClass gateway2 gatewayConfig2
          dataplane2 serviceName).calls = [] ∧
      (GatewayReconciler.provisionControlPlane k env2 gatewayClass gateway2 gatewayConfig2
          dataplane2 serviceName).object = none) := by
  refine ⟨provisionDataPlane_written_iff k env gateway gatewayConfig dataplane hlist, ?_, ?_⟩
  · intro cfg hdef
    exact provisionControlPlane_written_iff k env2 gatewayClass gateway2 gatewayConfig2 cfg
      dataplane2 serviceName controlplane hdef hclist
  · intro cfg err hdef
    rw [provisionControlPlane_defaults_fail k env2 gatewayClass gateway2 gatewayConfig2 cfg
      dataplane2 serviceName err hdef]
    exact ⟨rfl, rfl⟩

/-- Counterexample to C9 as stated: the one owned ControlPlane carries the
variable `CONTROLLER_KONG_ADMIN_URL`, so its options are not equal to the
defaulted options of the (empty) GatewayConfiguration, yet the provisioning
step issues no write: its only call is the list. -/
theorem C9_counterexample :
    GatewayEnv.sampleAdminURL.listControlPlanes = .ok [ControlPlane.sampleWithAdminURL] ∧
    ControlPlane.sampleWithAdminURL.options ≠
      expectedControlplaneOptions Decls.sample GatewayConfiguration.zero ∧
    (GatewayReconciler.provisionControlPlane Decls.sample GatewayEnv.sampleAdminURL
        GatewayClass.sample Gateway.sample GatewayConfiguration.zero DataPlane.sample
        "dp-1-proxy").calls = [.listControlPlanes] := by
  refine ⟨rfl, by decide, rfl⟩

/-- Witness of C9: one owned DataPlane with the defaulted options, and one
owned ControlPlane that differs from them in the admin URL variable only, so
that neither child is written. -/
theorem C9_child_written_iff_options_differ_witness :
    GatewayEnv.sampleOneDataPlane.listDataPlanes = .ok [DataPlane.sample] ∧
    GatewayEnv.sampleAdminURL.listControlPlanes = .ok [ControlPlane.sampleWithAdminURL] ∧
    DataPlane.sample.options = expectedDataplaneOptions Decls.sample GatewayConfiguration.zero ∧
    (GatewayReconciler.provisionDataPlane Decls.sample GatewayEnv.sampleOneDataPlane
        Gateway.sample GatewayConfiguration.zero).calls = [.listDataPlanes] ∧
    Decls.sample.setControlplaneGatewayConfigDefaults Gateway.sample GatewayConfiguration.zero
        DataPlane.sample.objectMeta.name "dp-1-proxy" = (GatewayConfiguration.zero, none) ∧
    (GatewayReconciler.provisionControlPlane Decls.sample GatewayEnv.sampleAdminURL
        GatewayClass.sample Gateway.sample GatewayConfiguration.zero DataPlane.sample
        "dp-1-proxy").calls = [.listControlPlanes] :=
  ⟨rfl, rfl, rfl,
    (C9_child_written_iff_options_differ Decls.sample GatewayEnv.sampleOneDataPlane
      Gateway.sample GatewayConfiguration.zero DataPlane.sample GatewayEnv.sampleAdminURL
      GatewayClass.sample Gateway.sample GatewayConfiguration.zero
      DataPlane.sample "dp-1-proxy" ControlPlane.sampleWithAdminURL rfl rfl).1.2 rfl,
    rfl,
    ((C9_child_written_iff_options_differ Decls.sample GatewayEnv.sampleOneDataPlane
      Gateway.sample GatewayConfiguration.zero DataPlane.sample GatewayEnv.sampleAdminURL
      GatewayClass.sample Gateway.sample GatewayConfiguration.zero
      DataPlane.sample "dp-1-proxy" ControlPlane.sampleWithAdminURL rfl rfl).2.1
        GatewayConfiguration.zero rfl).2 ⟨by decide, by decide⟩⟩

/-- C10 (as amended): for every Gateway whose class name is empty, or whose
GatewayClass has a controller name other than the controller name of this
operator, `verifyGatewayClassSupport` returns `ErrUnsupportedGateway`; and when
such a Gateway is not being deleted and already carries the three cleanup
finalizers, the pass returns the zero result without error, leaves the Gateway
as it was (no condition, status or metadata change) and issues reads only: no
write on the Gateway and no child created. -/
theorem C10_unsupported_gateway_ignored (k : Decls) (env : GatewayEnv) (gateway : Gateway)
    (hun : gateway.gatewayClassName = "" ∨
      ∃ gwc, env.getGatewayClass = .ok gwc ∧ gwc.controllerName ≠ k.ControllerName) :
    (GatewayReconciler.verifyGatewayClassSupport k env gateway).2 =
        .error .ErrUnsupportedGateway ∧
    (gateway.objectMeta.deletionTimestamp = none →
      k.GatewayFinalizerCleanupControlPlanes ∈ gateway.objectMeta.finalizers →
      k.GatewayFinalizerCleanupDataPlanes ∈ gateway.objectMeta.finalizers →
      k.GatewayFinalizerCleanupNetworkpolicies ∈ gateway.objectMeta.finalizers →
      (GatewayReconciler.Reconcile k env gateway).err = none ∧
      (GatewayReconciler.Reconcile k env gateway).result = Result.zero ∧
      (GatewayReconciler.Reconcile k env gateway).gateway = gateway ∧
      ∀ c ∈ (GatewayReconciler.Reconcile k env gateway).calls, c.isRead = true) := by
  have hv : GatewayReconciler.verifyGatewayClassSupport k env gateway =
        ([], .error .ErrUnsupportedGateway) ∨
      GatewayReconciler.verifyGatewayClassSupport k env gateway =
        ([.getGatewayClass gateway.gatewayClassName], .error .ErrUnsupportedGateway) := by
    unfold GatewayReconciler.verifyGatewayClassSupport
    by_cases hname : gateway.gatewayClassName = ""
    · simp [hname]
    · rcases hun with h | ⟨gwc, hclass, hctrl⟩
      · exact absurd h hname
      · simp [hname, hclass, hctrl]
  constructor
  · rcases hv with h | h <;> rw [h]
  · intro hdel hfc hfd hfn
    unfold GatewayReconciler.Reconcile
    simp only [hdel]
    rw [EnsureFinalizersInMetadata_present _ _ _ _ hfc hfd hfn]
    simp only
    rcases hv with h | h <;> rw [h] <;> simp [Err.Is, GatewayCall.isRead]

/-- Counterexample to C10 as stated: the sample Gateway without class name and
without finalizers is not supported, yet the pass issues a write on it, the
update that adds the three cleanup finalizers to its metadata. -/
theorem C10_counterexample :
    Gateway.sampleNoClass.gatewayClassName = "" ∧
    (GatewayReconciler.verifyGatewayClassSupport Decls.sample GatewayEnv.sample
        Gateway.sampleNoClass).2 = .error .ErrUnsupportedGateway ∧
    (GatewayReconciler.Reconcile Decls.sample GatewayEnv.sample Gateway.sampleNoClass).calls =
      [.updateGateway
        ["gateway-operator.konghq.com/cleanup-controlplanes",
         "gateway-operator.konghq.com/cleanup-dataplanes",
         "gateway-operator.konghq.com/cleanup-network-policies"]] ∧
    (GatewayReconciler.Reconcile Decls.sample GatewayEnv.sample
        Gateway.sampleNoClass).gateway.objectMeta.finalizers ≠
      Gateway.sampleNoClass.objectMeta.finalizers := by
  refine ⟨rfl, rfl, rfl, by decide⟩

/-- Witness of C10: the sample Gateway with an empty class name. -/
theorem C10_unsupported_gateway_ignored_witness :
    (Gateway.sampleEmptyClass.gatewayClassName = "" ∨
      ∃ gwc, GatewayEnv.sample.getGatewayClass = .ok gwc ∧
        gwc.controllerName ≠ Decls.sample.ControllerName) ∧
    Gateway.sampleEmptyClass.objectMeta.deletionTimestamp = none ∧
    (GatewayReconciler.Reconcile Decls.sample GatewayEnv.sample
        Gateway.sampleEmptyClass).err = none ∧
    (GatewayReconciler.Reconcile Decls.sample GatewayEnv.sample
        Gateway.sampleEmptyClass).gateway = Gateway.sampleEmptyClass :=
  ⟨Or.inl rfl, rfl,
    ((C10_unsupported_gateway_ignored Decls.sample GatewayEnv.sample Gateway.sampleEmptyClass
      (Or.inl rfl)).2 rfl (by decide) (by decide) (by decide)).1,
    ((C10_unsupported_gateway_ignored Decls.sample GatewayEnv.sample Gateway.sampleEmptyClass
      (Or.inl rfl)).2 rfl (by decide) (by decide) (by decide)).2.2.1⟩

/-! ## The condition model: aggregation, initialisation, lookup -/

theorem areAllConditionsHaveTrueStatus_iff (conditions : List Condition) :
    areAllConditionsHaveTrueStatus conditions = true ↔
      ∀ c ∈ conditions, c.type ≠ ProgrammedType → c.type ≠ ReadyType →
        c.status = ConditionTrue := by
  induction conditions with
  | nil => simp [areAllConditionsHaveTrueStatus]
  | cons a rest ih =>
    unfold areAllConditionsHaveTrueStatus
    by_cases hp : a.type = ProgrammedType
    · simp [hp, ih]
    · by_cases hr : a.type = ReadyType
      · simp [hp, hr, ih]
      · by_cases hs : a.status = ConditionTrue
        · simp [hp, hr, hs, ih]
        · simp [hp, hr, hs]

/-- C15 (as amended): `areAllConditionsHaveTrueStatus` returns true exactly when
every condition whose type is neither `Programmed` nor `Ready` has status
`True`; so on every list on which it returns true no condition of a type other
than `Programmed` and `Ready` has status `False` or `Unknown`. -/
theorem C15_aggregate_skips_programmed_and_ready (conditions : List Condition) :
    (areAllConditionsHaveTrueStatus conditions = true ↔
      ∀ c ∈ conditions, c.type ≠ ProgrammedType → c.type ≠ ReadyType →
        c.status = ConditionTrue) ∧
    (areAllConditionsHaveTrueStatus conditions = true →
      ∀ c ∈ conditions, c.type ≠ ProgrammedType → c.type ≠ ReadyType →
        c.status ≠ ConditionFalse ∧ c.status ≠ ConditionUnknown) := by
  refine ⟨areAllConditionsHaveTrueStatus_iff conditions, ?_⟩
  intro h c hc hp hr
  have hs := (areAllConditionsHaveTrueStatus_iff conditions).mp h c hc hp hr
  rw [hs]
  exact ⟨by decide, by decide⟩

/-- Counterexample to C15 as stated: the predicate returns true on a list whose
only condition has the type `Ready`, a type other than `Programmed`, and the
status `False`. -/
theorem C15_counterexample :
    areAllConditionsHaveTrueStatus
        [NewCondition 0 ReadyType ConditionFalse DependenciesNotReadyReason ""] = true ∧
    (NewCondition 0 ReadyType ConditionFalse DependenciesNotReadyReason "").type
        ≠ ProgrammedType ∧
    (NewCondition 0 ReadyType ConditionFalse DependenciesNotReadyReason "").status
        = ConditionFalse := by
  refine ⟨by decide, by decide, rfl⟩

/-- Witness of C15: two conditions of status `True` and a `Ready` condition of
status `False`. -/
theorem C15_aggregate_skips_programmed_and_ready_witness :
    areAllConditionsHaveTrueStatus
        [NewCondition 0 "Scheduled" ConditionTrue "Scheduled" "",
         NewCondition 0 ReadyType ConditionFalse DependenciesNotReadyReason ""] = true ∧
    ∀ c ∈ [NewCondition 0 "Scheduled" ConditionTrue "Scheduled" "",
           NewCondition 0 ReadyType ConditionFalse DependenciesNotReadyReason ""],
      c.type ≠ ProgrammedType → c.type ≠ ReadyType →
        c.status ≠ ConditionFalse ∧ c.status ≠ ConditionUnknown :=
  ⟨by decide,
    (C15_aggregate_skips_programmed_and_ready
      [NewCondition 0 "Scheduled" ConditionTrue "Scheduled" "",
       NewCondition 0 ReadyType ConditionFalse DependenciesNotReadyReason ""]).2 (by decide)⟩

theorem SetCondition_filter_other (c : Condition) (conditions : List Condition) :
    (SetCondition c conditions).filter (fun x => decide (x.type ≠ c.type)) =
      conditions.filter (fun x => decide (x.type ≠ c.type)) := by
  unfold SetCondition
  rw [List.filter_append, List.filter_filter]
  simp

theorem SetCondition_idem (c : Condition) (conditions : List Condition) :
    SetCondition c (SetCondition c conditions) = SetCondition c conditions := by
  show List.filter _ (SetCondition c conditions) ++ [c] = _
  rw [SetCondition_filter_other]
  unfold SetCondition
  rfl

/-- C16 (as amended): `InitReady` sets the Ready condition to status `False`,
reason `DependenciesNotReady`, whatever the resource held. Afterwards the
conditions of type `Ready` are exactly that one condition, whether a Ready
condition was present (it is replaced, also when its status was `True`) or
absent (it is added); the conditions of the other types are kept as they were;
and a second `InitReady` at the same clock leaves the list as the first one
left it. -/
theorem C16_InitReady_resets (now : Int) (conditions : List Condition) :
    (InitReady now conditions).filter (fun x => decide (x.type = ReadyType)) =
      [NewCondition now ReadyType ConditionFalse DependenciesNotReadyReason
        DependenciesNotReadyMessage] ∧
    (InitReady now conditions).filter (fun x => decide (x.type ≠ ReadyType)) =
      conditions.filter (fun x => decide (x.type ≠ ReadyType)) ∧
    InitReady now (InitReady now conditions) = InitReady now conditions :=
  ⟨SetCondition_filter_same
      (NewCondition now ReadyType ConditionFalse DependenciesNotReadyReason
        DependenciesNotReadyMessage) conditions,
    SetCondition_filter_other
      (NewCondition now ReadyType ConditionFalse DependenciesNotReadyReason
        DependenciesNotReadyMessage) conditions,
    SetCondition_idem
      (NewCondition now ReadyType ConditionFalse DependenciesNotReadyReason
        DependenciesNotReadyMessage) conditions⟩

/-- Counterexample to C16 as stated: a resource whose Ready condition has status
`True` and reason `Ready`; after `InitReady` its Ready condition has status
`False` and reason `DependenciesNotReady`. -/
theorem C16_counterexample :
    GetCondition ReadyType [NewCondition 1 ReadyType ConditionTrue ResourceReadyReason ""] =
      (NewCondition 1 ReadyType ConditionTrue ResourceReadyReason "", true) ∧
    GetCondition ReadyType
        (InitReady 2 [NewCondition 1 ReadyType ConditionTrue ResourceReadyReason ""]) =
      (NewCondition 2 ReadyType ConditionFalse DependenciesNotReadyReason
        DependenciesNotReadyMessage, true) ∧
    ConditionFalse ≠ ConditionTrue := by
  refine ⟨by decide, by decide, by decide⟩

theorem GetCondition_eq_find (cType : String) (conditions : List Condition) :
    GetCondition cType conditions =
      match conditions.find? (fun c => decide (c.type = cType)) with
      | some c => (c, true)
      | none => (Condition.zero, false) := by
  induction conditions with
  | nil => rfl
  | cons a rest ih =>
    unfold GetCondition
    by_cases h : a.type = cType
    · simp [h]
    · simp [h, ih]

theorem IsValidCondition_eq (cType : String) (conditions : List Condition) :
    IsValidCondition cType conditions =
      ((GetCondition cType conditions).2 &&
        decide ((GetCondition cType conditions).1.status = ConditionTrue)) := by
  induction conditions with
  | nil => rfl
  | cons a rest ih =>
    unfold IsValidCondition GetCondition
    by_cases h : a.type = cType
    · simp [h]
    · simp [h, ih]

/-- C17: for every condition list and type `t`, `GetCondition t` returns
`(c, true)` with `c` the first condition of type `t` when there is one, and
the zero condition with `false` otherwise; `IsValidCondition t` is true exactly
when `GetCondition t` finds a condition and its status is `True`, so it is
false on a list without a condition of type `t`. -/
theorem C17_GetCondition_IsValidCondition (cType : String) (conditions : List Condition) :
    (GetCondition cType conditions =
      match conditions.find? (fun c => decide (c.type = cType)) with
      | some c => (c, true)
      | none => (Condition.zero, false)) ∧
    (IsValidCondition cType conditions = true ↔
      (GetCondition cType conditions).2 = true ∧
        (GetCondition cType conditions).1.status = ConditionTrue) ∧
    IsValidCondition cType (conditions.filter (fun c => decide (c.type ≠ cType))) = false := by
  refine ⟨GetCondition_eq_find cType conditions, ?_, ?_⟩
  · rw [IsValidCondition_eq]
    simp
  · rw [IsValidCondition_eq]
    have h : (GetCondition cType
        (conditions.filter (fun c => decide (c.type ≠ cType)))).2 = false := by
      cases hf : (GetCondition cType
        (conditions.filter (fun c => decide (c.type ≠ cType)))).2 with
      | false => rfl
      | true =>
        obtain ⟨u, hu, hut⟩ := (GetCondition_found_iff cType _).mp hf
        simp [List.mem_filter] at hu
        exact absurd hut hu.2
    rw [h]
    rfl

/-! ## Defaults of the ControlPlane options -/

theorem filter_updateEnv_ne (env : List EnvVar) (n v x : String) (h : n ≠ x) :
    (updateEnv env n v).filter (fun e => decide (e.name = x)) =
      env.filter (fun e => decide (e.name = x)) := by
  unfold updateEnv
  rw [List.filter_append, List.filter_filter]
  have h1 : List.filter (fun e : EnvVar => decide (e.name = x))
      [{ name := n, value := v, valueFrom := none }] = [] := by
    simp [List.filter_cons, h]
  rw [h1, List.append_nil]
  apply List.filter_congr
  intro e _
  by_cases he : e.name = x
  · have : ¬ x = n := fun hn => h hn.symm
    simp [he, this]
  · simp [he]

theorem filter_updateEnvSource_ne (env : List EnvVar) (n : String) (src : EnvVarSource)
    (x : String) (h : n ≠ x) :
    (updateEnvSource env n src).filter (fun e => decide (e.name = x)) =
      env.filter (fun e => decide (e.name = x)) := by
  unfold updateEnvSource
  rw [List.filter_append, List.filter_filter]
  have h1 : List.filter (fun e : EnvVar => decide (e.name = x))
      [{ name := n, value := "", valueFrom := some src }] = [] := by
    simp [List.filter_cons, h]
  rw [h1, List.append_nil]
  apply List.filter_congr
  intro e _
  by_cases he : e.name = x
  · have : ¬ x = n := fun hn => h hn.symm
    simp [he, this]
  · simp [he]

theorem step_free (c : Bool) (env : List EnvVar) (n v x : String) (h : n ≠ x) :
    (if c = true then updateEnv env n v else env).filter (fun e => decide (e.name = x)) =
      env.filter (fun e => decide (e.name = x)) := by
  cases c
  · rfl
  · simp only [if_true]
    exact filter_updateEnv_ne env n v x h

theorem step_free_source (c : Bool) (env : List EnvVar) (n : String) (src : EnvVarSource)
    (x : String) (h : n ≠ x) :
    (if c = true then updateEnvSource env n src else env).filter
        (fun e => decide (e.name = x)) =
      env.filter (fun e => decide (e.name = x)) := by
  cases c
  · rfl
  · simp only [if_true]
    exact filter_updateEnvSource_ne env n src x h

theorem step_gated (c : Prop) [Decidable c] (env : List EnvVar) (n v x : String)
    (dontOverride : List String) (hc : c → n ∉ dontOverride) (hx : x ∈ dontOverride) :
    (if c then updateEnv env n v else env).filter (fun e => decide (e.name = x)) =
      env.filter (fun e => decide (e.name = x)) := by
  by_cases h : c
  · rw [if_pos h]
    apply filter_updateEnv_ne
    intro hn
    exact hc h (hn ▸ hx)
  · rw [if_neg h]

theorem setControlPlaneDefaultsEnv_filter (k : Decls) (env : List EnvVar)
    (dontOverride : List String) (args : controlPlaneDefaultsArgs) (x : String)
    (h1 : x ≠ "POD_NAMESPACE") (h2 : x ≠ "POD_NAME")
    (h3 : x ≠ "CONTROLLER_GATEWAY_API_CONTROLLER_NAME") (hx : x ∈ dontOverride) :
    (setControlPlaneDefaultsEnv k env dontOverride args).1.filter
        (fun e => decide (e.name = x)) =
      env.filter (fun e => decide (e.name = x)) := by
  unfold setControlPlaneDefaultsEnv
  simp only
  rw [step_gated _ _ _ _ x dontOverride (fun hc => hc) hx,
    step_gated _ _ _ _ x dontOverride (fun hc => hc) hx,
    step_gated _ _ _ _ x dontOverride (fun hc => hc) hx,
    step_gated _ _ _ _ x dontOverride (fun hc => (of_decide_eq_true hc).2.2.1) hx,
    step_gated _ _ _ _ x dontOverride (fun hc => (of_decide_eq_true hc).2.2.1) hx,
    step_free _ _ _ _ x (Ne.symm h3), step_free_source _ _ _ _ x (Ne.symm h2),
    step_free_source _ _ _ _ x (Ne.symm h1)]

theorem findIdx?_modify_of_some {α : Type} (p : α → Bool) (f : α → α)
    (hp : ∀ c, p (f c) = p c) :
    ∀ (l : List α) (i : Nat), l.findIdx? p = some i → (l.modify f i).findIdx? p = some i := by
  intro l
  induction l with
  | nil => intro i h; simp at h
  | cons a rest ih =>
    intro i h
    rw [List.findIdx?_cons] at h
    by_cases pa : p a = true
    · simp only [pa, if_true, Option.some.injEq] at h
      subst h
      simp [hp, pa]
    · simp only [pa, if_false, Bool.false_eq_true] at h
      rw [List.findIdx?_succ] at h
      cases hr : rest.findIdx? p with
      | none => simp [hr] at h
      | some j =>
        simp only [hr, Option.map_some', Option.some.injEq] at h
        subst h
        rw [List.modify_succ_cons, List.findIdx?_cons]
        simp only [pa, if_false, Bool.false_eq_true]
        rw [List.findIdx?_succ, ih j hr]
        rfl

theorem findIdx?_append_singleton_of_none {α : Type} (p : α → Bool) (l : List α) (c : α)
    (hl : l.findIdx? p = none) (hc : p c = true) :
    (l ++ [c]).findIdx? p = some l.length := by
  induction l with
  | nil => simp [hc]
  | cons a rest ih =>
    rw [List.findIdx?_cons] at hl
    by_cases pa : p a = true
    · simp [pa] at hl
    · simp only [pa, if_false, Bool.false_eq_true] at hl
      rw [List.findIdx?_succ] at hl
      have hr : rest.findIdx? p = none := by
        cases h : rest.findIdx? p with
        | none => rfl
        | some j => simp [h] at hl
      rw [List.cons_append, List.findIdx?_cons]
      simp only [pa, if_false, Bool.false_eq_true]
      rw [List.findIdx?_succ, ih hr]
      rfl

theorem controllerEnv_of_none (k : Decls) (spec : ControlPlaneOptions)
    (h : hasControllerContainer k spec = false) : controllerEnv k spec = [] := by
  unfold controllerEnv
  unfold hasControllerContainer at h
  cases hp : spec.deployment.podTemplateSpec with
  | none => rfl
  | some p =>
    simp only [hp] at h
    cases hg : GetPodContainerByName p.containers k.ControlPlaneControllerContainerName with
    | none => simp [hg]
    | some i => simp [hg] at h

theorem controllerEnv_setControlPlaneDefaults (k : Decls) (spec : ControlPlaneOptions)
    (dontOverride : List String) (args : controlPlaneDefaultsArgs) :
    controllerEnv k (setControlPlaneDefaults k spec dontOverride args).1 =
      if hasControllerContainer k spec = true then
        (setControlPlaneDefaultsEnv k (controllerEnv k spec) dontOverride args).1
      else [] := by
  unfold setControlPlaneDefaults controllerEnv hasControllerContainer GetPodContainerByName
  cases hp : spec.deployment.podTemplateSpec with
  | none =>
    simp
  | some p =>
    simp only
    cases hg : p.containers.findIdx?
        (fun c => decide (c.name = k.ControlPlaneControllerContainerName)) with
    | none =>
      simp only [Option.isSome_none, Bool.false_eq_true, if_false]
      rw [findIdx?_append_singleton_of_none _ _ _ hg (by simp)]
      simp
    | some i =>
      simp only [Option.isSome_some, if_true]
      generalize (setControlPlaneDefaultsEnv k _ dontOverride args).1 = newEnv
      have hf := findIdx?_modify_of_some
        (fun c : Container => decide (c.name = k.ControlPlaneControllerContainerName))
        (fun container : Container => { container with env := newEnv }) (fun c => rfl) _ _ hg
      rw [hf]
      simp only [List.getElem?_modify_eq]
      have hlt : i < p.containers.length := by
        have := (List.findIdx?_eq_some_iff_getElem.mp hg)
        exact this.1
      simp [List.getElem?_eq_getElem hlt]

theorem hasControllerContainer_setControlPlaneDefaults (k : Decls) (spec : ControlPlaneOptions)
    (dontOverride : List String) (args : controlPlaneDefaultsArgs) :
    hasControllerContainer k (setControlPlaneDefaults k spec dontOverride args).1 = true := by
  unfold setControlPlaneDefaults hasControllerContainer GetPodContainerByName
  cases hp : spec.deployment.podTemplateSpec with
  | none => simp
  | some p =>
    simp only
    cases hg : p.containers.findIdx?
        (fun c => decide (c.name = k.ControlPlaneControllerContainerName)) with
    | none =>
      simp only
      rw [findIdx?_append_singleton_of_none _ _ _ hg (by simp)]
      rfl
    | some i =>
      simp only
      generalize (setControlPlaneDefaultsEnv k _ dontOverride args).1 = newEnv
      have hf := findIdx?_modify_of_some
        (fun c : Container => decide (c.name = k.ControlPlaneControllerContainerName))
        (fun container : Container => { container with env := newEnv }) (fun c => rfl) _ _ hg
      rw [hf]
      rfl

theorem step_ne (c : Prop) [Decidable c] (env : List EnvVar) (n v x : String) (h : n ≠ x) :
    (if c then updateEnv env n v else env).filter (fun e => decide (e.name = x)) =
      env.filter (fun e => decide (e.name = x)) := by
  by_cases hc : c
  · rw [if_pos hc]
    exact filter_updateEnv_ne env n v x h
  · rw [if_neg hc]

theorem envVarSourceByName_filter (env : List EnvVar) (x : String) :
    envVarSourceByName (env.filter (fun e => decide (e.name = x))) x =
      envVarSourceByName env x := by
  induction env with
  | nil => rfl
  | cons a rest ih =>
    by_cases h : a.name = x
    · simp [List.filter_cons, h, envVarSourceByName]
    · simp [List.filter_cons, h, envVarSourceByName, ih]

theorem envValueByName_filter (env : List EnvVar) (x : String) :
    envValueByName (env.filter (fun e => decide (e.name = x))) x = envValueByName env x := by
  induction env with
  | nil => rfl
  | cons a rest ih =>
    by_cases h : a.name = x
    · simp [List.filter_cons, h, envValueByName]
    · simp [List.filter_cons, h, envValueByName, ih]

theorem envVarSourceByName_updateEnvSource (env : List EnvVar) (n : String)
    (src : EnvVarSource) : envVarSourceByName (updateEnvSource env n src) n = some src := by
  unfold updateEnvSource
  induction env with
  | nil => simp [envVarSourceByName]
  | cons a rest ih =>
    by_cases h : a.name = n
    · simpa [List.filter_cons, h] using ih
    · simpa [List.filter_cons, h, envVarSourceByName] using ih

theorem envValueByName_updateEnv (env : List EnvVar) (n v : String) :
    envValueByName (updateEnv env n v) n = v := by
  unfold updateEnv
  induction env with
  | nil => simp [envValueByName]
  | cons a rest ih =>
    by_cases h : a.name = n
    · simpa [List.filter_cons, h] using ih
    · simpa [List.filter_cons, h, envValueByName] using ih

theorem envVarSourceByName_ensure (env : List EnvVar) (n : String) (src : EnvVarSource) :
    envVarSourceByName
      (if decide (envVarSourceByName env n ≠ some src) = true then updateEnvSource env n src
        else env) n = some src := by
  by_cases h : envVarSourceByName env n = some src
  · simp [h]
  · simp [h, envVarSourceByName_updateEnvSource]

theorem envValueByName_ensure (env : List EnvVar) (n v : String) :
    envValueByName
      (if decide (envValueByName env n ≠ v) = true then updateEnv env n v else env) n = v := by
  by_cases h : envValueByName env n = v
  · simp [h]
  · simp [h, envValueByName_updateEnv]

theorem setControlPlaneDefaultsEnv_computed (k : Decls) (env : List EnvVar)
    (dontOverride : List String) (args : controlPlaneDefaultsArgs) :
    envVarSourceByName (setControlPlaneDefaultsEnv k env dontOverride args).1 "POD_NAMESPACE" =
        some envSourceMetadataNamespace ∧
    envVarSourceByName (setControlPlaneDefaultsEnv k env dontOverride args).1 "POD_NAME" =
        some envSourceMetadataName ∧
    envValueByName (setControlPlaneDefaultsEnv k env dontOverride args).1
        "CONTROLLER_GATEWAY_API_CONTROLLER_NAME" = k.ControllerName := by
  unfold setControlPlaneDefaultsEnv
  simp only
  refine ⟨?_, ?_, ?_⟩
  · rw [← envVarSourceByName_filter,
      step_ne _ _ _ _ "POD_NAMESPACE" (by decide), step_ne _ _ _ _ "POD_NAMESPACE" (by decide),
      step_ne _ _ _ _ "POD_NAMESPACE" (by decide), step_ne _ _ _ _ "POD_NAMESPACE" (by decide),
      step_ne _ _ _ _ "POD_NAMESPACE" (by decide), step_ne _ _ _ _ "POD_NAMESPACE" (by decide),
      step_free_source _ _ _ _ "POD_NAMESPACE" (by decide), envVarSourceByName_filter]
    exact envVarSourceByName_ensure env "POD_NAMESPACE" envSourceMetadataNamespace
  · rw [← envVarSourceByName_filter,
      step_ne _ _ _ _ "POD_NAME" (by decide), step_ne _ _ _ _ "POD_NAME" (by decide),
      step_ne _ _ _ _ "POD_NAME" (by decide), step_ne _ _ _ _ "POD_NAME" (by decide),
      step_ne _ _ _ _ "POD_NAME" (by decide), step_ne _ _ _ _ "POD_NAME" (by decide),
      envVarSourceByName_filter]
    exact envVarSourceByName_ensure _ "POD_NAME" envSourceMetadataName
  · rw [← envValueByName_filter,
      step_ne _ _ _ _ "CONTROLLER_GATEWAY_API_CONTROLLER_NAME" (by decide),
      step_ne _ _ _ _ "CONTROLLER_GATEWAY_API_CONTROLLER_NAME" (by decide),
      step_ne _ _ _ _ "CONTROLLER_GATEWAY_API_CONTROLLER_NAME" (by decide),
      step_ne _ _ _ _ "CONTROLLER_GATEWAY_API_CONTROLLER_NAME" (by decide),
      step_ne _ _ _ _ "CONTROLLER_GATEWAY_API_CONTROLLER_NAME" (by decide),
      envValueByName_filter]
    exact envValueByName_ensure _ "CONTROLLER_GATEWAY_API_CONTROLLER_NAME" k.ControllerName

theorem setControlPlaneDefaults_filter (k : Decls) (spec : ControlPlaneOptions)
    (dontOverride : List String) (args : controlPlaneDefaultsArgs) (x : String)
    (hname : x ∈ overridableEnvNames) (hx : x ∈ dontOverride) :
    (controllerEnv k (setControlPlaneDefaults k spec dontOverride args).1).filter
        (fun e => decide (e.name = x)) =
      (controllerEnv k spec).filter (fun e => decide (e.name = x)) := by
  have h123 : x ≠ "POD_NAMESPACE" ∧ x ≠ "POD_NAME" ∧
      x ≠ "CONTROLLER_GATEWAY_API_CONTROLLER_NAME" := by
    simp only [overridableEnvNames, List.mem_cons, List.mem_singleton, List.not_mem_nil,
      or_false] at hname
    rcases hname with h | h | h | h | h <;> subst h <;> decide
  rw [controllerEnv_setControlPlaneDefaults]
  by_cases hc : hasControllerContainer k spec = true
  · rw [if_pos hc]
    exact setControlPlaneDefaultsEnv_filter k _ dontOverride args x h123.1 h123.2.1 h123.2.2 hx
  · rw [if_neg hc, controllerEnv_of_none k spec (by simpa using hc)]

theorem setControlPlaneDefaultsTimes_filter (k : Decls) (dontOverride : List String)
    (args : controlPlaneDefaultsArgs) (x : String) (hname : x ∈ overridableEnvNames)
    (hx : x ∈ dontOverride) (n : Nat) :
    ∀ spec : ControlPlaneOptions,
      (controllerEnv k (setControlPlaneDefaultsTimes k dontOverride args n spec)).filter
          (fun e => decide (e.name = x)) =
        (controllerEnv k spec).filter (fun e => decide (e.name = x)) := by
  induction n with
  | zero => intro spec; rfl
  | succ n ih =>
    intro spec
    show (controllerEnv k (setControlPlaneDefaultsTimes k dontOverride args n
      (setControlPlaneDefaults k spec dontOverride args).1)).filter _ = _
    rw [ih, setControlPlaneDefaults_filter k spec dontOverride args x hname hx]

theorem step_skip (c : Prop) [Decidable c] (env : List EnvVar) (n v : String) (hc : ¬ c) :
    (if c then updateEnv env n v else env) = env := by
  rw [if_neg hc]

theorem envValueByName_gate (c : Prop) [Decidable c] (env : List EnvVar) (n v : String)
    (h : ¬ c → envValueByName env n = v) :
    envValueByName (if c then updateEnv env n v else env) n = v := by
  by_cases hc : c
  · rw [if_pos hc]
    exact envValueByName_updateEnv env n v
  · rw [if_neg hc]
    exact h hc

theorem setControlPlaneDefaultsEnv_unprotected (k : Decls) (env : List EnvVar)
    (dontOverride : List String) (args : controlPlaneDefaultsArgs) :
    ("CONTROLLER_PUBLISH_SERVICE" ∉ dontOverride → args.nameSpace ≠ "" →
      args.dataplaneProxyServiceName ≠ "" →
      envValueByName (setControlPlaneDefaultsEnv k env dontOverride args).1
          "CONTROLLER_PUBLISH_SERVICE" =
        controllerPublishService args.dataplaneProxyServiceName args.nameSpace) ∧
    ("CONTROLLER_KONG_ADMIN_URL" ∉ dontOverride → args.dataPlanePodIP ≠ "" →
      args.dataplaneAdminServiceName ≠ "" →
      envValueByName (setControlPlaneDefaultsEnv k env dontOverride args).1
          "CONTROLLER_KONG_ADMIN_URL" =
        controllerKongAdminURL k args.dataPlanePodIP args.dataplaneAdminServiceName
          args.nameSpace) ∧
    ("CONTROLLER_KONG_ADMIN_TLS_CLIENT_CERT_FILE" ∉ dontOverride →
      envValueByName (setControlPlaneDefaultsEnv k env dontOverride args).1
          "CONTROLLER_KONG_ADMIN_TLS_CLIENT_CERT_FILE" = "/var/cluster-certificate/tls.crt") ∧
    ("CONTROLLER_KONG_ADMIN_TLS_CLIENT_KEY_FILE" ∉ dontOverride →
      envValueByName (setControlPlaneDefaultsEnv k env dontOverride args).1
          "CONTROLLER_KONG_ADMIN_TLS_CLIENT_KEY_FILE" = "/var/cluster-certificate/tls.key") ∧
    ("CONTROLLER_KONG_ADMIN_CA_CERT_FILE" ∉ dontOverride →
      envValueByName (setControlPlaneDefaultsEnv k env dontOverride args).1
          "CONTROLLER_KONG_ADMIN_CA_CERT_FILE" = "/var/cluster-certificate/ca.crt") := by
  unfold setControlPlaneDefaultsEnv
  simp only
  refine ⟨?_, ?_, ?_, ?_, ?_⟩
  · intro hd hn hp
    rw [← envValueByName_filter,
      step_ne _ _ _ _ "CONTROLLER_PUBLISH_SERVICE" (by decide),
      step_ne _ _ _ _ "CONTROLLER_PUBLISH_SERVICE" (by decide),
      step_ne _ _ _ _ "CONTROLLER_PUBLISH_SERVICE" (by decide),
      step_ne _ _ _ _ "CONTROLLER_PUBLISH_SERVICE" (by decide),
      envValueByName_filter]
    apply envValueByName_gate
    intro hc
    simpa [hd, hn, hp] using hc
  · intro hd hn hp
    rw [← envValueByName_filter,
      step_ne _ _ _ _ "CONTROLLER_KONG_ADMIN_URL" (by decide),
      step_ne _ _ _ _ "CONTROLLER_KONG_ADMIN_URL" (by decide),
      step_ne _ _ _ _ "CONTROLLER_KONG_ADMIN_URL" (by decide),
      envValueByName_filter]
    apply envValueByName_gate
    intro hc
    simpa [hd, hn, hp] using hc
  · intro hd
    rw [← envValueByName_filter,
      step_ne _ _ _ _ "CONTROLLER_KONG_ADMIN_TLS_CLIENT_CERT_FILE" (by decide),
      step_ne _ _ _ _ "CONTROLLER_KONG_ADMIN_TLS_CLIENT_CERT_FILE" (by decide),
      envValueByName_filter, if_pos hd]
    exact envValueByName_updateEnv _ _ _
  · intro hd
    rw [← envValueByName_filter,
      step_ne _ _ _ _ "CONTROLLER_KONG_ADMIN_TLS_CLIENT_KEY_FILE" (by decide),
      envValueByName_filter, if_pos hd]
    exact envValueByName_updateEnv _ _ _
  · intro hd
    rw [if_pos hd]
    exact envValueByName_updateEnv _ _ _

theorem setControlPlaneDefaultsEnv_skipped (k : Decls) (env : List EnvVar)
    (dontOverride : List String) (args : controlPlaneDefaultsArgs) :
    ((args.nameSpace = "" ∨ args.dataplaneProxyServiceName = "") →
      (setControlPlaneDefaultsEnv k env dontOverride args).1.filter
          (fun e => decide (e.name = "CONTROLLER_PUBLISH_SERVICE")) =
        env.filter (fun e => decide (e.name = "CONTROLLER_PUBLISH_SERVICE"))) ∧
    ((args.dataPlanePodIP = "" ∨ args.dataplaneAdminServiceName = "") →
      (setControlPlaneDefaultsEnv k env dontOverride args).1.filter
          (fun e => decide (e.name = "CONTROLLER_KONG_ADMIN_URL")) =
        env.filter (fun e => decide (e.name = "CONTROLLER_KONG_ADMIN_URL"))) := by
  unfold setControlPlaneDefaultsEnv
  simp only
  constructor
  · intro h
    rw [step_ne _ _ _ _ "CONTROLLER_PUBLISH_SERVICE" (by decide),
      step_ne _ _ _ _ "CONTROLLER_PUBLISH_SERVICE" (by decide),
      step_ne _ _ _ _ "CONTROLLER_PUBLISH_SERVICE" (by decide),
      step_ne _ _ _ _ "CONTROLLER_PUBLISH_SERVICE" (by decide),
      step_skip _ _ _ _ (fun hc => by
        have h4 := of_decide_eq_true hc
        rcases h with h | h
        · exact h4.1 h
        · exact h4.2.1 h),
      step_free _ _ _ _ "CONTROLLER_PUBLISH_SERVICE" (by decide),
      step_free_source _ _ _ _ "CONTROLLER_PUBLISH_SERVICE" (by decide),
      step_free_source _ _ _ _ "CONTROLLER_PUBLISH_SERVICE" (by decide)]
  · intro h
    rw [step_ne _ _ _ _ "CONTROLLER_KONG_ADMIN_URL" (by decide),
      step_ne _ _ _ _ "CONTROLLER_KONG_ADMIN_URL" (by decide),
      step_ne _ _ _ _ "CONTROLLER_KONG_ADMIN_URL" (by decide),
      step_skip _ _ _ _ (fun hc => by
        have h5 := of_decide_eq_true hc
        rcases h with h | h
        · exact h5.1 h
        · exact h5.2.1 h),
      step_ne _ _ _ _ "CONTROLLER_KONG_ADMIN_URL" (by decide),
      step_free _ _ _ _ "CONTROLLER_KONG_ADMIN_URL" (by decide),
      step_free_source _ _ _ _ "CONTROLLER_KONG_ADMIN_URL" (by decide),
      step_free_source _ _ _ _ "CONTROLLER_KONG_ADMIN_URL" (by decide)]

theorem setControlPlaneDefaultsTimes_succ (k : Decls) (dontOverride : List String)
    (args : controlPlaneDefaultsArgs) (n : Nat) :
    ∀ spec : ControlPlaneOptions,
      setControlPlaneDefaultsTimes k dontOverride args (n + 1) spec =
        (setControlPlaneDefaults k (setControlPlaneDefaultsTimes k dontOverride args n spec)
          dontOverride args).1 := by
  induction n with
  | zero => intro spec; rfl
  | succ n ih =>
    intro spec
    show setControlPlaneDefaultsTimes k dontOverride args (n + 1)
      (setControlPlaneDefaults k spec dontOverride args).1 = _
    rw [ih]
    rfl

theorem hasControllerContainer_setControlPlaneDefaultsTimes (k : Decls)
    (dontOverride : List String) (args : controlPlaneDefaultsArgs) (n : Nat)
    (spec : ControlPlaneOptions) (h : hasControllerContainer k spec = true) :
    hasControllerContainer k (setControlPlaneDefaultsTimes k dontOverride args n spec) =
      true := by
  cases n with
  | zero => exact h
  | succ n =>
    rw [setControlPlaneDefaultsTimes_succ]
    exact hasControllerContainer_setControlPlaneDefaults k _ dontOverride args

theorem controllerEnv_setControlPlaneDefaultsTimes_succ (k : Decls)
    (dontOverride : List String) (args : controlPlaneDefaultsArgs) (n : Nat)
    (spec : ControlPlaneOptions) (h : hasControllerContainer k spec = true) :
    controllerEnv k (setControlPlaneDefaultsTimes k dontOverride args (n + 1) spec) =
      (setControlPlaneDefaultsEnv k
        (controllerEnv k (setControlPlaneDefaultsTimes k dontOverride args n spec))
        dontOverride args).1 := by
  rw [setControlPlaneDefaultsTimes_succ, controllerEnv_setControlPlaneDefaults,
    if_pos (hasControllerContainer_setControlPlaneDefaultsTimes k dontOverride args n spec h)]

theorem setControlPlaneDefaultsTimes_filter_of_step (k : Decls) (dontOverride : List String)
    (args : controlPlaneDefaultsArgs) (x : String)
    (hstep : ∀ env : List EnvVar,
      (setControlPlaneDefaultsEnv k env dontOverride args).1.filter
          (fun e => decide (e.name = x)) =
        env.filter (fun e => decide (e.name = x))) (n : Nat) :
    ∀ spec : ControlPlaneOptions,
      (controllerEnv k (setControlPlaneDefaultsTimes k dontOverride args n spec)).filter
          (fun e => decide (e.name = x)) =
        (controllerEnv k spec).filter (fun e => decide (e.name = x)) := by
  induction n with
  | zero => intro spec; rfl
  | succ n ih =>
    intro spec
    show (controllerEnv k (setControlPlaneDefaultsTimes k dontOverride args n
      (setControlPlaneDefaults k spec dontOverride args).1)).filter _ = _
    rw [ih, controllerEnv_setControlPlaneDefaults]
    by_cases hc : hasControllerContainer k spec = true
    · rw [if_pos hc]
      exact hstep _
    · rw [if_neg hc]
      have hf : hasControllerContainer k spec = false := by simpa using hc
      rw [controllerEnv_of_none k spec hf]

/-- C11 (as amended): for every options value, every `dontOverride` set, every
arguments and every number `n` of successive calls of
`setControlPlaneDefaults`. A variable among `CONTROLLER_PUBLISH_SERVICE`,
`CONTROLLER_KONG_ADMIN_URL` and the three `CONTROLLER_KONG_ADMIN_*_FILE` TLS
paths whose name is a key of `dontOverride` is left alone: the entries of that
name in the environment of the controller container, hence the value and the
source found under that name, are after the `n`-th call what they were before
the first. When the options have a controller container and `n ≥ 1`, after
the `n`-th call: `POD_NAMESPACE` and `POD_NAME` carry the computed source and
`CONTROLLER_GATEWAY_API_CONTROLLER_NAME` the computed value, whatever the caller
had set and whatever `dontOverride` holds; `CONTROLLER_PUBLISH_SERVICE` not in
`dontOverride` carries the computed value when the namespace and the proxy
Service name are not empty; `CONTROLLER_KONG_ADMIN_URL` not in `dontOverride`
carries the computed value when the pod IP and the admin Service name are not
empty; and each TLS path not in `dontOverride` carries its fixed path. With an
empty namespace or proxy Service name (resp. pod IP or admin Service name) the
entries of `CONTROLLER_PUBLISH_SERVICE` (resp. `CONTROLLER_KONG_ADMIN_URL`)
are left as they were. -/
theorem C11_dontOverride_protects_value (k : Decls) (spec : ControlPlaneOptions)
    (dontOverride : List String) (args : controlPlaneDefaultsArgs) (n : Nat) :
    (∀ name : String, name ∈ overridableEnvNames → name ∈ dontOverride →
      (controllerEnv k (setControlPlaneDefaultsTimes k dontOverride args n spec)).filter
          (fun e => decide (e.name = name)) =
        (controllerEnv k spec).filter (fun e => decide (e.name = name)) ∧
      envValueByName (controllerEnv k (setControlPlaneDefaultsTimes k dontOverride args n spec))
          name = envValueByName (controllerEnv k spec) name ∧
      envVarSourceByName
          (controllerEnv k (setControlPlaneDefaultsTimes k dontOverride args n spec)) name =
        envVarSourceByName (controllerEnv k spec) name) ∧
    (hasControllerContainer k spec = true → 1 ≤ n →
      envVarSourceByName
          (controllerEnv k (setControlPlaneDefaultsTimes k dontOverride args n spec))
          "POD_NAMESPACE" = some envSourceMetadataNamespace ∧
      envVarSourceByName
          (controllerEnv k (setControlPlaneDefaultsTimes k dontOverride args n spec))
          "POD_NAME" = some envSourceMetadataName ∧
      envValueByName
          (controllerEnv k (setControlPlaneDefaultsTimes k dontOverride args n spec))
          "CONTROLLER_GATEWAY_API_CONTROLLER_NAME" = k.ControllerName ∧
      ("CONTROLLER_PUBLISH_SERVICE" ∉ dontOverride → args.nameSpace ≠ "" →
        args.dataplaneProxyServiceName ≠ "" →
        envValueByName
            (controllerEnv k (setControlPlaneDefaultsTimes k dontOverride args n spec))
            "CONTROLLER_PUBLISH_SERVICE" =
          controllerPublishService args.dataplaneProxyServiceName args.nameSpace) ∧
      ("CONTROLLER_KONG_ADMIN_URL" ∉ dontOverride → args.dataPlanePodIP ≠ "" →
        args.dataplaneAdminServiceName ≠ "" →
        envValueByName
            (controllerEnv k (setControlPlaneDefaultsTimes k dontOverride args n spec))
            "CONTROLLER_KONG_ADMIN_URL" =
          controllerKongAdminURL k args.dataPlanePodIP args.dataplaneAdminServiceName
            args.nameSpace) ∧
      ("CONTROLLER_KONG_ADMIN_TLS_CLIENT_CERT_FILE" ∉ dontOverride →
        envValueByName
            (controllerEnv k (setControlPlaneDefaultsTimes k dontOverride args n spec))
            "CONTROLLER_KONG_ADMIN_TLS_CLIENT_CERT_FILE" = "/var/cluster-certificate/tls.crt") ∧
      ("CONTROLLER_KONG_ADMIN_TLS_CLIENT_KEY_FILE" ∉ dontOverride →
        envValueByName
            (controllerEnv k (setControlPlaneDefaultsTimes k dontOverride args n spec))
            "CONTROLLER_KONG_ADMIN_TLS_CLIENT_KEY_FILE" = "/var/cluster-certificate/tls.key") ∧
      ("CONTROLLER_KONG_ADMIN_CA_CERT_FILE" ∉ dontOverride →
        envValueByName
            (controllerEnv k (setControlPlaneDefaultsTimes k dontOverride args n spec))
            "CONTROLLER_KONG_ADMIN_CA_CERT_FILE" = "/var/cluster-certificate/ca.crt")) ∧
    ((args.nameSpace = "" ∨ args.dataplaneProxyServiceName = "") →
      (controllerEnv k (setControlPlaneDefaultsTimes k dontOverride args n spec)).filter
          (fun e => decide (e.name = "CONTROLLER_PUBLISH_SERVICE")) =
        (controllerEnv k spec).filter
          (fun e => decide (e.name = "CONTROLLER_PUBLISH_SERVICE"))) ∧
    ((args.dataPlanePodIP = "" ∨ args.dataplaneAdminServiceName = "") →
      (controllerEnv k (setControlPlaneDefaultsTimes k dontOverride args n spec)).filter
          (fun e => decide (e.name = "CONTROLLER_KONG_ADMIN_URL")) =
        (controllerEnv k spec).filter
          (fun e => decide (e.name = "CONTROLLER_KONG_ADMIN_URL"))) := by
  refine ⟨?_, ?_, ?_, ?_⟩
  · intro name hname hdont
    have hf := setControlPlaneDefaultsTimes_filter k dontOverride args name hname hdont n spec
    refine ⟨hf, ?_, ?_⟩
    · rw [← envValueByName_filter, hf, envValueByName_filter]
    · rw [← envVarSourceByName_filter, hf, envVarSourceByName_filter]
  · intro hc hn
    obtain ⟨m, rfl⟩ : ∃ m, n = m + 1 := ⟨n - 1, by omega⟩
    rw [controllerEnv_setControlPlaneDefaultsTimes_succ k dontOverride args m spec hc]
    obtain ⟨h1, h2, h3⟩ := setControlPlaneDefaultsEnv_computed k
      (controllerEnv k (setControlPlaneDefaultsTimes k dontOverride args m spec))
      dontOverride args
    obtain ⟨h4, h5, h6, h7, h8⟩ := setControlPlaneDefaultsEnv_unprotected k
      (controllerEnv k (setControlPlaneDefaultsTimes k dontOverride args m spec))
      dontOverride args
    exact ⟨h1, h2, h3, h4, h5, h6, h7, h8⟩
  · intro h
    exact setControlPlaneDefaultsTimes_filter_of_step k dontOverride args
      "CONTROLLER_PUBLISH_SERVICE"
      (fun env => (setControlPlaneDefaultsEnv_skipped k env dontOverride args).1 h) n spec
  · intro h
    exact setControlPlaneDefaultsTimes_filter_of_step k dontOverride args
      "CONTROLLER_KONG_ADMIN_URL"
      (fun env => (setControlPlaneDefaultsEnv_skipped k env dontOverride args).2 h) n spec

/-- Counterexample to C11 as stated: the caller set `POD_NAMESPACE` to `custom`
and `CONTROLLER_PUBLISH_SERVICE` to `other/svc` on the controller container.
After one call the value found under `POD_NAMESPACE` is no longer `custom`
(the variable now comes from `metadata.namespace`), even with `POD_NAMESPACE`
among the keys of `dontOverride`; and with an empty `dontOverride`, as the
ControlPlane reconciler passes it, `CONTROLLER_PUBLISH_SERVICE` becomes
`default/dp-1-proxy`. -/
theorem C11_counterexample :
    envValueByName (controllerEnv Decls.sample ControlPlaneOptions.sampleCallerEnv)
        "POD_NAMESPACE" = "custom" ∧
    envValueByName (controllerEnv Decls.sample
        (setControlPlaneDefaults Decls.sample ControlPlaneOptions.sampleCallerEnv
          ["POD_NAMESPACE"] controlPlaneDefaultsArgs.sample).1) "POD_NAMESPACE" = "" ∧
    envValueByName (controllerEnv Decls.sample ControlPlaneOptions.sampleCallerEnv)
        "CONTROLLER_PUBLISH_SERVICE" = "other/svc" ∧
    envValueByName (controllerEnv Decls.sample
        (setControlPlaneDefaults Decls.sample ControlPlaneOptions.sampleCallerEnv
          [] controlPlaneDefaultsArgs.sample).1) "CONTROLLER_PUBLISH_SERVICE" =
      "default/dp-1-proxy" := by
  refine ⟨by decide, by decide, by decide, by decide⟩

/-- Witness of C11: on the sample options, three successive calls with
`CONTROLLER_PUBLISH_SERVICE` named in `dontOverride` keep the value the caller
set, and three successive calls with an empty `dontOverride` leave
`POD_NAMESPACE` with the source `metadata.namespace`. -/
theorem C11_dontOverride_protects_value_witness :
    "CONTROLLER_PUBLISH_SERVICE" ∈ overridableEnvNames ∧
    "CONTROLLER_PUBLISH_SERVICE" ∈ ["CONTROLLER_PUBLISH_SERVICE"] ∧
    envValueByName (controllerEnv Decls.sample ControlPlaneOptions.sampleCallerEnv)
        "CONTROLLER_PUBLISH_SERVICE" = "other/svc" ∧
    envValueByName (controllerEnv Decls.sample
        (setControlPlaneDefaultsTimes Decls.sample ["CONTROLLER_PUBLISH_SERVICE"]
          controlPlaneDefaultsArgs.sample 3 ControlPlaneOptions.sampleCallerEnv))
        "CONTROLLER_PUBLISH_SERVICE" =
      envValueByName (controllerEnv Decls.sample ControlPlaneOptions.sampleCallerEnv)
        "CONTROLLER_PUBLISH_SERVICE" ∧
    hasControllerContainer Decls.sample ControlPlaneOptions.sampleCallerEnv = true ∧
    envVarSourceByName (controllerEnv Decls.sample
        (setControlPlaneDefaultsTimes Decls.sample [] controlPlaneDefaultsArgs.sample 3
          ControlPlaneOptions.sampleCallerEnv)) "POD_NAMESPACE" =
      some envSourceMetadataNamespace ∧
    envValueByName (controllerEnv Decls.sample
        (setControlPlaneDefaultsTimes Decls.sample [] controlPlaneDefaultsArgs.sample 3
          ControlPlaneOptions.sampleCallerEnv)) "CONTROLLER_PUBLISH_SERVICE" =
      controllerPublishService "dp-1-proxy" "default" :=
  ⟨by decide, by decide, by decide,
    ((C11_dontOverride_protects_value Decls.sample ControlPlaneOptions.sampleCallerEnv
      ["CONTROLLER_PUBLISH_SERVICE"] controlPlaneDefaultsArgs.sample 3).1
        "CONTROLLER_PUBLISH_SERVICE" (by decide) (by decide)).2.1,
    by decide,
    ((C11_dontOverride_protects_value Decls.sample ControlPlaneOptions.sampleCallerEnv
      [] controlPlaneDefaultsArgs.sample 3).2.1 (by decide) (by decide)).1,
    ((C11_dontOverride_protects_value Decls.sample ControlPlaneOptions.sampleCallerEnv
      [] controlPlaneDefaultsArgs.sample 3).2.1 (by decide) (by decide)).2.2.2.1
        (by decide) (by decide) (by decide)⟩

/-- C12, the code at the failing input: on options whose controller container
carries `POD_NAMESPACE`, `POD_NAME` and
`CONTROLLER_GATEWAY_API_CONTROLLER_NAME` with the computed values and no TLS
path, `setControlPlaneDefaults` with empty arguments returns false, although
the environment of the controller container has grown from three to six
variables. -/
theorem C12_flag_false_although_env_changed :
    (setControlPlaneDefaults Decls.sample ControlPlaneOptions.sampleComputedEnv []
        controlPlaneDefaultsArgs.zero).2 = false ∧
    (controllerEnv Decls.sample ControlPlaneOptions.sampleComputedEnv).length = 3 ∧
    controllerEnv Decls.sample
        (setControlPlaneDefaults Decls.sample ControlPlaneOptions.sampleComputedEnv []
          controlPlaneDefaultsArgs.zero).1 =
      controllerEnv Decls.sample ControlPlaneOptions.sampleComputedEnv ++
        [{ name := "CONTROLLER_KONG_ADMIN_TLS_CLIENT_CERT_FILE",
           value := "/var/cluster-certificate/tls.crt", valueFrom := none },
         { name := "CONTROLLER_KONG_ADMIN_TLS_CLIENT_KEY_FILE",
           value := "/var/cluster-certificate/tls.key", valueFrom := none },
         { name := "CONTROLLER_KONG_ADMIN_CA_CERT_FILE",
           value := "/var/cluster-certificate/ca.crt", valueFrom := none }] := by
  refine ⟨by decide, by decide, by decide⟩

/-! ## The NetworkPolicy of the DataPlane -/

theorem sameOptionalBool_eq (a b : Option Bool) : sameOptionalBool a b = decide (a = b) := by
  cases a <;> cases b <;> simp [sameOptionalBool]

theorem ownerReferenceEqual_eq (a b : OwnerReference) :
    ownerReferenceEqual a b = decide (a = b) := by
  cases a; cases b
  simp only [ownerReferenceEqual, sameOptionalBool_eq, OwnerReference.mk.injEq]
  simp only [Bool.decide_and, Bool.and_assoc]

theorem slicesEqualFunc_ownerReferenceEqual (s1 s2 : List OwnerReference) :
    slicesEqualFunc ownerReferenceEqual s1 s2 = decide (s1 = s2) := by
  induction s1 generalizing s2 with
  | nil => cases s2 <;> simp [slicesEqualFunc]
  | cons a s1 ih =>
    cases s2 with
    | nil => simp [slicesEqualFunc]
    | cons b s2 => simp [slicesEqualFunc, ih, ownerReferenceEqual_eq]

/-- C19: for every DataPlane and ControlPlane, when the admin API port differs
from the proxy, proxy-SSL and metrics ports, the generated policy is
ingress-only, selects the pods labelled with the name of the DataPlane as app,
and has exactly three rules: the admin API rule, restricted to the pods
labelled with the name of the ControlPlane as app in the namespace named as the
namespace of the DataPlane; the proxy rule and the metrics rule, both without a
source restriction; the admin API port is in no unrestricted rule and every
restricted rule is the admin API rule. -/
theorem C19_generated_policy_restricts_admin_api (k : Decls) (nameSpace : String)
    (dataplane : DataPlane) (controlplane : ControlPlane)
    (hproxy : k.DataPlaneAdminAPIPort ≠ k.DataPlaneProxyPort)
    (hssl : k.DataPlaneAdminAPIPort ≠ k.DataPlaneProxySSLPort)
    (hmetrics : k.DataPlaneAdminAPIPort ≠ k.DataPlaneMetricsPort) :
    (generateDataPlaneNetworkPolicy k nameSpace dataplane controlplane).spec.policyTypes =
        [PolicyTypeIngress] ∧
      (generateDataPlaneNetworkPolicy k nameSpace dataplane
          controlplane).spec.podSelector.matchLabels = [("app", dataplane.objectMeta.name)] ∧
      (∃ admin proxy metrics : NetworkPolicyIngressRule,
        (generateDataPlaneNetworkPolicy k nameSpace dataplane controlplane).spec.ingress =
            [admin, proxy, metrics] ∧
          admin.ports = [{ protocol := some ProtocolTCP, port := some k.DataPlaneAdminAPIPort }] ∧
          admin.fromPeers =
            [{ podSelector := some { matchLabels := [("app", controlplane.objectMeta.name)] },
               namespaceSelector := some
                 { matchLabels :=
                     [("kubernetes.io/metadata.name", dataplane.objectMeta.nameSpace)] } }] ∧
          proxy.ports = [{ protocol := some ProtocolTCP, port := some k.DataPlaneProxyPort },
                         { protocol := some ProtocolTCP, port := some k.DataPlaneProxySSLPort }] ∧
          proxy.fromPeers = [] ∧
          metrics.ports = [{ protocol := some ProtocolTCP, port := some k.DataPlaneMetricsPort }] ∧
          metrics.fromPeers = []) ∧
      (∀ rule ∈ (generateDataPlaneNetworkPolicy k nameSpace dataplane controlplane).spec.ingress,
        rule.fromPeers = [] → ∀ port ∈ rule.ports, port.port ≠ some k.DataPlaneAdminAPIPort) ∧
      (∀ rule ∈ (generateDataPlaneNetworkPolicy k nameSpace dataplane controlplane).spec.ingress,
        rule.fromPeers ≠ [] →
          rule.ports = [{ protocol := some ProtocolTCP, port := some k.DataPlaneAdminAPIPort }]) := by
  refine ⟨rfl, rfl, ⟨_, _, _, rfl, rfl, rfl, rfl, rfl, rfl, rfl⟩, ?_, ?_⟩
  · intro rule hrule hfrom port hport
    simp only [generateDataPlaneNetworkPolicy, List.mem_cons, List.mem_singleton,
      List.not_mem_nil, or_false] at hrule
    rcases hrule with rfl | rfl | rfl
    · simp at hfrom
    · simp only [List.mem_cons, List.mem_singleton, List.not_mem_nil, or_false] at hport
      rcases hport with rfl | rfl
      · simpa using fun h => hproxy h.symm
      · simpa using fun h => hssl h.symm
    · simp only [List.mem_singleton] at hport
      subst hport
      simpa using fun h => hmetrics h.symm
  · intro rule hrule hfrom
    simp only [generateDataPlaneNetworkPolicy, List.mem_cons, List.mem_singleton,
      List.not_mem_nil, or_false] at hrule
    rcases hrule with rfl | rfl | rfl
    · rfl
    · simp at hfrom
    · simp at hfrom

theorem C19_generated_policy_restricts_admin_api_witness :
    (∀ rule ∈ (generateDataPlaneNetworkPolicy Decls.sample "default" DataPlane.sample
        ControlPlane.sample).spec.ingress,
      rule.fromPeers = [] → ∀ port ∈ rule.ports, port.port ≠ some 8444) ∧
    (generateDataPlaneNetworkPolicy Decls.sample "default" DataPlane.sample
        ControlPlane.sample).spec.ingress.length = 3 :=
  ⟨(C19_generated_policy_restricts_admin_api Decls.sample "default" DataPlane.sample
      ControlPlane.sample (by decide) (by decide) (by decide)).2.2.2.1, rfl⟩

/-- C18 (the claim as stated fails): the Gateway owns one policy whose labels
and owner references are those of the generated policy and whose spec is empty,
so the policy differs from the generated one in its spec; the function reports
unchanged and writes nothing. -/
theorem C18_counterexample :
    NetworkPolicy.sampleStale.spec ≠
        (generatedPolicyForGateway Decls.sample Gateway.sample DataPlane.sample
          ControlPlane.sample).spec ∧
      GatewayReconciler.ensureDataPlaneHasNetworkPolicy Decls.sample
          GatewayEnv.sampleStalePolicy Gateway.sample DataPlane.sample ControlPlane.sample =
        ([.listNetworkPolicies], false, none) := by
  constructor
  · decide
  · rfl

/-- C18 (amended): `ensureDataPlaneHasNetworkPolicy` decides by the number of
policies listed for the Gateway. With none it creates the generated policy,
owned by the Gateway and labelled as managed, and reports changed with the
error of the create. With exactly one it compares only the labels and the owner
references with the generated policy, never the spec: when both agree it reports
unchanged with no write; otherwise it updates the listed policy with the
generated value in each of the two fields that differs, the spec and the rest
as listed, and reports changed with the error of the update. With more than one
it writes nothing, reports unchanged and returns an error that wraps
`ErrTooManyDataPlaneNetworkPolicies`. -/
theorem C18_network_policy_by_count (k : Decls) (env : GatewayEnv) (gateway : Gateway)
    (dataplane : DataPlane) (controlplane : ControlPlane)
    (networkPolicies : List NetworkPolicy)
    (hlist : env.listNetworkPolicies = .ok networkPolicies) :
    (networkPolicies = [] →
        GatewayReconciler.ensureDataPlaneHasNetworkPolicy k env gateway dataplane controlplane =
          ([.listNetworkPolicies,
            .createNetworkPolicy
              { objectMeta :=
                  k.LabelObjectAsGatewayManaged
                    (k.SetOwnerForObject
                      (generateDataPlaneNetworkPolicy k gateway.objectMeta.nameSpace dataplane
                        controlplane).objectMeta gateway.objectMeta),
                spec :=
                  (generateDataPlaneNetworkPolicy k gateway.objectMeta.nameSpace dataplane
                    controlplane).spec }],
            true, env.createNetworkPolicy)) ∧
      (∀ existingPolicy : NetworkPolicy, networkPolicies = [existingPolicy] →
        ((mapsEqual existingPolicy.objectMeta.labels
              (generatedPolicyForGateway k gateway dataplane controlplane).objectMeta.labels =
                true ∧
            existingPolicy.objectMeta.ownerReferences =
              (generatedPolicyForGateway k gateway dataplane
                controlplane).objectMeta.ownerReferences) →
          GatewayReconciler.ensureDataPlaneHasNetworkPolicy k env gateway dataplane
              controlplane = ([.listNetworkPolicies], false, none)) ∧
        (¬ (mapsEqual existingPolicy.objectMeta.labels
              (generatedPolicyForGateway k gateway dataplane controlplane).objectMeta.labels =
                true ∧
            existingPolicy.objectMeta.ownerReferences =
              (generatedPolicyForGateway k gateway dataplane
                controlplane).objectMeta.ownerReferences) →
          GatewayReconciler.ensureDataPlaneHasNetworkPolicy k env gateway dataplane
              controlplane =
            ([.listNetworkPolicies,
              .updateNetworkPolicy
                { objectMeta :=
                    { existingPolicy.objectMeta with
                      labels :=
                        if mapsEqual existingPolicy.objectMeta.labels
                            (generatedPolicyForGateway k gateway dataplane
                              controlplane).objectMeta.labels = true
                        then existingPolicy.objectMeta.labels
                        else (generatedPolicyForGateway k gateway dataplane
                          controlplane).objectMeta.labels,
                      ownerReferences :=
                        (generatedPolicyForGateway k gateway dataplane
                          controlplane).objectMeta.ownerReferences },
                  spec := existingPolicy.spec }],
              true, env.updateNetworkPolicy))) ∧
      (1 < networkPolicies.length →
        ∃ err : Err,
          GatewayReconciler.ensureDataPlaneHasNetworkPolicy k env gateway dataplane
              controlplane = ([.listNetworkPolicies], false, some err) ∧
            err.Is .ErrTooManyDataPlaneNetworkPolicies = true) := by
  refine ⟨?_, ?_, ?_⟩
  · intro hnil
    subst hnil
    simp [GatewayReconciler.ensureDataPlaneHasNetworkPolicy, hlist, generatedPolicyForGateway]
  · intro existingPolicy hone
    subst hone
    generalize hgen : generatedPolicyForGateway k gateway dataplane controlplane = generated
    constructor
    · rintro ⟨hlabels, howners⟩
      simp [GatewayReconciler.ensureDataPlaneHasNetworkPolicy, hlist, hgen,
        EnsureObjectMetaIsUpdated, applyObjectMetaOptions, hlabels,
        slicesEqualFunc_ownerReferenceEqual, howners]
    · intro hdiff
      by_cases hlabels :
          mapsEqual existingPolicy.objectMeta.labels generated.objectMeta.labels = true
      · have howners :
            ¬ existingPolicy.objectMeta.ownerReferences = generated.objectMeta.ownerReferences :=
          fun h => hdiff ⟨hlabels, h⟩
        simp [GatewayReconciler.ensureDataPlaneHasNetworkPolicy, hlist, hgen,
          EnsureObjectMetaIsUpdated, applyObjectMetaOptions, hlabels,
          slicesEqualFunc_ownerReferenceEqual, howners]
      · by_cases howners :
            existingPolicy.objectMeta.ownerReferences = generated.objectMeta.ownerReferences
        · simp [GatewayReconciler.ensureDataPlaneHasNetworkPolicy, hlist, hgen,
            EnsureObjectMetaIsUpdated, applyObjectMetaOptions, hlabels,
            slicesEqualFunc_ownerReferenceEqual, howners]
        · simp [GatewayReconciler.ensureDataPlaneHasNetworkPolicy, hlist, hgen,
            EnsureObjectMetaIsUpdated, applyObjectMetaOptions, hlabels,
            slicesEqualFunc_ownerReferenceEqual, howners]
  · intro hmany
    simp only [GatewayReconciler.ensureDataPlaneHasNetworkPolicy, hlist]
    rw [if_pos hmany]
    exact ⟨_, rfl, by simp [Err.Is]⟩

theorem C18_network_policy_by_count_witness :
    GatewayReconciler.ensureDataPlaneHasNetworkPolicy Decls.sample GatewayEnv.sampleStalePolicy
        Gateway.sample DataPlane.sample ControlPlane.sample =
      ([.listNetworkPolicies], false, none) :=
  ((C18_network_policy_by_count Decls.sample GatewayEnv.sampleStalePolicy Gateway.sample
      DataPlane.sample ControlPlane.sample [NetworkPolicy.sampleStale] rfl).2.1
    NetworkPolicy.sampleStale rfl).1 ⟨by decide, by decide⟩

/-! ## The addresses of the Gateway -/

/-- C20: when the DataPlane has exactly one Service and its cluster IP is not
empty, `ensureGatewayConnectivityStatus` returns no error and sets the
addresses of the Gateway to the cluster IP alone when the Service has no
load-balancer ingress entry, and to the IP of the first ingress entry followed
by the cluster IP when that IP is not empty, each of type `IPAddress`. It
returns an error and the Gateway as it was when the number of Services is not
one, when the cluster IP is empty, and when the first ingress entry has an
empty IP. -/
theorem C20_connectivity_addresses (env : GatewayEnv) (gateway : Gateway)
    (dataplane : DataPlane) (services : List Service)
    (hlist : env.listServices = .ok services) :
    (∀ svc : Service, services = [svc] → svc.clusterIP ≠ "" →
        (svc.loadBalancerIngressIPs = [] →
          GatewayReconciler.ensureGatewayConnectivityStatus env gateway dataplane =
            ({ gateway with
               addresses := [{ type := some IPAddressType, value := svc.clusterIP }] }, none)) ∧
        (∀ (ip : String) (rest : List String), svc.loadBalancerIngressIPs = ip :: rest →
          ip ≠ "" →
          GatewayReconciler.ensureGatewayConnectivityStatus env gateway dataplane =
            ({ gateway with
               addresses := [{ type := some IPAddressType, value := ip },
                             { type := some IPAddressType, value := svc.clusterIP }] },
              none))) ∧
      ((services.length ≠ 1 ∨
          (∃ svc : Service, services = [svc] ∧
            (svc.clusterIP = "" ∨ svc.loadBalancerIngressIPs.head? = some ""))) →
        ∃ err : Err,
          GatewayReconciler.ensureGatewayConnectivityStatus env gateway dataplane =
            (gateway, some err)) := by
  constructor
  · intro svc hone hip
    subst hone
    constructor
    · intro hnone
      simp [GatewayReconciler.ensureGatewayConnectivityStatus, hlist, hip, hnone]
    · intro ip rest hsome hne
      simp [GatewayReconciler.ensureGatewayConnectivityStatus, hlist, hip, hsome, hne]
  · rintro (hlen | ⟨svc, rfl, hbad⟩)
    · match services, hlist, hlen with
      | [], hlist, _ =>
        simp [GatewayReconciler.ensureGatewayConnectivityStatus, hlist]
      | [svc], _, hlen => exact absurd rfl hlen
      | svc :: other :: rest, hlist, _ =>
        simp [GatewayReconciler.ensureGatewayConnectivityStatus, hlist]
    · by_cases hip : svc.clusterIP = ""
      · simp [GatewayReconciler.ensureGatewayConnectivityStatus, hlist, hip]
      · rcases hbad with hbad | hbad
        · exact absurd hbad hip
        · match hing : svc.loadBalancerIngressIPs, hbad with
          | ip :: rest, hbad =>
            have hempty : ip = "" := by simpa using hbad
            subst hempty
            simp [GatewayReconciler.ensureGatewayConnectivityStatus, hlist, hip, hing]

theorem C20_connectivity_addresses_witness :
    GatewayReconciler.ensureGatewayConnectivityStatus GatewayEnv.sampleLoadBalancer
        Gateway.sample DataPlane.sample =
      ({ Gateway.sample with
         addresses := [{ type := some IPAddressType, value := "172.18.0.100" },
                       { type := some IPAddressType, value := "10.0.0.7" }] }, none) :=
  ((C20_connectivity_addresses GatewayEnv.sampleLoadBalancer Gateway.sample DataPlane.sample
      [Service.sampleLoadBalancer] rfl).1 Service.sampleLoadBalancer rfl (by decide)).2
    "172.18.0.100" [] rfl (by decide)

/-! ## The branch of a ControlPlane that is not deleted -/

/-- C13, the code at the failing inputs: with a conflict answer to the write,
the pass returns the conflict as its error, with the zero result, at the write
of the finalizers, at the write of the Scheduled status and at the write of the
status after the Deployment step; at the last write of the status the same
answer gives a requeue after `requeueWithoutBackoff` and no error. -/
theorem C13_conflict_returned_as_error :
    Err.sampleConflict.IsConflict = true ∧
      ((ControlPlaneReconciler.reconcileActive Decls.sample ControlPlaneEnv.sampleUpdateConflict
          ControlPlane.sampleNew).err = some Err.sampleConflict ∧
        (ControlPlaneReconciler.reconcileActive Decls.sample ControlPlaneEnv.sampleUpdateConflict
          ControlPlane.sampleNew).result = Result.zero) ∧
      ((ControlPlaneReconciler.reconcileActive Decls.sample ControlPlaneEnv.sampleStatusConflict
          ControlPlane.sampleFinalized).err = some Err.sampleConflict ∧
        (ControlPlaneReconciler.reconcileActive Decls.sample ControlPlaneEnv.sampleStatusConflict
          ControlPlane.sampleFinalized).result = Result.zero) ∧
      ((ControlPlaneReconciler.reconcileActive Decls.sample
          ControlPlaneEnv.sampleDormantStatusConflict ControlPlane.sampleScheduled).err =
            some Err.sampleConflict ∧
        (ControlPlaneReconciler.reconcileActive Decls.sample
          ControlPlaneEnv.sampleDormantStatusConflict ControlPlane.sampleScheduled).result =
            Result.zero) ∧
      ((ControlPlaneReconciler.reconcileActive Decls.sample ControlPlaneEnv.sampleStatusConflict
          ControlPlane.sampleScheduled).err = none ∧
        (ControlPlaneReconciler.reconcileActive Decls.sample ControlPlaneEnv.sampleStatusConflict
          ControlPlane.sampleScheduled).result =
            { requeue := true, requeueAfter := Decls.sample.requeueWithoutBackoff }) := by
  refine ⟨by decide, ⟨by decide, by decide⟩, ⟨by decide, by decide⟩, ⟨by decide, by decide⟩,
    ⟨by decide, by decide⟩⟩

/-- C14 (the claim as stated fails): the Deployment wants three replicas, has
one and one is available, so the available replicas are fewer than the desired
ones; the pass marks the ControlPlane provisioned and writes the status. -/
theorem C14_counterexample :
    ControlPlaneEnv.sampleScalingUp.ensureDeploymentForControlPlane.2.1.specReplicas = some 3 ∧
      ControlPlaneEnv.sampleScalingUp.ensureDeploymentForControlPlane.2.1.statusAvailableReplicas
        = 1 ∧
      ControlPlaneCall.ensureIsMarkedProvisioned ∈
        (ControlPlaneReconciler.reconcileActive Decls.sample ControlPlaneEnv.sampleScalingUp
          ControlPlane.sampleScheduled).calls ∧
      hasStatusUpdate
        (ControlPlaneReconciler.reconcileActive Decls.sample ControlPlaneEnv.sampleScalingUp
          ControlPlane.sampleScheduled).calls = true := by
  refine ⟨by decide, by decide, by decide, by decide⟩

theorem updateStatus_calls (env : ControlPlaneEnv) (updated : ControlPlane) :
    (ControlPlaneReconciler.updateStatus env updated).1 = [.getCurrent] ∨
      (ControlPlaneReconciler.updateStatus env updated).1 =
        [.getCurrent, .statusUpdate updated.conditions] := by
  unfold ControlPlaneReconciler.updateStatus
  cases env.getCurrent with
  | error err =>
    by_cases hnf : err.IsNotFound = true
    · by_cases hneeds : NeedsUpdate [] updated.conditions = true <;> simp [hnf, hneeds]
    · simp [hnf]
  | ok current =>
    by_cases hneeds : NeedsUpdate current updated.conditions = true <;> simp [hneeds]

theorem updateStatus_calls_not_marked (env : ControlPlaneEnv) (updated : ControlPlane) :
    ControlPlaneCall.ensureIsMarkedProvisioned ∉
      (ControlPlaneReconciler.updateStatus env updated).1 := by
  rcases updateStatus_calls env updated with h | h <;> simp [h]

theorem updateStatus_calls_no_deployment (env : ControlPlaneEnv) (updated : ControlPlane) :
    ControlPlaneCall.ensureDeploymentForControlPlane ∉
      (ControlPlaneReconciler.updateStatus env updated).1 := by
  rcases updateStatus_calls env updated with h | h <;> simp [h]

/-- A pass that does not mark the ControlPlane provisioned and that, when it has
reached the Deployment step, got an error or a changed Deployment from it, has
the property. -/
theorem provisionedOnlyWhenAvailable_of_stop (env : ControlPlaneEnv)
    (pass : ControlPlaneActivePass)
    (hmark : ControlPlaneCall.ensureIsMarkedProvisioned ∉ pass.calls)
    (hstep : ControlPlaneCall.ensureDeploymentForControlPlane ∈ pass.calls →
      ∀ controlplaneDeployment : Deployment,
        env.ensureDeploymentForControlPlane ≠ (false, controlplaneDeployment, none)) :
    provisionedOnlyWhenAvailable env pass :=
  ⟨fun h => absurd h hmark, fun dep hin hdep _ => absurd hdep (hstep hin dep),
    fun dep hin hdep _ _ => absurd hdep (hstep hin dep)⟩

theorem reconcileReadiness_provisionedOnlyWhenAvailable (k : Decls) (env : ControlPlaneEnv)
    (calls : List ControlPlaneCall) (controlplane : ControlPlane)
    (controlplaneDeployment : Deployment)
    (hmark : ControlPlaneCall.ensureIsMarkedProvisioned ∉ calls)
    (hquiet : hasStatusUpdate calls = false)
    (hdep : env.ensureDeploymentForControlPlane = (false, controlplaneDeployment, none)) :
    provisionedOnlyWhenAvailable env
      (ControlPlaneReconciler.reconcileReadiness k env calls controlplane
        controlplaneDeployment) := by
  by_cases hready : controlplaneDeployment.statusReplicas = 0 ∨
      controlplaneDeployment.statusAvailableReplicas < controlplaneDeployment.statusReplicas
  · have hpass : ControlPlaneReconciler.reconcileReadiness k env calls controlplane
        controlplaneDeployment =
          { calls := calls, result := Result.zero, err := none, controlplane := controlplane } := by
      simp [ControlPlaneReconciler.reconcileReadiness, hready]
    rw [hpass]
    refine ⟨fun h => absurd h hmark, fun _ _ _ _ => ⟨hquiet, hmark, rfl, rfl⟩, ?_⟩
    intro dep _ hdep2 hne hle
    rw [hdep] at hdep2
    have heq : controlplaneDeployment = dep := by
      simpa using hdep2
    subst heq
    rcases hready with h | h
    · exact absurd h hne
    · exact absurd hle (not_le.mpr h)
  · have hcalls : (ControlPlaneReconciler.reconcileReadiness k env calls controlplane
          controlplaneDeployment).calls =
          calls ++ ControlPlaneCall.ensureIsMarkedProvisioned ::
            (ControlPlaneReconciler.updateStatus env
              (env.ensureIsMarkedProvisioned controlplane)).1 ∧
        (ControlPlaneReconciler.reconcileReadiness k env calls controlplane
          controlplaneDeployment).controlplane = env.ensureIsMarkedProvisioned controlplane := by
      simp only [ControlPlaneReconciler.reconcileReadiness, if_neg hready]
      cases (ControlPlaneReconciler.updateStatus env
          (env.ensureIsMarkedProvisioned controlplane)).2 with
      | none => simp
      | some err => by_cases hc : err.IsConflict = true <;> simp [hc]
    refine ⟨?_, ?_, ?_⟩
    · intro _
      refine ⟨controlplaneDeployment, hdep, ?_, ?_, calls, ?_⟩
      · exact fun h => hready (Or.inl h)
      · exact not_lt.mp (fun h => hready (Or.inr h))
      · rw [hcalls.1, hcalls.2]
    · intro dep _ hdep2 hnot
      rw [hdep] at hdep2
      have heq : controlplaneDeployment = dep := by
        simpa using hdep2
      exact absurd (heq ▸ hnot) hready
    · intro _ _ _ _ _
      rw [hcalls.1]
      simp

theorem reconcileOwned_provisionedOnlyWhenAvailable (k : Decls) (env : ControlPlaneEnv)
    (calls : List ControlPlaneCall) (controlplane : ControlPlane) (dataplaneIsSet : Bool)
    (hmark : ControlPlaneCall.ensureIsMarkedProvisioned ∉ calls)
    (hquiet : hasStatusUpdate calls = false)
    (hstep : ControlPlaneCall.ensureDeploymentForControlPlane ∉ calls) :
    provisionedOnlyWhenAvailable env
      (ControlPlaneReconciler.reconcileOwned k env calls controlplane dataplaneIsSet) := by
  unfold ControlPlaneReconciler.reconcileOwned
  simp only []
  split
  · apply provisionedOnlyWhenAvailable_of_stop <;> simp [hmark, hstep]
  · apply provisionedOnlyWhenAvailable_of_stop <;> simp [hmark, hstep]
  split
  · apply provisionedOnlyWhenAvailable_of_stop <;> simp [hmark, hstep]
  · apply provisionedOnlyWhenAvailable_of_stop <;> simp [hmark, hstep]
  split
  · apply provisionedOnlyWhenAvailable_of_stop <;> simp [hmark, hstep]
  · apply provisionedOnlyWhenAvailable_of_stop <;> simp [hmark, hstep]
  split
  · apply provisionedOnlyWhenAvailable_of_stop <;> simp [hmark, hstep]
  · apply provisionedOnlyWhenAvailable_of_stop <;> simp [hmark, hstep]
  split
  · rename_i hdep
    apply provisionedOnlyWhenAvailable_of_stop <;> simp [hmark, hstep, hdep]
  · rename_i hdep
    by_cases hset : dataplaneIsSet = true
    · apply provisionedOnlyWhenAvailable_of_stop <;> simp [hmark, hstep, hdep, hset]
    · apply provisionedOnlyWhenAvailable_of_stop
      · simp [hmark, hset, updateStatus_calls_not_marked]
      · simp [hdep]
  · rename_i hdep
    apply reconcileReadiness_provisionedOnlyWhenAvailable
    · simp [hmark]
    · simpa [hasStatusUpdate] using hquiet
    · exact hdep

theorem reconcileConfiguration_provisionedOnlyWhenAvailable (k : Decls) (env : ControlPlaneEnv)
    (calls : List ControlPlaneCall) (controlplane : ControlPlane)
    (dataplaneServiceName : String)
    (hmark : ControlPlaneCall.ensureIsMarkedProvisioned ∉ calls)
    (hquiet : hasStatusUpdate calls = false)
    (hstep : ControlPlaneCall.ensureDeploymentForControlPlane ∉ calls) :
    provisionedOnlyWhenAvailable env
      (ControlPlaneReconciler.reconcileConfiguration k env calls controlplane
        dataplaneServiceName) := by
  unfold ControlPlaneReconciler.reconcileConfiguration
  simp only []
  split
  · split
    · split
      · apply provisionedOnlyWhenAvailable_of_stop <;> simp [hmark, hstep]
      · apply provisionedOnlyWhenAvailable_of_stop <;> simp [hmark, hstep]
    · apply provisionedOnlyWhenAvailable_of_stop <;> simp [hmark, hstep]
  · split
    · split
      · apply provisionedOnlyWhenAvailable_of_stop <;> simp [hmark, hstep]
      · apply provisionedOnlyWhenAvailable_of_stop <;> simp [hmark, hstep]
    · apply reconcileOwned_provisionedOnlyWhenAvailable
      · simp [hmark]
      · simpa [hasStatusUpdate] using hquiet
      · simp [hstep]

theorem reconcileActive_provisionedOnlyWhenAvailable (k : Decls) (env : ControlPlaneEnv)
    (controlplane : ControlPlane) :
    provisionedOnlyWhenAvailable env
      (ControlPlaneReconciler.reconcileActive k env controlplane) := by
  unfold ControlPlaneReconciler.reconcileActive
  simp only []
  split
  · apply provisionedOnlyWhenAvailable_of_stop <;> simp
  · split
    · apply provisionedOnlyWhenAvailable_of_stop
      · simp [updateStatus_calls_not_marked]
      · intro h
        exact absurd h (updateStatus_calls_no_deployment _ _)
    · split
      · split
        · apply provisionedOnlyWhenAvailable_of_stop <;> simp
        · apply reconcileConfiguration_provisionedOnlyWhenAvailable <;> simp [hasStatusUpdate]
      · split
        · apply provisionedOnlyWhenAvailable_of_stop <;> simp
        · split
          · apply provisionedOnlyWhenAvailable_of_stop <;> simp
          · apply reconcileConfiguration_provisionedOnlyWhenAvailable <;> simp [hasStatusUpdate]

/-- C14 (amended): a pass over a ControlPlane that is not deleted marks the
ControlPlane provisioned (`ensureIsMarkedProvisioned` followed by the calls of
`updateStatus`) only when the Deployment step answered with an unchanged
Deployment whose observed number of replicas (`Status.Replicas`) is not zero
and not above its available number. When the pass reaches the Deployment step,
the step answers with an unchanged Deployment and the observed number is zero
or above the available number, the pass stops with the zero result and no
error, without a mark and without a write of the status. When the pass reaches
the Deployment step, the step answers with an unchanged Deployment and the
observed number is not zero and not above the available number, the pass does
mark the ControlPlane provisioned, for every value of the desired number
(`Spec.Replicas`), which is not read. -/
theorem C14_provisioned_only_when_observed_available (k : Decls) (env : ControlPlaneEnv)
    (controlplane : ControlPlane) :
    (ControlPlaneCall.ensureIsMarkedProvisioned ∈
          (ControlPlaneReconciler.reconcileActive k env controlplane).calls →
        ∃ controlplaneDeployment : Deployment,
          env.ensureDeploymentForControlPlane = (false, controlplaneDeployment, none) ∧
            controlplaneDeployment.statusReplicas ≠ 0 ∧
            controlplaneDeployment.statusReplicas ≤
              controlplaneDeployment.statusAvailableReplicas ∧
            ∃ before : List ControlPlaneCall,
              (ControlPlaneReconciler.reconcileActive k env controlplane).calls =
                before ++ ControlPlaneCall.ensureIsMarkedProvisioned ::
                  (ControlPlaneReconciler.updateStatus env
                    (ControlPlaneReconciler.reconcileActive k env
                      controlplane).controlplane).1) ∧
      (∀ controlplaneDeployment : Deployment,
        ControlPlaneCall.ensureDeploymentForControlPlane ∈
          (ControlPlaneReconciler.reconcileActive k env controlplane).calls →
        env.ensureDeploymentForControlPlane = (false, controlplaneDeployment, none) →
        (controlplaneDeployment.statusReplicas = 0 ∨
          controlplaneDeployment.statusAvailableReplicas <
            controlplaneDeployment.statusReplicas) →
        hasStatusUpdate (ControlPlaneReconciler.reconcileActive k env controlplane).calls =
            false ∧
          ControlPlaneCall.ensureIsMarkedProvisioned ∉
            (ControlPlaneReconciler.reconcileActive k env controlplane).calls ∧
          (ControlPlaneReconciler.reconcileActive k env controlplane).result = Result.zero ∧
          (ControlPlaneReconciler.reconcileActive k env controlplane).err = none) ∧
      (∀ controlplaneDeployment : Deployment,
        ControlPlaneCall.ensureDeploymentForControlPlane ∈
          (ControlPlaneReconciler.reconcileActive k env controlplane).calls →
        env.ensureDeploymentForControlPlane = (false, controlplaneDeployment, none) →
        controlplaneDeployment.statusReplicas ≠ 0 →
        controlplaneDeployment.statusReplicas ≤
          controlplaneDeployment.statusAvailableReplicas →
        ControlPlaneCall.ensureIsMarkedProvisioned ∈
          (ControlPlaneReconciler.reconcileActive k env controlplane).calls) :=
  reconcileActive_provisionedOnlyWhenAvailable k env controlplane

theorem C14_provisioned_only_when_observed_available_witness :
    ∃ controlplaneDeployment : Deployment,
      ControlPlaneEnv.sample.ensureDeploymentForControlPlane =
          (false, controlplaneDeployment, none) ∧
        controlplaneDeployment.statusReplicas ≠ 0 ∧
        controlplaneDeployment.statusReplicas ≤ controlplaneDeployment.statusAvailableReplicas ∧
        ∃ before : List ControlPlaneCall,
          (ControlPlaneReconciler.reconcileActive Decls.sample ControlPlaneEnv.sample
              ControlPlane.sampleScheduled).calls =
            before ++ ControlPlaneCall.ensureIsMarkedProvisioned ::
              (ControlPlaneReconciler.updateStatus ControlPlaneEnv.sample
                (ControlPlaneReconciler.reconcileActive Decls.sample ControlPlaneEnv.sample
                  ControlPlane.sampleScheduled).controlplane).1 :=
  (C14_provisioned_only_when_observed_available Decls.sample ControlPlaneEnv.sample
    ControlPlane.sampleScheduled).1 (by decide)

/-! ## Conditions: frame and readiness -/

theorem IsReady_eq_IsValidCondition (conditions : List Condition) :
    IsReady conditions = IsValidCondition ReadyType conditions := by
  induction conditions with
  | nil => rfl
  | cons a rest ih =>
    unfold IsReady IsValidCondition
    by_cases h : a.type = ReadyType
    · simp [h]
    · simp [h, ih]

theorem SetCondition_types_nodup (c : Condition) (conditions : List Condition)
    (h : (conditions.map (fun x => x.type)).Nodup) :
    ((SetCondition c conditions).map (fun x => x.type)).Nodup := by
  unfold SetCondition
  rw [List.map_append, List.nodup_append]
  refine ⟨h.sublist ((List.filter_sublist conditions).map _), by simp, ?_⟩
  intro t ht
  simp only [List.map_cons, List.map_nil, List.mem_singleton]
  simp only [List.mem_map, List.mem_filter] at ht
  rcases ht with ⟨x, ⟨_, hx⟩, rfl⟩
  simpa using hx

/-- C30: `SetCondition` touches only the condition type it sets. For every
condition list and condition `c`, the conditions whose type differs from the
type of `c` are afterwards the same entries in the same order as before; and a
list with at most one entry per type has at most one entry per type
afterwards. -/
theorem C30_SetCondition_frame (c : Condition) (conditions : List Condition) :
    (SetCondition c conditions).filter (fun x => decide (x.type ≠ c.type)) =
        conditions.filter (fun x => decide (x.type ≠ c.type)) ∧
      ((conditions.map (fun x => x.type)).Nodup →
        ((SetCondition c conditions).map (fun x => x.type)).Nodup) :=
  ⟨SetCondition_filter_other c conditions, SetCondition_types_nodup c conditions⟩

theorem C30_SetCondition_frame_witness :
    ((SetCondition (NewCondition 2 ReadyType ConditionTrue ResourceReadyReason "")
      [NewCondition 1 ReadyType ConditionFalse DependenciesNotReadyReason "",
       NewCondition 1 ProgrammedType ConditionFalse PendingReason ""]).map
        (fun x => x.type)).Nodup :=
  (C30_SetCondition_frame (NewCondition 2 ReadyType ConditionTrue ResourceReadyReason "")
    [NewCondition 1 ReadyType ConditionFalse DependenciesNotReadyReason "",
     NewCondition 1 ProgrammedType ConditionFalse PendingReason ""]).2 (by decide)

theorem SetCondition_filter_ready (c : Condition) (conditions : List Condition)
    (h : c.type = ReadyType) :
    (SetCondition c conditions).filter (fun x => decide (x.type = ReadyType)) = [c] := by
  have hsame := SetCondition_filter_same c conditions
  rwa [h] at hsame

theorem IsReady_SetCondition (c : Condition) (conditions : List Condition)
    (h : c.type = ReadyType) :
    IsReady (SetCondition c conditions) = decide (c.status = ConditionTrue) := by
  rw [IsReady_eq_IsValidCondition, ← h, IsValidCondition_SetCondition]

/-- C29: for every condition list and generation `g`, after `SetReady` the list
has exactly one condition of type `Ready`, with observed generation `g`. Its
status is `True` with reason `Ready` exactly when every condition of a type
other than `Ready` and `Programmed` had status `True` before the call, and
otherwise its status is `False` with reason `DependenciesNotReady`; and
`IsReady` after the call is true exactly in the first case. -/
theorem C29_SetReady_aggregates (now : Int) (conditions : List Condition) (generation : Int) :
    ∃ ready : Condition,
      (SetReady now conditions generation).filter (fun x => decide (x.type = ReadyType)) =
          [ready] ∧
        ready.observedGeneration = generation ∧
        ((ready.status = ConditionTrue ∧ ready.reason = ResourceReadyReason) ↔
          ∀ c ∈ conditions, c.type ≠ ProgrammedType → c.type ≠ ReadyType →
            c.status = ConditionTrue) ∧
        ((¬ ∀ c ∈ conditions, c.type ≠ ProgrammedType → c.type ≠ ReadyType →
            c.status = ConditionTrue) →
          ready.status = ConditionFalse ∧ ready.reason = DependenciesNotReadyReason) ∧
        (IsReady (SetReady now conditions generation) = true ↔
          ∀ c ∈ conditions, c.type ≠ ProgrammedType → c.type ≠ ReadyType →
            c.status = ConditionTrue) := by
  rw [← areAllConditionsHaveTrueStatus_iff]
  by_cases hall : areAllConditionsHaveTrueStatus conditions = true
  · refine ⟨{ type := ReadyType, status := ConditionTrue, observedGeneration := generation,
              lastTransitionTime := now, reason := ResourceReadyReason, message := "" },
      ?_, ?_, ?_, ?_, ?_⟩
    · simp only [SetReady, hall, if_true]
      exact SetCondition_filter_ready _ conditions rfl
    · rfl
    · simp [hall]
    · intro h
      exact absurd hall h
    · simp only [SetReady, hall, if_true]
      rw [IsReady_SetCondition _ _ rfl]
      simp
  · have hf : areAllConditionsHaveTrueStatus conditions = false := by simpa using hall
    refine ⟨{ type := ReadyType, status := ConditionFalse, observedGeneration := generation,
              lastTransitionTime := now, reason := DependenciesNotReadyReason,
              message := DependenciesNotReadyMessage },
      ?_, ?_, ?_, ?_, ?_⟩
    · simp only [SetReady, hf, Bool.false_eq_true, if_false]
      exact SetCondition_filter_ready _ conditions rfl
    · rfl
    · simp only [hf, Bool.false_eq_true, iff_false, not_and]
      intro h
      exact absurd h (by decide)
    · intro _
      exact ⟨rfl, rfl⟩
    · simp only [SetReady, hf, Bool.false_eq_true, if_false]
      rw [IsReady_SetCondition _ _ rfl]
      have hne : ¬ decide (ConditionFalse = ConditionTrue) = true := by decide
      simpa using hne

/-! ## Finalizers -/

theorem EnsureFinalizersInMetadata_added (finalizers metadataFinalizers : List String) :
    ∃ added : List String,
      (EnsureFinalizersInMetadata metadataFinalizers finalizers).1 = metadataFinalizers ++ added ∧
        added.Nodup ∧
        (∀ f, f ∈ added ↔ f ∈ finalizers ∧ f ∉ metadataFinalizers) ∧
        ((EnsureFinalizersInMetadata metadataFinalizers finalizers).2 = true ↔
          ∃ f ∈ finalizers, f ∉ metadataFinalizers) := by
  induction finalizers generalizing metadataFinalizers with
  | nil => exact ⟨[], by simp [EnsureFinalizersInMetadata]⟩
  | cons finalizer rest ih =>
    unfold EnsureFinalizersInMetadata
    rw [finalizerExists_eq]
    by_cases hmem : finalizer ∈ metadataFinalizers
    · obtain ⟨added, h1, h2, h3, h4⟩ := ih metadataFinalizers
      refine ⟨added, ?_, h2, ?_, ?_⟩
      · simpa [hmem] using h1
      · intro f
        rw [h3 f]
        constructor
        · rintro ⟨hf, hn⟩
          exact ⟨List.mem_cons_of_mem _ hf, hn⟩
        · rintro ⟨hf, hn⟩
          rcases List.mem_cons.mp hf with rfl | hf
          · exact absurd hmem hn
          · exact ⟨hf, hn⟩
      · simp only [hmem, decide_True, if_true]
        rw [h4]
        constructor
        · rintro ⟨f, hf, hn⟩
          exact ⟨f, List.mem_cons_of_mem _ hf, hn⟩
        · rintro ⟨f, hf, hn⟩
          rcases List.mem_cons.mp hf with rfl | hf
          · exact absurd hmem hn
          · exact ⟨f, hf, hn⟩
    · obtain ⟨added, h1, h2, h3, _⟩ := ih (metadataFinalizers ++ [finalizer])
      refine ⟨finalizer :: added, ?_, ?_, ?_, ?_⟩
      · simp only [hmem, decide_False, Bool.false_eq_true, if_false]
        rw [h1]
        simp
      · refine List.nodup_cons.mpr ⟨?_, h2⟩
        intro hin
        exact ((h3 finalizer).mp hin).2 (by simp)
      · intro f
        rw [List.mem_cons, h3 f]
        constructor
        · rintro (rfl | ⟨hf, hn⟩)
          · exact ⟨List.mem_cons_self _ _, hmem⟩
          · exact ⟨List.mem_cons_of_mem _ hf, fun h => hn (List.mem_append_left _ h)⟩
        · rintro ⟨hf, hn⟩
          by_cases hfe : f = finalizer
          · exact Or.inl hfe
          · rcases List.mem_cons.mp hf with rfl | hf
            · exact absurd rfl hfe
            · refine Or.inr ⟨hf, ?_⟩
              intro h
              rcases List.mem_append.mp h with h | h
              · exact hn h
              · exact hfe (List.mem_singleton.mp h)
      · simp only [hmem, decide_False, Bool.false_eq_true, if_false, true_iff]
        exact ⟨finalizer, List.mem_cons_self _ _, hmem⟩

theorem EnsureFinalizersInMetadata_of_all_present (finalizers metadataFinalizers : List String)
    (h : ∀ f ∈ finalizers, f ∈ metadataFinalizers) :
    EnsureFinalizersInMetadata metadataFinalizers finalizers = (metadataFinalizers, false) := by
  induction finalizers with
  | nil => rfl
  | cons finalizer rest ih =>
    unfold EnsureFinalizersInMetadata
    rw [finalizerExists_eq]
    have hmem : finalizer ∈ metadataFinalizers := h finalizer (List.mem_cons_self _ _)
    simp only [hmem, decide_True, if_true]
    exact ih (fun f hf => h f (List.mem_cons_of_mem _ hf))

/-- C22: for every finalizer list of an object and every list of given names,
`EnsureFinalizersInMetadata` returns true exactly when one of the given names
was absent. The finalizers afterwards are the original ones, in their order,
followed by the names that were given and absent, each of them once (also when
it is repeated among the given names); so every given name is present
afterwards, and a second call with the same names returns false and leaves the
list as it is. -/
theorem C22_EnsureFinalizersInMetadata (metadataFinalizers finalizers : List String) :
    ((EnsureFinalizersInMetadata metadataFinalizers finalizers).2 = true ↔
        ∃ f ∈ finalizers, f ∉ metadataFinalizers) ∧
      (∀ f ∈ finalizers, f ∈ (EnsureFinalizersInMetadata metadataFinalizers finalizers).1) ∧
      (∃ added : List String,
        (EnsureFinalizersInMetadata metadataFinalizers finalizers).1 =
            metadataFinalizers ++ added ∧
          (∀ f, f ∈ finalizers → f ∉ metadataFinalizers → added.count f = 1) ∧
          (∀ f ∈ added, f ∈ finalizers ∧ f ∉ metadataFinalizers)) ∧
      EnsureFinalizersInMetadata (EnsureFinalizersInMetadata metadataFinalizers finalizers).1
          finalizers =
        ((EnsureFinalizersInMetadata metadataFinalizers finalizers).1, false) := by
  obtain ⟨added, h1, h2, h3, h4⟩ :=
    EnsureFinalizersInMetadata_added finalizers metadataFinalizers
  have hpresent : ∀ f ∈ finalizers,
      f ∈ (EnsureFinalizersInMetadata metadataFinalizers finalizers).1 := by
    intro f hf
    rw [h1]
    by_cases hm : f ∈ metadataFinalizers
    · exact List.mem_append_left _ hm
    · exact List.mem_append_right _ ((h3 f).mpr ⟨hf, hm⟩)
  refine ⟨h4, hpresent, ⟨added, h1, ?_, ?_⟩, ?_⟩
  · intro f hf hm
    exact List.count_eq_one_of_mem h2 ((h3 f).mpr ⟨hf, hm⟩)
  · intro f hf
    exact (h3 f).mp hf
  · exact EnsureFinalizersInMetadata_of_all_present _ _ hpresent

/-- C23: for every finalizer list of an object and every name `f`,
`RemoveFinalizerInMetadata` returns true exactly when `f` was present.
Afterwards `f` does not occur, the finalizers are the original ones other than
`f` in their original order, and when `f` was absent the list is the original
one. -/
theorem C23_RemoveFinalizerInMetadata (metadataFinalizers : List String) (finalizer : String) :
    ((RemoveFinalizerInMetadata metadataFinalizers finalizer).2 = true ↔
        finalizer ∈ metadataFinalizers) ∧
      finalizer ∉ (RemoveFinalizerInMetadata metadataFinalizers finalizer).1 ∧
      (RemoveFinalizerInMetadata metadataFinalizers finalizer).1 =
        metadataFinalizers.filter (fun f => decide (f ≠ finalizer)) ∧
      (finalizer ∉ metadataFinalizers →
        RemoveFinalizerInMetadata metadataFinalizers finalizer = (metadataFinalizers, false)) := by
  rw [RemoveFinalizerInMetadata_eq]
  by_cases hmem : finalizer ∈ metadataFinalizers
  · simp [hmem]
  · have hfilter : metadataFinalizers.filter (fun f => decide (f ≠ finalizer)) =
        metadataFinalizers := by
      apply List.filter_eq_self.mpr
      intro f hf
      have hne : f ≠ finalizer := fun h => hmem (h ▸ hf)
      simpa using hne
    simp only [hmem, if_false, Bool.false_eq_true, false_iff, not_false_eq_true, true_and,
      hfilter, implies_true, and_self]

theorem C23_RemoveFinalizerInMetadata_witness :
    RemoveFinalizerInMetadata ["a", "b"] "c" = (["a", "b"], false) :=
  (C23_RemoveFinalizerInMetadata ["a", "b"] "c").2.2.2 (by decide)

/-! ## The GatewayConfiguration of a GatewayClass -/

/-- C21: for every GatewayClass, `getOrCreateGatewayConfiguration` reads no
object and returns the empty GatewayConfiguration without error when the
parameters reference is absent; reads no object and returns a status error of
code 400 and reason `Invalid` when the group of the reference is not the API
group of the operator or its kind is not `GatewayConfiguration`; and reads no
object and returns an error when group and kind are right and the namespace is
missing or empty or the name is empty. -/
theorem C21_gateway_configuration_reference (k : Decls) (env : GatewayEnv)
    (gatewayClass : GatewayClass) :
    (gatewayClass.parametersRef = none →
        GatewayReconciler.getOrCreateGatewayConfiguration k env gatewayClass =
          ([], .ok GatewayConfiguration.zero)) ∧
      (∀ parametersRef : ParametersReference,
        gatewayClass.parametersRef = some parametersRef →
        (parametersRef.group ≠ k.SchemeGroup ∨ parametersRef.kind ≠ "GatewayConfiguration") →
        ∃ message kind causeMessage : String,
          GatewayReconciler.getOrCreateGatewayConfiguration k env gatewayClass =
            ([], .error (.status 400 "Invalid" message kind causeMessage))) ∧
      (∀ parametersRef : ParametersReference,
        gatewayClass.parametersRef = some parametersRef →
        parametersRef.group = k.SchemeGroup → parametersRef.kind = "GatewayConfiguration" →
        (parametersRef.nameSpace = none ∨ parametersRef.nameSpace = some "" ∨
          parametersRef.name = "") →
        ∃ err : Err,
          GatewayReconciler.getOrCreateGatewayConfiguration k env gatewayClass =
            ([], .error err)) := by
  refine ⟨?_, ?_, ?_⟩
  · intro hnone
    simp [GatewayReconciler.getOrCreateGatewayConfiguration,
      GatewayReconciler.getGatewayConfigForGatewayClass, hnone, Err.Is]
  · intro parametersRef hsome hbad
    simp [GatewayReconciler.getOrCreateGatewayConfiguration,
      GatewayReconciler.getGatewayConfigForGatewayClass, hsome, hbad, Err.Is]
  · intro parametersRef hsome hgroup hkind hmissing
    rcases hns : parametersRef.nameSpace with _ | parametersNamespace
    · simp [GatewayReconciler.getOrCreateGatewayConfiguration,
        GatewayReconciler.getGatewayConfigForGatewayClass, hsome, hgroup, hkind, hns, Err.Is]
    · have hempty : parametersNamespace = "" ∨ parametersRef.name = "" := by
        rcases hmissing with h | h | h
        · rw [hns] at h
          exact absurd h (by simp)
        · rw [hns] at h
          exact Or.inl (Option.some.inj h)
        · exact Or.inr h
      simp [GatewayReconciler.getOrCreateGatewayConfiguration,
        GatewayReconciler.getGatewayConfigForGatewayClass, hsome, hgroup, hkind, hns, hempty,
        Err.Is]

theorem C22_EnsureFinalizersInMetadata_witness :
    (EnsureFinalizersInMetadata ["a"] ["b", "a", "b"]).2 = true ∧
      EnsureFinalizersInMetadata ["a"] ["b", "a", "b"] = (["a", "b"], true) :=
  ⟨(C22_EnsureFinalizersInMetadata ["a"] ["b", "a", "b"]).1.mpr ⟨"b", by decide, by decide⟩,
    by decide⟩

theorem C21_gateway_configuration_reference_witness :
    ∃ message kind causeMessage : String,
      GatewayReconciler.getOrCreateGatewayConfiguration Decls.sample GatewayEnv.sample
          { GatewayClass.sample with
            parametersRef := some
              { group := "v1", kind := "ConfigMap", name := "cfg", nameSpace := some "default" } } =
        ([], .error (.status 400 "Invalid" message kind causeMessage)) :=
  (C21_gateway_configuration_reference Decls.sample GatewayEnv.sample
    { GatewayClass.sample with
      parametersRef := some
        { group := "v1", kind := "ConfigMap", name := "cfg", nameSpace := some "default" } }).2.1
    { group := "v1", kind := "ConfigMap", name := "cfg", nameSpace := some "default" } rfl
    (Or.inl (by decide))

/-! ## The metadata of an owned object -/

theorem mapLookup_eq_some_iff (m : List (String × String))
    (hkeys : (m.map (fun entry => entry.1)).Nodup) (key value : String) :
    mapLookup m key = some value ↔ (key, value) ∈ m := by
  induction m with
  | nil => simp [mapLookup]
  | cons entry rest ih =>
    rcases entry with ⟨a, b⟩
    simp only [List.map_cons, List.nodup_cons] at hkeys
    by_cases ha : a = key
    · subst ha
      have hrest : (a, value) ∉ rest := by
        intro hin
        exact hkeys.1 (List.mem_map.mpr ⟨(a, value), hin, rfl⟩)
      simp only [mapLookup, List.find?_cons, decide_True, Option.map_some', Option.some.injEq,
        List.mem_cons, Prod.mk.injEq, true_and, hrest, or_false]
      exact eq_comm
    · have hne : ¬ key = a := fun h => ha h.symm
      have ih2 := ih hkeys.2
      simp only [mapLookup] at ih2
      simp only [mapLookup, List.find?_cons, ha, decide_False, List.mem_cons, Prod.mk.injEq,
        hne, false_and, false_or]
      exact ih2

theorem mapLookup_eq_of_mem_iff (m1 m2 : List (String × String))
    (h1 : (m1.map (fun entry => entry.1)).Nodup) (h2 : (m2.map (fun entry => entry.1)).Nodup)
    (hmem : ∀ entry, entry ∈ m1 ↔ entry ∈ m2) (key : String) :
    mapLookup m1 key = mapLookup m2 key := by
  apply Option.ext
  intro value
  simp only [Option.mem_def]
  rw [mapLookup_eq_some_iff m1 h1, mapLookup_eq_some_iff m2 h2]
  exact hmem (key, value)

/-- On maps given by entry lists with distinct keys, `mapsEqual` is the equality
of the two maps: every key reads the same in both. -/
theorem mapsEqual_iff (m1 m2 : List (String × String))
    (h1 : (m1.map (fun entry => entry.1)).Nodup) (h2 : (m2.map (fun entry => entry.1)).Nodup) :
    mapsEqual m1 m2 = true ↔ ∀ key, mapLookup m1 key = mapLookup m2 key := by
  have hn1 : m1.Nodup := List.Nodup.of_map _ h1
  have hn2 : m2.Nodup := List.Nodup.of_map _ h2
  constructor
  · intro heq
    unfold mapsEqual at heq
    by_cases hlen : m1.length = m2.length
    · simp only [hlen, ne_eq, not_true_eq_false, if_false, List.all_eq_true,
        decide_eq_true_eq] at heq
      have hsub : m1 ⊆ m2 := by
        intro entry hin
        exact (mapLookup_eq_some_iff m2 h2 entry.1 entry.2).mp (heq entry hin)
      have hperm : m1.Perm m2 :=
        (List.subperm_of_subset hn1 hsub).perm_of_length_le (le_of_eq hlen.symm)
      exact mapLookup_eq_of_mem_iff m1 m2 h1 h2 (fun entry => hperm.mem_iff)
    · simp [hlen] at heq
  · intro hall
    have hmem : ∀ entry, entry ∈ m1 ↔ entry ∈ m2 := by
      intro entry
      rw [← mapLookup_eq_some_iff m1 h1 entry.1 entry.2,
        ← mapLookup_eq_some_iff m2 h2 entry.1 entry.2, hall]
    have hperm : m1.Perm m2 := (List.perm_ext_iff_of_nodup hn1 hn2).mpr hmem
    unfold mapsEqual
    simp only [hperm.length_eq, ne_eq, not_true_eq_false, if_false, List.all_eq_true,
      decide_eq_true_eq]
    intro entry hin
    exact (mapLookup_eq_some_iff m2 h2 entry.1 entry.2).mpr ((hmem entry).mp hin)

theorem mapsEqual_self (m : List (String × String))
    (h : (m.map (fun entry => entry.1)).Nodup) : mapsEqual m m = true :=
  (mapsEqual_iff m m h h).mpr (fun _ => rfl)

/-- `EnsureObjectMetaIsUpdated` without options, in closed form. -/
theorem EnsureObjectMetaIsUpdated_nil (existingMeta generatedMeta : ObjectMeta) :
    EnsureObjectMetaIsUpdated existingMeta generatedMeta [] =
      (!mapsEqual existingMeta.labels generatedMeta.labels ||
          decide (existingMeta.ownerReferences ≠ generatedMeta.ownerReferences),
        { existingMeta with
          labels :=
            if mapsEqual existingMeta.labels generatedMeta.labels = true
            then existingMeta.labels else generatedMeta.labels,
          ownerReferences := generatedMeta.ownerReferences }) := by
  rcases existingMeta with ⟨n, g, ns, u, gen, labels, owners, fin, del⟩
  by_cases hl : mapsEqual labels generatedMeta.labels = true <;>
  by_cases ho : owners = generatedMeta.ownerReferences <;>
  simp [EnsureObjectMetaIsUpdated, applyObjectMetaOptions, slicesEqualFunc_ownerReferenceEqual,
    hl, ho]

/-- C24: for every existing and generated metadata whose label maps have
distinct keys, `EnsureObjectMetaIsUpdated` without options returns false
exactly when the two label maps read the same at every key and the two lists
of owner references are equal (the comparator looks at API version, kind, name,
UID, controller flag and block-owner-deletion flag, all the fields of an owner
reference). The returned metadata reads the generated labels at every key,
carries the generated owner references, and is the existing metadata in every
other field; applied to its own result the function returns false and that
result. -/
theorem C24_EnsureObjectMetaIsUpdated (existingMeta generatedMeta : ObjectMeta)
    (hexisting : (existingMeta.labels.map (fun entry => entry.1)).Nodup)
    (hgenerated : (generatedMeta.labels.map (fun entry => entry.1)).Nodup) :
    ((EnsureObjectMetaIsUpdated existingMeta generatedMeta []).1 = false ↔
        (∀ key, mapLookup existingMeta.labels key = mapLookup generatedMeta.labels key) ∧
          existingMeta.ownerReferences = generatedMeta.ownerReferences) ∧
      (∀ key,
        mapLookup (EnsureObjectMetaIsUpdated existingMeta generatedMeta []).2.labels key =
          mapLookup generatedMeta.labels key) ∧
      (EnsureObjectMetaIsUpdated existingMeta generatedMeta []).2.ownerReferences =
        generatedMeta.ownerReferences ∧
      { (EnsureObjectMetaIsUpdated existingMeta generatedMeta []).2 with
          labels := existingMeta.labels, ownerReferences := existingMeta.ownerReferences } =
        existingMeta ∧
      EnsureObjectMetaIsUpdated (EnsureObjectMetaIsUpdated existingMeta generatedMeta []).2
          generatedMeta [] =
        (false, (EnsureObjectMetaIsUpdated existingMeta generatedMeta []).2) := by
  have hiff := mapsEqual_iff existingMeta.labels generatedMeta.labels hexisting hgenerated
  rw [EnsureObjectMetaIsUpdated_nil existingMeta generatedMeta]
  by_cases hl : mapsEqual existingMeta.labels generatedMeta.labels = true
  · have hall := hiff.mp hl
    refine ⟨?_, ?_, rfl, ?_, ?_⟩
    · simp only [hl, Bool.not_true, Bool.false_or, decide_eq_false_iff_not, ne_eq, not_not]
      exact ⟨fun h => ⟨hall, h⟩, fun h => h.2⟩
    · simpa [hl] using hall
    · simp [hl]
    · rw [EnsureObjectMetaIsUpdated_nil]
      simp [hl]
  · have hnall : ¬ ∀ key, mapLookup existingMeta.labels key = mapLookup generatedMeta.labels key :=
      fun h => hl (hiff.mpr h)
    have hself := mapsEqual_self generatedMeta.labels hgenerated
    refine ⟨?_, ?_, rfl, ?_, ?_⟩
    · simp [hl, hnall]
    · simp [hl]
    · simp [hl]
    · rw [EnsureObjectMetaIsUpdated_nil]
      simp [hl, hself]

theorem C24_EnsureObjectMetaIsUpdated_witness :
    EnsureObjectMetaIsUpdated
        (EnsureObjectMetaIsUpdated NetworkPolicy.sampleStale.objectMeta
          { ObjectMeta.zero with labels := [("a", "1"), ("b", "2")] } []).2
        { ObjectMeta.zero with labels := [("a", "1"), ("b", "2")] } [] =
      (false,
        (EnsureObjectMetaIsUpdated NetworkPolicy.sampleStale.objectMeta
          { ObjectMeta.zero with labels := [("a", "1"), ("b", "2")] } []).2) :=
  (C24_EnsureObjectMetaIsUpdated NetworkPolicy.sampleStale.objectMeta
    { ObjectMeta.zero with labels := [("a", "1"), ("b", "2")] } (by decide) (by decide)).2.2.2.2

/-! ## The Ready condition of the child in the condition of the Gateway -/

theorem provisionDataPlane_one_conditions (k : Decls) (env : GatewayEnv) (gateway : Gateway)
    (gatewayConfig : GatewayConfiguration) (dataplane : DataPlane)
    (hlist : env.listDataPlanes = .ok [dataplane])
    (hwrite : dataplane.options = expectedDataplaneOptions k gatewayConfig ∨
      env.updateDataPlane = none) :
    ∃ conditions : List Condition,
      (GatewayReconciler.provisionDataPlane k env gateway gatewayConfig).conditions =
        SetCondition
          (if IsReady dataplane.conditions = true then
            createDataPlaneCondition k env.now ConditionTrue ResourceReadyReason ""
              gateway.objectMeta.generation
          else
            createDataPlaneCondition k env.now ConditionFalse WaitingToBecomeReadyReason
              WaitingToBecomeReadyMessage gateway.objectMeta.generation) conditions := by
  unfold expectedDataplaneOptions at hwrite
  unfold GatewayReconciler.provisionDataPlane
  simp only [hlist]
  generalize k.setDataplaneGatewayConfigDefaults gatewayConfig = cfg0 at hwrite ⊢
  rcases cfg0 with ⟨m, dpo, cpo⟩
  cases dpo <;>
  · simp only [Option.getD_none, Option.getD_some, dataplaneSpecDeepEqual] at hwrite ⊢
    rcases hwrite with heq | hu
    · simp only [heq, decide_True, Bool.not_true, Bool.false_eq_true, if_false]
      by_cases hr : IsReady dataplane.conditions = true
      · (simp only [hr, if_true]; exact ⟨_, rfl⟩)
      · (simp only [hr, Bool.false_eq_true, if_false]; exact ⟨_, rfl⟩)
    · simp only [hu]
      split <;>
      · by_cases hr : IsReady dataplane.conditions = true
        · (simp only [hr, if_true]; exact ⟨_, rfl⟩)
        · (simp only [hr, Bool.false_eq_true, if_false]; exact ⟨_, rfl⟩)

theorem provisionControlPlane_one_conditions (k : Decls) (env : GatewayEnv)
    (gatewayClass : GatewayClass) (gateway : Gateway) (gatewayConfig cfg : GatewayConfiguration)
    (dataplane : DataPlane) (serviceName : String) (controlplane : ControlPlane)
    (hdef : k.setControlplaneGatewayConfigDefaults gateway gatewayConfig
      dataplane.objectMeta.name serviceName = (cfg, none))
    (hlist : env.listControlPlanes = .ok [controlplane])
    (hwrite : controlplaneSpecDeepEqual controlplane.options (expectedControlplaneOptions k cfg)
        ["CONTROLLER_KONG_ADMIN_URL"] = true ∨ env.patchControlPlane = none) :
    ∃ conditions : List Condition,
      (GatewayReconciler.provisionControlPlane k env gatewayClass gateway gatewayConfig dataplane
          serviceName).conditions =
        SetCondition
          (if IsReady controlplane.conditions = true then
            createControlPlaneCondition k env.now ConditionTrue ResourceReadyReason ""
              gateway.objectMeta.generation
          else
            createControlPlaneCondition k env.now ConditionFalse WaitingToBecomeReadyReason
              WaitingToBecomeReadyMessage gateway.objectMeta.generation) conditions := by
  unfold expectedControlplaneOptions at hwrite
  unfold GatewayReconciler.provisionControlPlane
  simp only [hdef, hlist]
  rcases cfg with ⟨m, dpo, cpo⟩
  cases cpo <;>
  · simp only [Option.getD_none, Option.getD_some] at hwrite ⊢
    rcases hwrite with heq | hu
    · simp only [heq, Bool.not_true, Bool.false_eq_true, if_false]
      by_cases hr : IsReady controlplane.conditions = true
      · (simp only [hr, Bool.not_true, Bool.false_eq_true, if_false, if_true]; exact ⟨_, rfl⟩)
      · (simp only [hr, Bool.not_false, Bool.false_eq_true, if_false, if_true]; exact ⟨_, rfl⟩)
    · simp only [hu]
      split <;>
      · by_cases hr : IsReady controlplane.conditions = true
        · (simp only [hr, Bool.not_true, Bool.false_eq_true, if_false, if_true]; exact ⟨_, rfl⟩)
        · (simp only [hr, Bool.not_false, Bool.false_eq_true, if_false, if_true]
           exact ⟨_, rfl⟩)

theorem IsReady_iff_find (conditions : List Condition) :
    IsReady conditions = true ↔
      ∃ c, conditions.find? (fun x => decide (x.type = ReadyType)) = some c ∧
        c.status = ConditionTrue := by
  induction conditions with
  | nil => simp [IsReady]
  | cons a rest ih =>
    unfold IsReady
    by_cases h : a.type = ReadyType
    · simp [h]
    · simp [h, ih]

/-- With exactly one owned DataPlane whose options are the expected ones or
whose update succeeds, the Gateway has exactly one `DataPlaneReady` condition
after `provisionDataPlane`, and it reflects `IsReady` of the DataPlane. -/
theorem provisionDataPlane_reflects_child (k : Decls) (env : GatewayEnv) (gateway : Gateway)
    (gatewayConfig : GatewayConfiguration) (dataplane : DataPlane)
    (hlist : env.listDataPlanes = .ok [dataplane])
    (hwrite : dataplane.options = expectedDataplaneOptions k gatewayConfig ∨
      env.updateDataPlane = none) :
    ∃ condition : Condition,
      (GatewayReconciler.provisionDataPlane k env gateway gatewayConfig).conditions.filter
          (fun c => decide (c.type = k.DataPlaneReadyType)) = [condition] ∧
        ((condition.status = ConditionTrue ∧ condition.reason = ResourceReadyReason) ↔
          IsReady dataplane.conditions = true) ∧
        (IsReady dataplane.conditions = false →
          condition.status = ConditionFalse ∧
            condition.reason = WaitingToBecomeReadyReason) := by
  obtain ⟨conditions, hc⟩ :=
    provisionDataPlane_one_conditions k env gateway gatewayConfig dataplane hlist hwrite
  rw [hc]
  by_cases hr : IsReady dataplane.conditions = true
  · simp only [hr, if_true]
    refine ⟨_, SetCondition_filter_same
      (createDataPlaneCondition k env.now ConditionTrue ResourceReadyReason ""
        gateway.objectMeta.generation) conditions, ?_, ?_⟩
    · exact ⟨fun _ => trivial, fun _ => ⟨rfl, rfl⟩⟩
    · intro h
      exact absurd h (by simp)
  · have hf : IsReady dataplane.conditions = false := by simpa using hr
    simp only [hf, Bool.false_eq_true, if_false]
    refine ⟨_, SetCondition_filter_same
      (createDataPlaneCondition k env.now ConditionFalse WaitingToBecomeReadyReason
        WaitingToBecomeReadyMessage gateway.objectMeta.generation) conditions, ?_, ?_⟩
    · simp only [iff_false, not_and]
      intro h
      have hne : ConditionFalse ≠ ConditionTrue := by decide
      exact absurd h hne
    · intro _
      exact ⟨rfl, rfl⟩

/-- With a defaulting helper that returned `cfg` without error and exactly one
owned ControlPlane whose options pass the comparison or whose patch succeeds,
the Gateway has exactly one `ControlPlaneReady` condition after
`provisionControlPlane`, and it reflects `IsReady` of the ControlPlane. -/
theorem provisionControlPlane_reflects_child (k : Decls) (env2 : GatewayEnv)
    (gatewayClass : GatewayClass) (gateway2 : Gateway) (gatewayConfig2 cfg : GatewayConfiguration)
    (dataplane2 : DataPlane) (serviceName : String) (controlplane : ControlPlane)
    (hdef : k.setControlplaneGatewayConfigDefaults gateway2 gatewayConfig2
      dataplane2.objectMeta.name serviceName = (cfg, none))
    (hclist : env2.listControlPlanes = .ok [controlplane])
    (hpatch : controlplaneSpecDeepEqual controlplane.options (expectedControlplaneOptions k cfg)
        ["CONTROLLER_KONG_ADMIN_URL"] = true ∨ env2.patchControlPlane = none) :
    ∃ condition : Condition,
      (GatewayReconciler.provisionControlPlane k env2 gatewayClass gateway2 gatewayConfig2
          dataplane2 serviceName).conditions.filter
          (fun c => decide (c.type = k.ControlPlaneReadyType)) = [condition] ∧
        ((condition.status = ConditionTrue ∧ condition.reason = ResourceReadyReason) ↔
          IsReady controlplane.conditions = true) ∧
        (IsReady controlplane.conditions = false →
          condition.status = ConditionFalse ∧
            condition.reason = WaitingToBecomeReadyReason) := by
  obtain ⟨conditions, hc⟩ :=
    provisionControlPlane_one_conditions k env2 gatewayClass gateway2 gatewayConfig2 cfg
      dataplane2 serviceName controlplane hdef hclist hpatch
  rw [hc]
  by_cases hr : IsReady controlplane.conditions = true
  · simp only [hr, if_true]
    refine ⟨_, SetCondition_filter_same
      (createControlPlaneCondition k env2.now ConditionTrue ResourceReadyReason ""
        gateway2.objectMeta.generation) conditions, ?_, ?_⟩
    · exact ⟨fun _ => trivial, fun _ => ⟨rfl, rfl⟩⟩
    · intro h
      exact absurd h (by simp)
  · have hf : IsReady controlplane.conditions = false := by simpa using hr
    simp only [hf, Bool.false_eq_true, if_false]
    refine ⟨_, SetCondition_filter_same
      (createControlPlaneCondition k env2.now ConditionFalse WaitingToBecomeReadyReason
        WaitingToBecomeReadyMessage gateway2.objectMeta.generation) conditions, ?_, ?_⟩
    · simp only [iff_false, not_and]
      intro h
      have hne : ConditionFalse ≠ ConditionTrue := by decide
      exact absurd h hne
    · intro _
      exact ⟨rfl, rfl⟩

/-- C26 (as amended): for every Gateway with exactly one owned DataPlane whose
options are the expected ones or whose update succeeds, after
`provisionDataPlane` the Gateway has exactly one condition of type
`DataPlaneReady`; its status is `True` with reason `Ready` exactly when
`IsReady` holds of the DataPlane, and otherwise `False` with reason
`WaitingToBecomeReady`. The same holds of `provisionControlPlane` and
`ControlPlaneReady`, for exactly one owned ControlPlane whose options pass the
comparison or whose patch succeeds, when `setControlplaneGatewayConfigDefaults`
returns no error. When `setControlplaneGatewayConfigDefaults` returns an error,
the one `ControlPlaneReady` condition is `False` with the reason
`UnableToProvision` and the text of the error as message, whatever the Ready
condition of the ControlPlane. `IsReady` holds of a child exactly when its
first condition of type `Ready` exists and has status `True`. -/
theorem C26_ready_condition_reflects_child (k : Decls) (env : GatewayEnv) (gateway : Gateway)
    (gatewayConfig : GatewayConfiguration) (dataplane : DataPlane) (env2 : GatewayEnv)
    (gatewayClass : GatewayClass) (gateway2 : Gateway) (gatewayConfig2 : GatewayConfiguration)
    (dataplane2 : DataPlane) (serviceName : String) (controlplane : ControlPlane)
    (hlist : env.listDataPlanes = .ok [dataplane])
    (hwrite : dataplane.options = expectedDataplaneOptions k gatewayConfig ∨
      env.updateDataPlane = none)
    (hclist : env2.listControlPlanes = .ok [controlplane]) :
    (∃ condition : Condition,
        (GatewayReconciler.provisionDataPlane k env gateway gatewayConfig).conditions.filter
            (fun c => decide (c.type = k.DataPlaneReadyType)) = [condition] ∧
          ((condition.status = ConditionTrue ∧ condition.reason = ResourceReadyReason) ↔
            IsReady dataplane.conditions = true) ∧
          (IsReady dataplane.conditions = false →
            condition.status = ConditionFalse ∧
              condition.reason = WaitingToBecomeReadyReason)) ∧
      (∀ cfg : GatewayConfiguration,
        k.setControlplaneGatewayConfigDefaults gateway2 gatewayConfig2
          dataplane2.objectMeta.name serviceName = (cfg, none) →
        (controlplaneSpecDeepEqual controlplane.options (expectedControlplaneOptions k cfg)
            ["CONTROLLER_KONG_ADMIN_URL"] = true ∨ env2.patchControlPlane = none) →
        ∃ condition : Condition,
          (GatewayReconciler.provisionControlPlane k env2 gatewayClass gateway2 gatewayConfig2
              dataplane2 serviceName).conditions.filter
              (fun c => decide (c.type = k.ControlPlaneReadyType)) = [condition] ∧
            ((condition.status = ConditionTrue ∧ condition.reason = ResourceReadyReason) ↔
              IsReady controlplane.conditions = true) ∧
            (IsReady controlplane.conditions = false →
              condition.status = ConditionFalse ∧
                condition.reason = WaitingToBecomeReadyReason)) ∧
      (∀ (cfg : GatewayConfiguration) (err : Err),
        k.setControlplaneGatewayConfigDefaults gateway2 gatewayConfig2
          dataplane2.objectMeta.name serviceName = (cfg, some err) →
        ∃ condition : Condition,
          (GatewayReconciler.provisionControlPlane k env2 gatewayClass gateway2 gatewayConfig2
              dataplane2 serviceName).conditions.filter
              (fun c => decide (c.type = k.ControlPlaneReadyType)) = [condition] ∧
            condition.status = ConditionFalse ∧ condition.reason = UnableToProvisionReason ∧
            condition.message = err.Error) ∧
      (∀ conditions : List Condition,
        IsReady conditions = true ↔
          ∃ c, conditions.find? (fun x => decide (x.type = ReadyType)) = some c ∧
            c.status = ConditionTrue) := by
  refine ⟨provisionDataPlane_reflects_child k env gateway gatewayConfig dataplane hlist hwrite,
    ?_, ?_, IsReady_iff_find⟩
  · intro cfg hdef hpatch
    exact provisionControlPlane_reflects_child k env2 gatewayClass gateway2 gatewayConfig2 cfg
      dataplane2 serviceName controlplane hdef hclist hpatch
  · intro cfg err hdef
    rw [provisionControlPlane_defaults_fail k env2 gatewayClass gateway2 gatewayConfig2 cfg
      dataplane2 serviceName err hdef]
    exact ⟨_, SetCondition_filter_same
      (createControlPlaneCondition k env2.now ConditionFalse UnableToProvisionReason err.Error
        gateway2.objectMeta.generation) gateway2.conditions, rfl, rfl, rfl⟩

/-- Counterexample to C26 as stated: the one owned ControlPlane has a `Ready`
condition of status `True` and exactly the expected options, so no write is
due; `setControlplaneGatewayConfigDefaults` returns an error, and after
`provisionControlPlane` the `ControlPlaneReady` condition of the Gateway is
`False` with the reason `UnableToProvision`, not `True` with the reason
`Ready`. -/
theorem C26_counterexample :
    GatewayEnv.sampleReadyControlPlane.listControlPlanes = .ok [ControlPlane.sampleReady] ∧
    ControlPlane.sampleReady.options =
      expectedControlplaneOptions Decls.sampleFailingDefaults GatewayConfiguration.zero ∧
    IsReady ControlPlane.sampleReady.conditions = true ∧
    (GatewayReconciler.provisionControlPlane Decls.sampleFailingDefaults
        GatewayEnv.sampleReadyControlPlane GatewayClass.sample Gateway.sample
        GatewayConfiguration.zero DataPlane.sample "dp-1-proxy").conditions =
      [{ type := "ControlPlaneReady", status := "False", observedGeneration := 1,
         lastTransitionTime := 100, reason := "UnableToProvision",
         message := "defaults not set" }] ∧
    ("False", "UnableToProvision") ≠ (ConditionTrue, ResourceReadyReason) := by
  refine ⟨rfl, by decide, by decide, by decide, by decide⟩

/-- Witness of C26: one owned DataPlane with the expected options; one owned
ControlPlane that is ready, under a defaulting helper that succeeds. -/
theorem C26_ready_condition_reflects_child_witness :
    (∃ condition : Condition,
      (GatewayReconciler.provisionDataPlane Decls.sample GatewayEnv.sampleOneDataPlane
          Gateway.sample GatewayConfiguration.zero).conditions.filter
          (fun c => decide (c.type = Decls.sample.DataPlaneReadyType)) = [condition] ∧
        ((condition.status = ConditionTrue ∧ condition.reason = ResourceReadyReason) ↔
          IsReady DataPlane.sample.conditions = true) ∧
        (IsReady DataPlane.sample.conditions = false →
          condition.status = ConditionFalse ∧
            condition.reason = WaitingToBecomeReadyReason)) ∧
    (∃ condition : Condition,
      (GatewayReconciler.provisionControlPlane Decls.sample GatewayEnv.sampleReadyControlPlane
          GatewayClass.sample Gateway.sample GatewayConfiguration.zero DataPlane.sample
          "dp-1-proxy").conditions.filter
          (fun c => decide (c.type = Decls.sample.ControlPlaneReadyType)) = [condition] ∧
        ((condition.status = ConditionTrue ∧ condition.reason = ResourceReadyReason) ↔
          IsReady ControlPlane.sampleReady.conditions = true) ∧
        (IsReady ControlPlane.sampleReady.conditions = false →
          condition.status = ConditionFalse ∧
            condition.reason = WaitingToBecomeReadyReason)) :=
  ⟨(C26_ready_condition_reflects_child Decls.sample GatewayEnv.sampleOneDataPlane Gateway.sample
      GatewayConfiguration.zero DataPlane.sample GatewayEnv.sampleReadyControlPlane
      GatewayClass.sample Gateway.sample GatewayConfiguration.zero DataPlane.sample
      "dp-1-proxy" ControlPlane.sampleReady rfl (Or.inr rfl) rfl).1,
   (C26_ready_condition_reflects_child Decls.sample GatewayEnv.sampleOneDataPlane Gateway.sample
      GatewayConfiguration.zero DataPlane.sample GatewayEnv.sampleReadyControlPlane
      GatewayClass.sample Gateway.sample GatewayConfiguration.zero DataPlane.sample
      "dp-1-proxy" ControlPlane.sampleReady rfl (Or.inr rfl) rfl).2.1
        GatewayConfiguration.zero rfl (Or.inr rfl)⟩

/-! ## The readiness gates of the Gateway pass -/

theorem getGatewayConfigForGatewayClass_calls (k : Decls) (env : GatewayEnv)
    (gatewayClass : GatewayClass) :
    ∀ c ∈ (GatewayReconciler.getGatewayConfigForGatewayClass k env gatewayClass).1,
      c.isControlPlaneStep = false ∧ c.isNetworkPolicyStep = false := by
  unfold GatewayReconciler.getGatewayConfigForGatewayClass
  intro c hc
  split at hc
  · simp at hc
  · split at hc
    · simp at hc
    · split at hc
      · simp at hc
      · split at hc
        · simp at hc
        · simp at hc
          subst hc
          exact ⟨rfl, rfl⟩

theorem getOrCreateGatewayConfiguration_calls (k : Decls) (env : GatewayEnv)
    (gatewayClass : GatewayClass) :
    ∀ c ∈ (GatewayReconciler.getOrCreateGatewayConfiguration k env gatewayClass).1,
      c.isControlPlaneStep = false ∧ c.isNetworkPolicyStep = false := by
  have h := getGatewayConfigForGatewayClass_calls k env gatewayClass
  unfold GatewayReconciler.getOrCreateGatewayConfiguration
  generalize GatewayReconciler.getGatewayConfigForGatewayClass k env gatewayClass = res at h ⊢
  rcases res with ⟨calls, r⟩
  cases r with
  | error err =>
    by_cases he : err.Is .ErrObjectMissingParametersRef = true
    · simpa [he] using h
    · simpa [he] using h
  | ok cfg => simpa using h

theorem provisionDataPlane_calls (k : Decls) (env : GatewayEnv) (gateway : Gateway)
    (gatewayConfig : GatewayConfiguration) :
    ∀ c ∈ (GatewayReconciler.provisionDataPlane k env gateway gatewayConfig).calls,
      c.isControlPlaneStep = false ∧ c.isNetworkPolicyStep = false := by
  unfold GatewayReconciler.provisionDataPlane
  intro c hc
  simp only [] at hc
  split at hc
  · simp at hc; subst hc; exact ⟨rfl, rfl⟩
  · split at hc
    · simp at hc; subst hc; exact ⟨rfl, rfl⟩
    · split at hc <;>
      · simp at hc
        rcases hc with rfl | rfl <;> exact ⟨rfl, rfl⟩
    · split at hc
      · split at hc <;>
        · simp at hc
          rcases hc with rfl | rfl <;> exact ⟨rfl, rfl⟩
      · simp at hc; subst hc; exact ⟨rfl, rfl⟩

theorem notReadyGate_patches (env : GatewayEnv) (cType : String) (calls : List GatewayCall)
    (gateway oldGateway : Gateway)
    (hold : (GetCondition cType oldGateway.conditions).2 = false ∨
      (GetCondition cType oldGateway.conditions).1.status = ConditionTrue) :
    GatewayReconciler.notReadyGate env cType calls gateway oldGateway =
      { calls := calls ++ [.patchStatus gateway.conditions gateway.addresses],
        result := Result.zero, err := env.patchStatus, gateway := gateway } := by
  unfold GatewayReconciler.notReadyGate
  rcases hg : GetCondition cType oldGateway.conditions with ⟨condition, found⟩
  rw [hg] at hold
  rcases hold with h | h
  · simp only [] at h
    simp [h]
  · simp only [] at h
    simp [h]

theorem notReadyGate_silent (env : GatewayEnv) (cType : String) (calls : List GatewayCall)
    (gateway oldGateway : Gateway)
    (hold : ¬ ((GetCondition cType oldGateway.conditions).2 = false ∨
      (GetCondition cType oldGateway.conditions).1.status = ConditionTrue)) :
    GatewayReconciler.notReadyGate env cType calls gateway oldGateway =
      { calls := calls, result := Result.zero, err := none, gateway := gateway } := by
  unfold GatewayReconciler.notReadyGate
  rcases hg : GetCondition cType oldGateway.conditions with ⟨condition, found⟩
  rw [hg] at hold
  simp only [not_or] at hold
  have h1 : found = true := by simpa using hold.1
  simp [h1, hold.2]

theorem Reconcile_dataPlane_gate (k : Decls) (env : GatewayEnv) (gateway : Gateway)
    (gwc : GatewayClass) (calls2 : List GatewayCall) (cfg : GatewayConfiguration)
    (hdel : gateway.objectMeta.deletionTimestamp = none)
    (hfc : k.GatewayFinalizerCleanupControlPlanes ∈ gateway.objectMeta.finalizers)
    (hfd : k.GatewayFinalizerCleanupDataPlanes ∈ gateway.objectMeta.finalizers)
    (hfn : k.GatewayFinalizerCleanupNetworkpolicies ∈ gateway.objectMeta.finalizers)
    (hname : gateway.gatewayClassName ≠ "") (hclass : env.getGatewayClass = .ok gwc)
    (hctrl : gwc.controllerName = k.ControllerName) (hacc : k.isAccepted gwc = true)
    (hcfg : GatewayReconciler.getOrCreateGatewayConfiguration k env gwc = (calls2, .ok cfg))
    (hnot : IsValidCondition k.DataPlaneReadyType
      (GatewayReconciler.provisionDataPlane k env
        (GatewayReconciler.initialConditions k env gateway) cfg).conditions = false) :
    GatewayReconciler.Reconcile k env gateway =
      GatewayReconciler.notReadyGate env k.DataPlaneReadyType
        ([.getGatewayClass gateway.gatewayClassName] ++ calls2 ++
          (GatewayReconciler.provisionDataPlane k env
            (GatewayReconciler.initialConditions k env gateway) cfg).calls)
        ((GatewayReconciler.initialConditions k env gateway).withConditions
          (GatewayReconciler.provisionDataPlane k env
            (GatewayReconciler.initialConditions k env gateway) cfg).conditions)
        gateway := by
  unfold GatewayReconciler.Reconcile
  simp only [hdel]
  rw [EnsureFinalizersInMetadata_present _ _ _ _ hfc hfd hfn]
  simp only
  rw [verifyGatewayClassSupport_supported k env gateway gwc hname hclass hctrl]
  simp only [hacc, Bool.not_true, Bool.false_eq_true, if_false, hcfg]
  unfold GatewayReconciler.initialConditions at hnot ⊢
  simp only [] at hnot ⊢
  simp only [Gateway.withConditions] at hnot ⊢
  simp only [hnot, Bool.not_false, if_true]

theorem provisionControlPlane_calls (k : Decls) (env : GatewayEnv) (gatewayClass : GatewayClass)
    (gateway : Gateway) (gatewayConfig : GatewayConfiguration) (dataplane : DataPlane)
    (serviceName : String) :
    ∀ c ∈ (GatewayReconciler.provisionControlPlane k env gatewayClass gateway gatewayConfig
        dataplane serviceName).calls, c.isNetworkPolicyStep = false := by
  unfold GatewayReconciler.provisionControlPlane
  intro c hc
  simp only [] at hc
  split at hc
  · simp at hc
  · split at hc
    · simp at hc; subst hc; rfl
    · split at hc
      · simp at hc; subst hc; rfl
      · split at hc <;>
        · simp at hc
          rcases hc with rfl | rfl <;> rfl
      · split at hc
        · split at hc
          · simp at hc
            rcases hc with rfl | rfl <;> rfl
          · split at hc <;>
            · simp at hc
              rcases hc with rfl | rfl <;> rfl
        · split at hc <;>
          · simp at hc; subst hc; rfl

theorem reconcileControlPlane_gate (k : Decls) (env : GatewayEnv) (calls : List GatewayCall)
    (gwc : GatewayClass) (gateway oldGateway : Gateway) (gatewayConfig : GatewayConfiguration)
    (dataplane : DataPlane) (service : Service)
    (hsvc : env.listServices = .ok [service])
    (hnot : IsValidCondition k.ControlPlaneReadyType
      (GatewayReconciler.provisionControlPlane k env gwc gateway gatewayConfig dataplane
        service.name).conditions = false) :
    GatewayReconciler.reconcileControlPlane k env calls gwc gateway oldGateway gatewayConfig
        (some dataplane) =
      GatewayReconciler.notReadyGate env k.ControlPlaneReadyType
        (calls ++ [.listServices] ++
          (GatewayReconciler.provisionControlPlane k env gwc gateway gatewayConfig dataplane
            service.name).calls)
        (gateway.withConditions
          (GatewayReconciler.provisionControlPlane k env gwc gateway gatewayConfig dataplane
            service.name).conditions)
        oldGateway := by
  unfold GatewayReconciler.reconcileControlPlane
  simp only [hsvc, Gateway.withConditions] at hnot ⊢
  simp only [hnot, Bool.not_false, if_true]

theorem initialConditions_addresses (k : Decls) (env : GatewayEnv) (gateway : Gateway) :
    (GatewayReconciler.initialConditions k env gateway).addresses = gateway.addresses := by
  unfold GatewayReconciler.initialConditions
  simp only [Gateway.withConditions]
  split <;> rfl

/-- C27 (the claim as stated fails): the sample Gateway has one owned DataPlane
that is not ready and had no `DataPlaneReady` condition when read; the pass
stops at the gate with the patch of the status, the patch fails, and the pass
returns that error, not a successful result. -/
theorem C27_counterexample :
    IsValidCondition Decls.sample.DataPlaneReadyType
        (GatewayReconciler.Reconcile Decls.sample GatewayEnv.samplePatchStatusFails
          Gateway.sample).gateway.conditions = false ∧
      (GetCondition Decls.sample.DataPlaneReadyType Gateway.sample.conditions).2 = false ∧
      (GatewayReconciler.Reconcile Decls.sample GatewayEnv.samplePatchStatusFails
          Gateway.sample).err = some (.errorf "connection refused") := by
  refine ⟨by decide, by decide, by decide⟩

/-- C27 (amended): when the `DataPlaneReady` condition of the Gateway is not
valid after `provisionDataPlane`, the pass stops at the gate with the zero
result, having issued no ControlPlane and no NetworkPolicy step. It patches the
status of the Gateway exactly when the Gateway as read at the start of the pass
had no `DataPlaneReady` condition or had it with status `True`; the pass then
returns the error of the patch, which is nil when the patch succeeds, and a nil
error when no patch is issued. The same gate follows `provisionControlPlane`
with the `ControlPlaneReady` condition: the part of the pass after the
DataPlane gate then adds the list of the Services, the calls of
`provisionControlPlane` and, under the same test on the Gateway as read, the
patch of the status, and no NetworkPolicy step. -/
theorem C27_not_ready_gate (k : Decls) (env : GatewayEnv) (gateway : Gateway)
    (gwc : GatewayClass) (calls2 : List GatewayCall) (cfg : GatewayConfiguration)
    (env2 : GatewayEnv) (calls : List GatewayCall) (gwc2 : GatewayClass)
    (gateway2 oldGateway : Gateway) (gatewayConfig : GatewayConfiguration)
    (dataplane : DataPlane) (service : Service)
    (hdel : gateway.objectMeta.deletionTimestamp = none)
    (hfc : k.GatewayFinalizerCleanupControlPlanes ∈ gateway.objectMeta.finalizers)
    (hfd : k.GatewayFinalizerCleanupDataPlanes ∈ gateway.objectMeta.finalizers)
    (hfn : k.GatewayFinalizerCleanupNetworkpolicies ∈ gateway.objectMeta.finalizers)
    (hname : gateway.gatewayClassName ≠ "") (hclass : env.getGatewayClass = .ok gwc)
    (hctrl : gwc.controllerName = k.ControllerName) (hacc : k.isAccepted gwc = true)
    (hcfg : GatewayReconciler.getOrCreateGatewayConfiguration k env gwc = (calls2, .ok cfg))
    (hnot : IsValidCondition k.DataPlaneReadyType
      (GatewayReconciler.provisionDataPlane k env
        (GatewayReconciler.initialConditions k env gateway) cfg).conditions = false)
    (hsvc : env2.listServices = .ok [service])
    (hnot2 : IsValidCondition k.ControlPlaneReadyType
      (GatewayReconciler.provisionControlPlane k env2 gwc2 gateway2 gatewayConfig dataplane
        service.name).conditions = false) :
    ((GatewayReconciler.Reconcile k env gateway).result = Result.zero ∧
        (∀ c ∈ (GatewayReconciler.Reconcile k env gateway).calls,
          c.isControlPlaneStep = false ∧ c.isNetworkPolicyStep = false) ∧
        (((GetCondition k.DataPlaneReadyType gateway.conditions).2 = false ∨
            (GetCondition k.DataPlaneReadyType gateway.conditions).1.status = ConditionTrue) →
          (GatewayReconciler.Reconcile k env gateway).calls =
              [.getGatewayClass gateway.gatewayClassName] ++ calls2 ++
                (GatewayReconciler.provisionDataPlane k env
                  (GatewayReconciler.initialConditions k env gateway) cfg).calls ++
                [.patchStatus
                  (GatewayReconciler.provisionDataPlane k env
                    (GatewayReconciler.initialConditions k env gateway) cfg).conditions
                  gateway.addresses] ∧
            (GatewayReconciler.Reconcile k env gateway).err = env.patchStatus) ∧
        (¬ ((GetCondition k.DataPlaneReadyType gateway.conditions).2 = false ∨
            (GetCondition k.DataPlaneReadyType gateway.conditions).1.status = ConditionTrue) →
          (GatewayReconciler.Reconcile k env gateway).calls =
              [.getGatewayClass gateway.gatewayClassName] ++ calls2 ++
                (GatewayReconciler.provisionDataPlane k env
                  (GatewayReconciler.initialConditions k env gateway) cfg).calls ∧
            (GatewayReconciler.Reconcile k env gateway).err = none)) ∧
      ((GatewayReconciler.reconcileControlPlane k env2 calls gwc2 gateway2 oldGateway
            gatewayConfig (some dataplane)).result = Result.zero ∧
        (∀ c ∈ (GatewayReconciler.reconcileControlPlane k env2 calls gwc2 gateway2 oldGateway
            gatewayConfig (some dataplane)).calls, c ∈ calls ∨ c.isNetworkPolicyStep = false) ∧
        (((GetCondition k.ControlPlaneReadyType oldGateway.conditions).2 = false ∨
            (GetCondition k.ControlPlaneReadyType oldGateway.conditions).1.status =
              ConditionTrue) →
          (GatewayReconciler.reconcileControlPlane k env2 calls gwc2 gateway2 oldGateway
              gatewayConfig (some dataplane)).calls =
              calls ++ [.listServices] ++
                (GatewayReconciler.provisionControlPlane k env2 gwc2 gateway2 gatewayConfig
                  dataplane service.name).calls ++
                [.patchStatus
                  (GatewayReconciler.provisionControlPlane k env2 gwc2 gateway2 gatewayConfig
                    dataplane service.name).conditions
                  gateway2.addresses] ∧
            (GatewayReconciler.reconcileControlPlane k env2 calls gwc2 gateway2 oldGateway
              gatewayConfig (some dataplane)).err = env2.patchStatus) ∧
        (¬ ((GetCondition k.ControlPlaneReadyType oldGateway.conditions).2 = false ∨
            (GetCondition k.ControlPlaneReadyType oldGateway.conditions).1.status =
              ConditionTrue) →
          (GatewayReconciler.reconcileControlPlane k env2 calls gwc2 gateway2 oldGateway
              gatewayConfig (some dataplane)).calls =
              calls ++ [.listServices] ++
                (GatewayReconciler.provisionControlPlane k env2 gwc2 gateway2 gatewayConfig
                  dataplane service.name).calls ∧
            (GatewayReconciler.reconcileControlPlane k env2 calls gwc2 gateway2 oldGateway
              gatewayConfig (some dataplane)).err = none)) := by
  have hA := Reconcile_dataPlane_gate k env gateway gwc calls2 cfg hdel hfc hfd hfn hname hclass
    hctrl hacc hcfg hnot
  have hB := reconcileControlPlane_gate k env2 calls gwc2 gateway2 oldGateway gatewayConfig
    dataplane service hsvc hnot2
  have hcfgcalls := getOrCreateGatewayConfiguration_calls k env gwc
  rw [hcfg] at hcfgcalls
  have hprefix : ∀ c ∈ [GatewayCall.getGatewayClass gateway.gatewayClassName] ++ calls2 ++
      (GatewayReconciler.provisionDataPlane k env
        (GatewayReconciler.initialConditions k env gateway) cfg).calls,
      c.isControlPlaneStep = false ∧ c.isNetworkPolicyStep = false := by
    intro c hc
    simp only [List.mem_append, List.mem_singleton] at hc
    rcases hc with (hc | hc) | hc
    · subst hc; exact ⟨rfl, rfl⟩
    · exact hcfgcalls c hc
    · exact provisionDataPlane_calls k env _ cfg c hc
  constructor
  · rw [hA]
    by_cases hold : (GetCondition k.DataPlaneReadyType gateway.conditions).2 = false ∨
        (GetCondition k.DataPlaneReadyType gateway.conditions).1.status = ConditionTrue
    · rw [notReadyGate_patches env _ _ _ _ hold]
      refine ⟨rfl, ?_, fun _ => ⟨?_, rfl⟩, fun h => absurd hold h⟩
      swap
      · simp only [Gateway.withConditions, initialConditions_addresses]
      intro c hc
      rcases List.mem_append.mp hc with hc | hc
      · exact hprefix c hc
      · rw [List.mem_singleton] at hc
        subst hc
        exact ⟨rfl, rfl⟩
    · rw [notReadyGate_silent env _ _ _ _ hold]
      exact ⟨rfl, hprefix, fun h => absurd h hold, fun _ => ⟨rfl, rfl⟩⟩
  · rw [hB]
    have hadded : ∀ c ∈ calls ++ [GatewayCall.listServices] ++
        (GatewayReconciler.provisionControlPlane k env2 gwc2 gateway2 gatewayConfig dataplane
          service.name).calls, c ∈ calls ∨ c.isNetworkPolicyStep = false := by
      intro c hc
      simp only [List.mem_append, List.mem_singleton] at hc
      rcases hc with (hc | hc) | hc
      · exact Or.inl hc
      · subst hc; exact Or.inr rfl
      · exact Or.inr (provisionControlPlane_calls k env2 gwc2 gateway2 gatewayConfig dataplane
          service.name c hc)
    by_cases hold : (GetCondition k.ControlPlaneReadyType oldGateway.conditions).2 = false ∨
        (GetCondition k.ControlPlaneReadyType oldGateway.conditions).1.status = ConditionTrue
    · rw [notReadyGate_patches env2 _ _ _ _ hold]
      refine ⟨rfl, ?_, fun _ => ⟨rfl, rfl⟩, fun h => absurd hold h⟩
      intro c hc
      rcases List.mem_append.mp hc with hc | hc
      · exact hadded c hc
      · rw [List.mem_singleton] at hc
        subst hc
        exact Or.inr rfl
    · rw [notReadyGate_silent env2 _ _ _ _ hold]
      exact ⟨rfl, hadded, fun h => absurd h hold, fun _ => ⟨rfl, rfl⟩⟩

theorem C27_not_ready_gate_witness :
    (GatewayReconciler.Reconcile Decls.sample GatewayEnv.sampleOneDataPlane
        Gateway.sample).result = Result.zero ∧
      (GatewayReconciler.Reconcile Decls.sample GatewayEnv.sampleOneDataPlane
        Gateway.sample).err = GatewayEnv.sampleOneDataPlane.patchStatus :=
  ⟨(C27_not_ready_gate Decls.sample GatewayEnv.sampleOneDataPlane Gateway.sample
      GatewayClass.sample [] GatewayConfiguration.zero GatewayEnv.sampleTwoControlPlanes []
      GatewayClass.sample Gateway.sample Gateway.sample GatewayConfiguration.zero
      DataPlane.sample Service.sample rfl (by decide) (by decide) (by decide) (by decide) rfl rfl
      rfl rfl (by decide) rfl (by decide)).1.1,
    ((C27_not_ready_gate Decls.sample GatewayEnv.sampleOneDataPlane Gateway.sample
      GatewayClass.sample [] GatewayConfiguration.zero GatewayEnv.sampleTwoControlPlanes []
      GatewayClass.sample Gateway.sample Gateway.sample GatewayConfiguration.zero
      DataPlane.sample Service.sample rfl (by decide) (by decide) (by decide) (by decide) rfl rfl
      rfl rfl (by decide) rfl (by decide)).1.2.2.1 (Or.inl (by decide))).2⟩

/-! ## Validation of the DataPlane -/

/-- C25, the code at the failing input: the environment holds `KONG_DATABASE`
twice, first with the value `postgres` and last with the empty value, both
literal. The last appearance is empty, yet `ValidateDeployOptions` returns the
error for the database backend `postgres`. -/
theorem C25_last_empty_value_ignored :
    (EnvVar.samplePostgresThenEmpty.getLast?.map (fun envVar => (envVar.name, envVar.value)) =
        some ("KONG_DATABASE", "")) ∧
      (∀ envVar ∈ EnvVar.samplePostgresThenEmpty, envVar.valueFrom = none) ∧
      Validator.ValidateDeployOptions Decls.sample Validator.sample "default"
          EnvVar.samplePostgresThenEmpty =
        some (.errorf "database backend postgres of dataplane not supported currently") := by
  refine ⟨by decide, by decide, by decide⟩

/-- C28, the code at the failing input: the options have no pod template, hence
no controller container. The first call of `setControlPlaneDefaults` returns
true and appends a controller container whose environment is empty, so the
container stored in the options carries none of the computed defaults; the
second call with the same arguments returns true again and changes the
options. -/
theorem C28_absent_container_not_idempotent :
    hasControllerContainer Decls.sample ControlPlaneOptions.zero = false ∧
      (setControlPlaneDefaults Decls.sample ControlPlaneOptions.zero []
        controlPlaneDefaultsArgs.sample).2 = true ∧
      controllerEnv Decls.sample
        (setControlPlaneDefaults Decls.sample ControlPlaneOptions.zero []
          controlPlaneDefaultsArgs.sample).1 = [] ∧
      (setControlPlaneDefaults Decls.sample
        (setControlPlaneDefaults Decls.sample ControlPlaneOptions.zero []
          controlPlaneDefaultsArgs.sample).1 [] controlPlaneDefaultsArgs.sample).2 = true ∧
      (setControlPlaneDefaults Decls.sample
        (setControlPlaneDefaults Decls.sample ControlPlaneOptions.zero []
          controlPlaneDefaultsArgs.sample).1 [] controlPlaneDefaultsArgs.sample).1 ≠
        (setControlPlaneDefaults Decls.sample ControlPlaneOptions.zero []
          controlPlaneDefaultsArgs.sample).1 := by
  refine ⟨by decide, by decide, by decide, by decide, by decide⟩

/-! ## Duplicate children of a Gateway -/

theorem initialConditions_generation (k : Decls) (env : GatewayEnv) (gateway : Gateway) :
    (GatewayReconciler.initialConditions k env gateway).objectMeta.generation =
      gateway.objectMeta.generation := by
  unfold GatewayReconciler.initialConditions
  simp only [Gateway.withConditions]
  split <;> rfl

/-- When the `DataPlaneReady` condition is valid after `provisionDataPlane`,
exactly one owned DataPlane was listed, the step returns a DataPlane, and each
of its calls is the list or the update of that DataPlane to the expected
options. -/
theorem provisionDataPlane_valid (k : Decls) (env : GatewayEnv) (gateway : Gateway)
    (gatewayConfig : GatewayConfiguration)
    (hvalid : IsValidCondition k.DataPlaneReadyType
      (GatewayReconciler.provisionDataPlane k env gateway gatewayConfig).conditions = true) :
    ∃ dataplane : DataPlane, env.listDataPlanes = .ok [dataplane] ∧
      (∃ object, (GatewayReconciler.provisionDataPlane k env gateway gatewayConfig).object =
        some object) ∧
      ∀ c ∈ (GatewayReconciler.provisionDataPlane k env gateway gatewayConfig).calls,
        c = .listDataPlanes ∨
          c = .updateDataPlane
            { dataplane with options := expectedDataplaneOptions k gatewayConfig } := by
  unfold expectedDataplaneOptions
  unfold GatewayReconciler.provisionDataPlane at hvalid ⊢
  simp only [] at hvalid ⊢
  generalize k.setDataplaneGatewayConfigDefaults gatewayConfig = cfg0 at hvalid ⊢
  cases hl : env.listDataPlanes with
  | error err =>
    simp only [hl, IsValidCondition_dataPlane_false] at hvalid
    exact absurd hvalid (by simp)
  | ok dataplanes =>
    rcases dataplanes with _ | ⟨dataplane, _ | ⟨d2, rest⟩⟩
    · simp only [hl] at hvalid
      cases hcreate : env.createDataPlane <;>
      · simp only [hcreate, IsValidCondition_dataPlane_false] at hvalid
        exact absurd hvalid (by simp)
    · refine ⟨dataplane, rfl, ?_⟩
      simp only [hl] at hvalid ⊢
      rcases cfg0 with ⟨m, dpo, cpo⟩
      cases dpo <;>
      · simp only [Option.getD_none, Option.getD_some, dataplaneSpecDeepEqual] at hvalid ⊢
        generalize setDataPlaneOptionsDefaults k _ = expected at hvalid ⊢
        by_cases heq : dataplane.options = expected
        · simp only [heq, decide_True, Bool.not_true, Bool.false_eq_true, if_false]
          refine ⟨⟨_, rfl⟩, ?_⟩
          intro c hc
          simp only [List.mem_singleton] at hc
          exact Or.inl hc
        · simp only [heq, decide_False, Bool.not_false, if_true] at hvalid ⊢
          cases hu : env.updateDataPlane with
          | some err =>
            simp only [hu, IsValidCondition_dataPlane_false] at hvalid
            exact absurd hvalid (by simp)
          | none =>
            simp only []
            refine ⟨⟨_, rfl⟩, ?_⟩
            intro c hc
            simp only [List.mem_cons, List.mem_singleton, List.not_mem_nil, or_false] at hc
            rcases hc with rfl | rfl
            · exact Or.inl rfl
            · exact Or.inr rfl
    · simp only [hl, IsValidCondition_dataPlane_false] at hvalid
      exact absurd hvalid (by simp)

/-- A supported Gateway whose `DataPlaneReady` condition is valid after
`provisionDataPlane` goes on to the part of the pass after the DataPlane gate
(line 256 on). -/
theorem Reconcile_past_dataPlane_gate (k : Decls) (env : GatewayEnv) (gateway : Gateway)
    (gwc : GatewayClass) (calls2 : List GatewayCall) (cfg : GatewayConfiguration)
    (hdel : gateway.objectMeta.deletionTimestamp = none)
    (hfc : k.GatewayFinalizerCleanupControlPlanes ∈ gateway.objectMeta.finalizers)
    (hfd : k.GatewayFinalizerCleanupDataPlanes ∈ gateway.objectMeta.finalizers)
    (hfn : k.GatewayFinalizerCleanupNetworkpolicies ∈ gateway.objectMeta.finalizers)
    (hname : gateway.gatewayClassName ≠ "") (hclass : env.getGatewayClass = .ok gwc)
    (hctrl : gwc.controllerName = k.ControllerName) (hacc : k.isAccepted gwc = true)
    (hcfg : GatewayReconciler.getOrCreateGatewayConfiguration k env gwc = (calls2, .ok cfg))
    (hvalid : IsValidCondition k.DataPlaneReadyType
      (GatewayReconciler.provisionDataPlane k env
        (GatewayReconciler.initialConditions k env gateway) cfg).conditions = true) :
    GatewayReconciler.Reconcile k env gateway =
      GatewayReconciler.reconcileControlPlane k env
        ([.getGatewayClass gateway.gatewayClassName] ++ calls2 ++
          (GatewayReconciler.provisionDataPlane k env
            (GatewayReconciler.initialConditions k env gateway) cfg).calls)
        gwc
        ((GatewayReconciler.initialConditions k env gateway).withConditions
          (GatewayReconciler.provisionDataPlane k env
            (GatewayReconciler.initialConditions k env gateway) cfg).conditions)
        gateway
        (GatewayReconciler.provisionDataPlane k env
          (GatewayReconciler.initialConditions k env gateway) cfg).gatewayConfig
        (GatewayReconciler.provisionDataPlane k env
          (GatewayReconciler.initialConditions k env gateway) cfg).object := by
  unfold GatewayReconciler.Reconcile
  simp only [hdel]
  rw [EnsureFinalizersInMetadata_present _ _ _ _ hfc hfd hfn]
  simp only
  rw [verifyGatewayClassSupport_supported k env gateway gwc hname hclass hctrl]
  simp only [hacc, Bool.not_true, Bool.false_eq_true, if_false, hcfg]
  unfold GatewayReconciler.initialConditions at hvalid ⊢
  simp only [] at hvalid ⊢
  simp only [Gateway.withConditions] at hvalid ⊢
  simp only [hvalid, Bool.not_true, Bool.false_eq_true, if_false]

/-- With two or more owned ControlPlanes listed, `provisionControlPlane`
returns no ControlPlane, issues at most the list, and records a
`ControlPlaneReady` condition of status `False` and reason `UnableToProvision`;
its message gives the number found when the defaulting helper returned no
error, and is the text of the error of the helper otherwise. -/
theorem provisionControlPlane_duplicates (k : Decls) (env : GatewayEnv)
    (gatewayClass : GatewayClass) (gateway : Gateway) (gatewayConfig : GatewayConfiguration)
    (dataplane : DataPlane) (serviceName : String) (c1 c2 : ControlPlane)
    (rest : List ControlPlane) (h : env.listControlPlanes = .ok (c1 :: c2 :: rest)) :
    ∃ message : String,
      (GatewayReconciler.provisionControlPlane k env gatewayClass gateway gatewayConfig dataplane
          serviceName).conditions =
        SetCondition
          (createControlPlaneCondition k env.now ConditionFalse UnableToProvisionReason message
            gateway.objectMeta.generation) gateway.conditions ∧
      (∀ c ∈ (GatewayReconciler.provisionControlPlane k env gatewayClass gateway gatewayConfig
          dataplane serviceName).calls, c = .listControlPlanes) ∧
      (GatewayReconciler.provisionControlPlane k env gatewayClass gateway gatewayConfig dataplane
          serviceName).object = none ∧
      ((k.setControlplaneGatewayConfigDefaults gateway gatewayConfig dataplane.objectMeta.name
          serviceName).2 = none →
        message = "control plane deployments found: " ++ toString (c1 :: c2 :: rest).length ++
          ", expected: 1, requeing") ∧
      (∀ err, (k.setControlplaneGatewayConfigDefaults gateway gatewayConfig
          dataplane.objectMeta.name serviceName).2 = some err → message = err.Error) := by
  cases hd : k.setControlplaneGatewayConfigDefaults gateway gatewayConfig
      dataplane.objectMeta.name serviceName with
  | mk cfg r =>
    cases r with
    | none =>
      rw [provisionControlPlane_many k env gatewayClass gateway gatewayConfig cfg dataplane
        serviceName c1 c2 rest hd h]
      refine ⟨_, rfl, ?_, rfl, fun _ => rfl, ?_⟩
      · intro c hc
        simpa using hc
      · intro err he
        cases he
    | some err =>
      rw [provisionControlPlane_defaults_fail k env gatewayClass gateway gatewayConfig cfg
        dataplane serviceName err hd]
      refine ⟨_, rfl, ?_, rfl, ?_, ?_⟩
      · intro c hc
        simp at hc
      · intro he
        cases he
      · intro err2 he
        simp only [Option.some.injEq] at he
        rw [he]

theorem initialConditions_eq (k : Decls) (env : GatewayEnv) (gateway : Gateway) :
    ∃ conditions : List Condition,
      GatewayReconciler.initialConditions k env gateway = gateway.withConditions conditions := by
  unfold GatewayReconciler.initialConditions
  simp only [Gateway.withConditions]
  split <;> exact ⟨_, rfl⟩

/-- A supported Gateway whose one DataPlane is ready, with its one Service
listed and two or more owned ControlPlanes: the pass ends at the ControlPlane
gate. -/
theorem Reconcile_many_controlplanes (k : Decls) (env : GatewayEnv) (gateway : Gateway)
    (gwc : GatewayClass) (cfg : GatewayConfiguration) (service : Service)
    (c1 c2 : ControlPlane) (crest : List ControlPlane)
    (hdel : gateway.objectMeta.deletionTimestamp = none)
    (hfc : k.GatewayFinalizerCleanupControlPlanes ∈ gateway.objectMeta.finalizers)
    (hfd : k.GatewayFinalizerCleanupDataPlanes ∈ gateway.objectMeta.finalizers)
    (hfn : k.GatewayFinalizerCleanupNetworkpolicies ∈ gateway.objectMeta.finalizers)
    (hname : gateway.gatewayClassName ≠ "") (hclass : env.getGatewayClass = .ok gwc)
    (hctrl : gwc.controllerName = k.ControllerName) (hacc : k.isAccepted gwc = true)
    (hcfg : (GatewayReconciler.getOrCreateGatewayConfiguration k env gwc).2 = .ok cfg)
    (hvalid : IsValidCondition k.DataPlaneReadyType
      (GatewayReconciler.provisionDataPlane k env
        (GatewayReconciler.initialConditions k env gateway) cfg).conditions = true)
    (hsvc : env.listServices = .ok [service])
    (hclist : env.listControlPlanes = .ok (c1 :: c2 :: crest)) :
    ∃ (dataplane : DataPlane) (message : String) (conditions : List Condition)
        (calls : List GatewayCall),
      env.listDataPlanes = .ok [dataplane] ∧
      (∀ c ∈ calls, c.isRead = true ∨
        c = .updateDataPlane { dataplane with options := expectedDataplaneOptions k cfg }) ∧
      ((∀ g c n s, (k.setControlplaneGatewayConfigDefaults g c n s).2 = none) →
        message = "control plane deployments found: " ++
          toString (c1 :: c2 :: crest).length ++ ", expected: 1, requeing") ∧
      GatewayReconciler.Reconcile k env gateway =
        GatewayReconciler.notReadyGate env k.ControlPlaneReadyType calls
          (gateway.withConditions (SetCondition
            (createControlPlaneCondition k env.now ConditionFalse UnableToProvisionReason
              message gateway.objectMeta.generation) conditions))
          gateway := by
  have hreads := getOrCreateGatewayConfiguration_reads k env gwc
  generalize hres : GatewayReconciler.getOrCreateGatewayConfiguration k env gwc = res
    at hcfg hreads
  rcases res with ⟨calls2, r⟩
  simp only at hcfg hreads
  subst hcfg
  rw [Reconcile_past_dataPlane_gate k env gateway gwc calls2 cfg hdel hfc hfd hfn hname hclass
    hctrl hacc hres hvalid]
  obtain ⟨dataplane, hlist, ⟨object, hobj⟩, hpcalls⟩ :=
    provisionDataPlane_valid k env (GatewayReconciler.initialConditions k env gateway) cfg hvalid
  obtain ⟨conds, hinit⟩ := initialConditions_eq k env gateway
  rw [hobj]
  rw [hinit] at hpcalls ⊢
  generalize GatewayReconciler.provisionDataPlane k env (gateway.withConditions conds) cfg = p
    at hpcalls ⊢
  obtain ⟨message, hcond, hccalls, _, hmsg, _⟩ :=
    provisionControlPlane_duplicates k env gwc
      ((gateway.withConditions conds).withConditions p.conditions) p.gatewayConfig
      object service.name c1 c2 crest hclist
  have hnot : IsValidCondition k.ControlPlaneReadyType
      (GatewayReconciler.provisionControlPlane k env gwc
        ((gateway.withConditions conds).withConditions p.conditions) p.gatewayConfig
        object service.name).conditions = false := by
    rw [hcond]
    exact IsValidCondition_controlPlane_false k env.now _ _ _ _
  rw [reconcileControlPlane_gate k env _ gwc _ gateway _ object service hsvc hnot, hcond]
  refine ⟨dataplane, message, p.conditions,
    [.getGatewayClass gateway.gatewayClassName] ++ calls2 ++ p.calls ++ [.listServices] ++
      (GatewayReconciler.provisionControlPlane k env gwc
        ((gateway.withConditions conds).withConditions p.conditions) p.gatewayConfig
        object service.name).calls, hlist, ?_, ?_, rfl⟩
  · intro c hc
    simp only [List.mem_append, List.mem_singleton] at hc
    rcases hc with (((hc | hc) | hc) | hc) | hc
    · subst hc
      exact Or.inl rfl
    · exact Or.inl (hreads c hc)
    · rcases hpcalls c hc with h | h
      · subst h
        exact Or.inl rfl
      · exact Or.inr h
    · subst hc
      exact Or.inl rfl
    · rw [hccalls c hc]
      exact Or.inl rfl
  · intro hall
    exact hmsg (hall _ _ _ _)

/-- C7 (as amended): a supported Gateway with two or more owned DataPlanes, or,
in a pass in which the DataPlaneReady condition is valid after
`provisionDataPlane` and exactly one Service of the DataPlane is listed, with
two or more owned ControlPlanes, has the ambiguity recorded in its conditions
and not in the returned error. The pass ends at the readiness gate with the
zero result; an error is returned only when the status patch fails, and it is
the error of that patch; and the Gateway is left with exactly one
DataPlaneReady (resp. ControlPlaneReady) condition, of status `False` and
reason `UnableToProvision`, whose message gives the number found (for the
ControlPlanes: when `setControlplaneGatewayConfigDefaults` returns no error).
The provisioning step returns no child.
With duplicate DataPlanes every call of the pass is a read or the status
patch. With duplicate ControlPlanes every call of the pass is a read, the
status patch, or the update of the one owned DataPlane to the expected
options: no ControlPlane is created, patched or deleted. -/
theorem C7_duplicate_children_recorded_in_condition (k : Decls) (env : GatewayEnv)
    (gateway : Gateway) (gwc : GatewayClass) (cfg : GatewayConfiguration)
    (hdel : gateway.objectMeta.deletionTimestamp = none)
    (hfc : k.GatewayFinalizerCleanupControlPlanes ∈ gateway.objectMeta.finalizers)
    (hfd : k.GatewayFinalizerCleanupDataPlanes ∈ gateway.objectMeta.finalizers)
    (hfn : k.GatewayFinalizerCleanupNetworkpolicies ∈ gateway.objectMeta.finalizers)
    (hname : gateway.gatewayClassName ≠ "") (hclass : env.getGatewayClass = .ok gwc)
    (hctrl : gwc.controllerName = k.ControllerName) (hacc : k.isAccepted gwc = true)
    (hcfg : (GatewayReconciler.getOrCreateGatewayConfiguration k env gwc).2 = .ok cfg) :
    (∀ (d1 d2 : DataPlane) (rest : List DataPlane),
      env.listDataPlanes = .ok (d1 :: d2 :: rest) →
      (∀ e, (GatewayReconciler.Reconcile k env gateway).err = some e →
        env.patchStatus = some e) ∧
      (GatewayReconciler.Reconcile k env gateway).result = Result.zero ∧
      (∀ c ∈ (GatewayReconciler.Reconcile k env gateway).calls,
        c.isReadOrStatusPatch = true) ∧
      (GatewayReconciler.Reconcile k env gateway).gateway.conditions.filter
          (fun c => decide (c.type = k.DataPlaneReadyType)) =
        [createDataPlaneCondition k env.now ConditionFalse UnableToProvisionReason
          ("data plane deployments found: " ++ toString (d1 :: d2 :: rest).length ++
            ", expected: 1") gateway.objectMeta.generation] ∧
      (∀ (g : Gateway) (c : GatewayConfiguration),
        (GatewayReconciler.provisionDataPlane k env g c).object = none)) ∧
    (∀ (service : Service) (c1 c2 : ControlPlane) (crest : List ControlPlane),
      IsValidCondition k.DataPlaneReadyType
        (GatewayReconciler.provisionDataPlane k env
          (GatewayReconciler.initialConditions k env gateway) cfg).conditions = true →
      env.listServices = .ok [service] →
      env.listControlPlanes = .ok (c1 :: c2 :: crest) →
      (∀ e, (GatewayReconciler.Reconcile k env gateway).err = some e →
        env.patchStatus = some e) ∧
      (GatewayReconciler.Reconcile k env gateway).result = Result.zero ∧
      (∃ dataplane : DataPlane, env.listDataPlanes = .ok [dataplane] ∧
        ∀ c ∈ (GatewayReconciler.Reconcile k env gateway).calls,
          c.isReadOrStatusPatch = true ∨
            c = .updateDataPlane
              { dataplane with options := expectedDataplaneOptions k cfg }) ∧
      (∃ message : String,
        (GatewayReconciler.Reconcile k env gateway).gateway.conditions.filter
            (fun c => decide (c.type = k.ControlPlaneReadyType)) =
          [createControlPlaneCondition k env.now ConditionFalse UnableToProvisionReason
            message gateway.objectMeta.generation] ∧
        ((∀ g c n s, (k.setControlplaneGatewayConfigDefaults g c n s).2 = none) →
          message = "control plane deployments found: " ++
            toString (c1 :: c2 :: crest).length ++ ", expected: 1, requeing")) ∧
      (∀ (gc : GatewayClass) (g : Gateway) (c : GatewayConfiguration) (d : DataPlane)
          (s : String),
        (GatewayReconciler.provisionControlPlane k env gc g c d s).object = none)) := by
  constructor
  · intro d1 d2 rest hlist
    obtain ⟨conditions, calls1, hreads, heq⟩ :=
      Reconcile_many_dataplanes k env gateway gwc cfg d1 d2 rest hdel hfc hfd hfn hname hclass
        hctrl hacc hcfg hlist
    rw [heq]
    obtain ⟨herr, hres, hgw, hcalls⟩ := notReadyGate_spec env k.DataPlaneReadyType calls1
      (gateway.withConditions (SetCondition
        (createDataPlaneCondition k env.now ConditionFalse UnableToProvisionReason
          ("data plane deployments found: " ++ toString (d1 :: d2 :: rest).length ++
            ", expected: 1") gateway.objectMeta.generation) conditions)) gateway
    refine ⟨?_, hres, ?_, ?_, ?_⟩
    · intro e he
      rcases herr with h | h
      · rw [h] at he
        cases he
      · rw [← h]
        exact he
    · intro c hc
      rcases hcalls c hc with h | h
      · exact isReadOrStatusPatch_of_isRead c (hreads c h)
      · subst h
        rfl
    · rw [hgw]
      exact SetCondition_filter_same
        (createDataPlaneCondition k env.now ConditionFalse UnableToProvisionReason _
          gateway.objectMeta.generation) conditions
    · intro g c
      rw [provisionDataPlane_many k env g c d1 d2 rest hlist]
  · intro service c1 c2 crest hvalid hsvc hclist
    obtain ⟨dataplane, message, conditions, calls1, hlist, hcalls1, hmsg, heq⟩ :=
      Reconcile_many_controlplanes k env gateway gwc cfg service c1 c2 crest hdel hfc hfd hfn
        hname hclass hctrl hacc hcfg hvalid hsvc hclist
    rw [heq]
    obtain ⟨herr, hres, hgw, hcalls⟩ := notReadyGate_spec env k.ControlPlaneReadyType calls1
      (gateway.withConditions (SetCondition
        (createControlPlaneCondition k env.now ConditionFalse UnableToProvisionReason
          message gateway.objectMeta.generation) conditions)) gateway
    refine ⟨?_, hres, ⟨dataplane, hlist, ?_⟩, ⟨message, ?_, hmsg⟩, ?_⟩
    · intro e he
      rcases herr with h | h
      · rw [h] at he
        cases he
      · rw [← h]
        exact he
    · intro c hc
      rcases hcalls c hc with h | h
      · rcases hcalls1 c h with h1 | h1
        · exact Or.inl (isReadOrStatusPatch_of_isRead c h1)
        · exact Or.inr h1
      · subst h
        exact Or.inl rfl
    · rw [hgw]
      exact SetCondition_filter_same
        (createControlPlaneCondition k env.now ConditionFalse UnableToProvisionReason message
          gateway.objectMeta.generation) conditions
    · intro gc g c d s
      obtain ⟨_, _, _, hobj, _⟩ :=
        provisionControlPlane_duplicates k env gc g c d s c1 c2 crest hclist
      exact hobj

/-- Counterexample to C7 as stated: the sample Gateway is supported and two
owned DataPlanes are listed, yet the pass returns no error. -/
theorem C7_counterexample :
    (∃ d1 d2, GatewayEnv.sampleTwoDataPlanes.listDataPlanes = .ok [d1, d2]) ∧
    (GatewayReconciler.verifyGatewayClassSupport Decls.sample GatewayEnv.sampleTwoDataPlanes
        Gateway.sample).2 = .ok GatewayClass.sample ∧
    (GatewayReconciler.Reconcile Decls.sample GatewayEnv.sampleTwoDataPlanes
        Gateway.sample).err = none := by
  refine ⟨⟨_, _, rfl⟩, ?_, ?_⟩
  · rfl
  · rfl

/-- Witness of C7: the sample Gateway with two owned DataPlanes, and the sample
Gateway with one ready DataPlane, its Service and two owned ControlPlanes. -/
theorem C7_duplicate_children_recorded_in_condition_witness :
    GatewayEnv.sampleTwoDataPlanes.listDataPlanes =
        .ok [DataPlane.sample,
          { DataPlane.sample with
            objectMeta :=
              { DataPlane.sample.objectMeta with name := "dp-2", uid := "uid-dp-2" } }] ∧
    (GatewayReconciler.Reconcile Decls.sample GatewayEnv.sampleTwoDataPlanes
        Gateway.sample).result = Result.zero ∧
    GatewayEnv.sampleReadyDataPlaneTwoControlPlanes.listControlPlanes =
        .ok [ControlPlane.sample, ControlPlane.sampleWithAdminURL] ∧
    IsValidCondition Decls.sample.DataPlaneReadyType
        (GatewayReconciler.provisionDataPlane Decls.sample
          GatewayEnv.sampleReadyDataPlaneTwoControlPlanes
          (GatewayReconciler.initialConditions Decls.sample
            GatewayEnv.sampleReadyDataPlaneTwoControlPlanes Gateway.sample)
          GatewayConfiguration.zero).conditions = true ∧
    (GatewayReconciler.Reconcile Decls.sample GatewayEnv.sampleReadyDataPlaneTwoControlPlanes
        Gateway.sample).result = Result.zero :=
  ⟨rfl,
    ((C7_duplicate_children_recorded_in_condition Decls.sample GatewayEnv.sampleTwoDataPlanes
      Gateway.sample GatewayClass.sample GatewayConfiguration.zero
      rfl (by decide) (by decide) (by decide) (by decide) rfl rfl rfl rfl).1 _ _ [] rfl).2.1,
    rfl, by decide,
    ((C7_duplicate_children_recorded_in_condition Decls.sample
      GatewayEnv.sampleReadyDataPlaneTwoControlPlanes Gateway.sample GatewayClass.sample
      GatewayConfiguration.zero
      rfl (by decide) (by decide) (by decide) (by decide) rfl rfl rfl rfl).2 Service.sample
        ControlPlane.sample ControlPlane.sampleWithAdminURL [] (by decide) rfl rfl).2.1⟩

/-- A pass that meets two owned ControlPlanes after it has updated the one
owned DataPlane: the sample Gateway with one ready DataPlane whose options are
not the expected ones, its Service and two ControlPlanes. The calls are the
read of the class, the list of the DataPlanes, the update of the DataPlane, the
list of the Services, the list of the ControlPlanes and the status patch. -/
theorem Reconcile_duplicate_controlplanes_after_update :
    DataPlane.sampleReadyStale.options ≠
        expectedDataplaneOptions Decls.sample GatewayConfiguration.zero ∧
    ((GatewayReconciler.Reconcile Decls.sample GatewayEnv.sampleStaleDataPlaneTwoControlPlanes
        Gateway.sample).calls.map
      (fun c => (c.isReadOrStatusPatch,
        decide (c = .updateDataPlane
          { DataPlane.sampleReadyStale with
            options := expectedDataplaneOptions Decls.sample GatewayConfiguration.zero })))) =
      [(true, false), (true, false), (false, true), (true, false), (true, false),
       (true, false)] ∧
    (GatewayReconciler.Reconcile Decls.sample GatewayEnv.sampleStaleDataPlaneTwoControlPlanes
        Gateway.sample).err = none := by
  refine ⟨by decide, by decide, by decide⟩

end GatewayOperator
